import Mathlib

/-!
# SafeSpace chat platform: alias allocator, session lifecycle and unread counts

A shallow embedding of the server-side handlers and of the client's message
loading

* `api/_lib/anonNumber.js`   (`ensureAnonNumber`, `formatAnonLabel`)
* `api/auth/login.js`        (`assignAnonNumber`, login handler)
* `api/companion/close.js`   (close handler)
* `api/companion/read.js`    (mark-read handler)
* `api/companion/sessions.js` (companion session list)
* `public/app.js`            (`loadMessages`, `selectSession`, polling)

The datastore is modelled as three relations (`users`, `chat_sessions`,
`messages`) held in lists of rows.  Every store call made by a handler is
recorded in a log, and each call may be failed from outside by a fault oracle,
so that the error branches of the handlers are part of the model.
Timestamps are natural numbers ordered like the store orders `timestamptz`.
-/

namespace SafeSpace

/-! ## Data model -/

/-- Timestamps, ordered as the store orders them. -/
abbrev Timestamp := Nat

/-- An error object returned by a store call; only its `code` is inspected. -/
structure DbError where
  code : String
deriving DecidableEq, Repr

/-- A row of `users`. -/
structure UserRow where
  user_id : String
  display_name : String
  anon_number : Option Int
  invite_code : String
  consent_at : Option Timestamp
deriving DecidableEq, Repr

/-- A row of `chat_sessions`. -/
structure SessionRow where
  session_id : String
  topic : String
  created_by : Option String
  created_at : Timestamp
  companion_id : Option String
  companion_last_read_at : Option Timestamp
  room_type : Option String
  status : Option String
  closed_at : Option Timestamp
  closed_by : Option String
deriving DecidableEq, Repr

/-- A row of `messages`. -/
structure MessageRow where
  message_id : String
  session_id : String
  sender_id : Option String
  display_name : String
  text : String
  is_companion : Bool
  is_system : Bool
  created_at : Timestamp
deriving DecidableEq, Repr

/-- The store: three relations. -/
structure Db where
  users : List UserRow
  chat_sessions : List SessionRow
  messages : List MessageRow
deriving DecidableEq, Repr

/-- The store calls issued by the handlers, as they appear in the source. -/
inductive Op where
  /-- Source `users.select('anon_number').eq('user_id', u).single()` -/
  | selectUserAnon (userId : String)
  /-- Source `users.select('user_id').eq('anon_number', c).maybeSingle()` -/
  | selectUserByAnon (candidate : Int)
  /-- Source `users.update({ anon_number: n }).eq('user_id', u)` -/
  | updateUserAnon (userId : String) (n : Int)
  /-- Source `chat_sessions.select(...).eq('session_id', s).single()` -/
  | selectSession (sessionId : String)
  /-- Source `chat_sessions.update({status:'closed', closed_at, closed_by}).eq('session_id', s)` -/
  | updateSessionClosed (sessionId : String) (closedAt : Timestamp) (closedBy : String)
  /-- Source `messages.insert({...})` -/
  | insertMessage (messageId : String) (sessionId : String)
  /-- Source `chat_sessions.update({companion_last_read_at}).eq('session_id', s)` -/
  | updateSessionRead (sessionId : String) (readAt : Timestamp)
  /-- Source `chat_sessions.select(...).eq('companion_id', c).order('created_at', desc)`,
  with or without the optional columns -/
  | selectSessions (companionId : String) (optionalColumns : Bool)
  /-- Source `messages.select('*', count).eq('session_id', s)` -/
  | countMessages (sessionId : String)
  /-- Source `messages.select(...).eq('session_id', s).order('created_at', desc).limit(1).single()` -/
  | selectLastMessage (sessionId : String)
  /-- Source `messages.select('*', count).eq('session_id', s).eq('is_companion', false).gt('created_at', t)` -/
  | countUserMessagesAfter (sessionId : String) (after : Timestamp)
  /-- Source `messages.select('created_at').eq('session_id', s).eq('is_companion', true)
  .order('created_at', desc).limit(1).maybeSingle()` -/
  | selectLastCompanionMessage (sessionId : String)
  /-- Source `messages.select('*', count).eq('session_id', s).eq('is_companion', false)` -/
  | countUserMessages (sessionId : String)
  /-- Source `users.select('*').eq('display_name', d).eq('invite_code', c).maybeSingle()` -/
  | selectUserByLogin (displayName : String) (inviteCode : String)
  /-- Source `users.insert([{ display_name, invite_code, anon_number }]).select().single()` -/
  | insertUser (displayName : String) (inviteCode : String) (n : Int)
deriving DecidableEq, Repr

/-- The result of running a handler: its return value, the store afterwards and
the store calls it issued, in order. -/
structure Outcome (α : Type) where
  result : α
  db : Db
  log : List Op

/-- The error the query builder reports when `.single()` / `.maybeSingle()` does
not find the expected number of rows. -/
def rowCountError : DbError := ⟨"PGRST116"⟩

/-- Source `.single()`: exactly one row, otherwise an error. -/
def single {α : Type} : List α → Except DbError α
  | [r] => .ok r
  | _ => .error rowCountError

/-- Source `.maybeSingle()`: no row gives `null`, one row gives it, more is an error. -/
def maybeSingle {α : Type} : List α → Except DbError (Option α)
  | [] => .ok none
  | [r] => .ok (some r)
  | _ => .error rowCountError

/-! ## `api/_lib/anonNumber.js` -/

/-- JavaScript truthiness of a nullable number: neither `null` nor `0`. -/
def truthy : Option Int → Bool
  | some n => n != 0
  | none => false

/-- Source `x || null` for a nullable number. -/
def orNull (x : Option Int) : Option Int := if truthy x then x else none

/-- A value returned by `Math.random()`: the double `num / 2 ^ exp`, whose
significand `num` has at most 53 bits (`significand : num < 2 ^ 53`).  It lies
in `[0, 1)` exactly when `num < 2 ^ exp`. -/
structure Draw where
  num : Nat
  exp : Nat
  significand : num < 9007199254740992
deriving DecidableEq, Repr

/-- The drawn value as a rational number. -/
def Draw.toRat (d : Draw) : ℚ := (d.num : ℚ) / ((2 ^ d.exp : Nat) : ℚ)

/-- The drawn value lies in `[0, 1)`. -/
def Draw.inUnit (d : Draw) : Prop := d.num < 2 ^ d.exp

instance (d : Draw) : Decidable d.inUnit := inferInstanceAs (Decidable (d.num < 2 ^ d.exp))

/-- The number of low bits a natural number loses when it is cut to a 53-bit
significand: the least `s` with `p / 2 ^ s < 2 ^ 53`, searched with `fuel`
halvings. -/
def dropBits : Nat → Nat → Nat
  | 0, _ => 0
  | fuel + 1, p => if p < 9007199254740992 then 0 else dropBits fuel (p / 2) + 1

/-- Rounding of double arithmetic (IEEE 754 round to nearest, ties to even) for
a value `p * 2 ^ (-exp)`, as a new numerator over the same `2 ^ exp`: `p` is
cut to 53 significant bits, going up when the dropped part exceeds half of the
last kept bit, or equals it and the kept significand is odd. -/
def roundToDouble (p : Nat) : Nat :=
  let s := dropBits p p
  let q := p / 2 ^ s
  let rem := p % 2 ^ s
  if 2 ^ s < 2 * rem ∨ (2 * rem = 2 ^ s ∧ q % 2 = 1) then (q + 1) * 2 ^ s else q * 2 ^ s

/-- Source `Math.floor(Math.random() * 999) + 1` for the drawn value `r`: the
product is the double nearest to `r * 999`, then floored. -/
def candidateOf (r : Draw) : Int :=
  ((roundToDouble (r.num * 999) / 2 ^ r.exp : Nat) : Int) + 1

/-- Source `users.select('anon_number').eq('user_id', userId).single()`. -/
def fetchUser (db : Db) (fault : Option DbError) (userId : String) : Except DbError UserRow :=
  match fault with
  | some e => .error e
  | none => single (db.users.filter (fun u => u.user_id = userId))

/-- Source `users.select('user_id').eq('anon_number', candidate).maybeSingle()`. -/
def checkTaken (db : Db) (fault : Option DbError) (candidate : Int) :
    Except DbError (Option UserRow) :=
  match fault with
  | some e => .error e
  | none => maybeSingle (db.users.filter (fun u => u.anon_number = some candidate))

/-- Source `users.update({ anon_number: n }).eq('user_id', userId)` on the relation. -/
def setAnon (users : List UserRow) (userId : String) (n : Int) : List UserRow :=
  users.map (fun u => if u.user_id = userId then { u with anon_number := some n } else u)

/-- The update call: fails with the injected fault, otherwise rewrites the rows. -/
def updateAnon (db : Db) (fault : Option DbError) (userId : String) (n : Int) :
    Except DbError Db :=
  match fault with
  | some e => .error e
  | none => .ok { db with users := setAnon db.users userId n }

/-- Source `MAX_RETRIES` of `ensureAnonNumber`. -/
def MAX_RETRIES : Nat := 20

/-- The retry loop of `ensureAnonNumber` (source lines 54-75), from attempt
`attempt` with `remaining` iterations left.  Returns `anonNumber` and the number
of existence checks issued.  The check of attempt `i` is store call `1 + i`. -/
def drawLoop (db : Db) (fault : Nat → Option DbError) (random : Nat → Draw) :
    Nat → Nat → Option Int × Nat
  | 0, _ => (none, 0)
  | remaining + 1, attempt =>
    let candidate := candidateOf (random attempt)
    match checkTaken db (fault (1 + attempt)) candidate with
    | .error _ =>
      let r := drawLoop db fault random remaining (attempt + 1)
      (r.1, r.2 + 1)
    | .ok none => (some candidate, 1)
    | .ok (some _) =>
      let r := drawLoop db fault random remaining (attempt + 1)
      (r.1, r.2 + 1)

/-- The existence checks issued by the first `k` attempts. -/
def checkOps (random : Nat → Draw) (k : Nat) : List Op :=
  (List.range k).map (fun i => Op.selectUserByAnon (candidateOf (random i)))

/-- Source `ensureAnonNumber(userId)`.  `fault k` is the fault injected into the `k`-th
store call of this invocation (`none`: the call is answered from the store);
`random i` is the value `Math.random()` returns in attempt `i`. -/
def ensureAnonNumber (db : Db) (fault : Nat → Option DbError) (random : Nat → Draw)
    (userId : String) : Outcome (Option Int) :=
  if userId = "" then ⟨none, db, []⟩
  else
    match fetchUser db (fault 0) userId with
    | .error _ => ⟨none, db, [Op.selectUserAnon userId]⟩
    | .ok user =>
      if truthy user.anon_number then
        ⟨user.anon_number, db, [Op.selectUserAnon userId]⟩
      else
        let found := drawLoop db fault random MAX_RETRIES 0
        let log := Op.selectUserAnon userId :: checkOps random found.2
        if truthy found.1 then
          let anonNumber := found.1.getD 0
          match updateAnon db (fault (1 + found.2)) userId anonNumber with
          | .error _ =>
            let retry := fetchUser db (fault (2 + found.2)) userId
            let value := match retry with
              | .ok retryUser => orNull retryUser.anon_number
              | .error _ => none
            ⟨value, db, log ++ [Op.updateUserAnon userId anonNumber, Op.selectUserAnon userId]⟩
          | .ok db' =>
            ⟨some anonNumber, db', log ++ [Op.updateUserAnon userId anonNumber]⟩
        else
          ⟨none, db, log⟩

/-! ## Requests and responses of the companion handlers -/

/-- The payload of a verified `companion_token` cookie. -/
structure DecodedToken where
  isCompanion : Bool
  companionId : String
deriving DecidableEq, Repr

/-- What a handler reads from the request.  `token` is the result of matching
the `companion_token` cookie and verifying it (`none`: no cookie, or
verification threw); `sessionId` is `req.body.sessionId`. -/
structure Request where
  method : String
  token : Option DecodedToken
  sessionId : Option String
deriving DecidableEq, Repr

/-- Source `getCompanionFromRequest(req)`. -/
def getCompanionFromRequest (req : Request) : Option DecodedToken :=
  match req.token with
  | none => none
  | some decoded => if !decoded.isCompanion then none else some decoded

/-- One entry of the session list response. -/
structure SessionStats where
  sessionId : String
  topic : String
  anonNumber : Option Int
  userId : Option String
  createdAt : Timestamp
  messageCount : Nat
  lastMessage : Option String
  lastMessageTime : Timestamp
  unreadCount : Nat
  roomType : String
  status : String
deriving DecidableEq, Repr

/-- The JSON body of a response. -/
inductive Body where
  /-- Source `res.status(..).end()` -/
  | empty
  /-- Source `{ error }` -/
  | error (error : String)
  /-- Source `{ success: true, message }` -/
  | success (message : String)
  /-- Source `{ success: true, sessions }` -/
  | sessions (sessions : List SessionStats)
deriving DecidableEq, Repr

/-- An HTTP response. -/
structure Response where
  status : Nat
  body : Body
deriving DecidableEq, Repr

/-- What the handlers take from their surroundings: `now` is
`new Date().toISOString()`, `uuid` is `uuidv4()`, and `storeNow` is the
`created_at` the store gives a row inserted without one. -/
structure Env where
  now : Timestamp
  uuid : String
  storeNow : Timestamp
deriving DecidableEq, Repr

/-- Source `!sessionId` is false: the id is present and not the empty string. -/
def presentId : Option String → Option String
  | some s => if s = "" then none else some s
  | none => none

/-- Source `chat_sessions.select(...).eq('session_id', sessionId).single()`. -/
def fetchSession (db : Db) (fault : Option DbError) (sessionId : String) :
    Except DbError SessionRow :=
  match fault with
  | some e => .error e
  | none => single (db.chat_sessions.filter (fun s => s.session_id = sessionId))

/-! ## `api/companion/close.js` -/

/-- The policy error of the close handler. -/
def groupOnlyError : String :=
  "Hanya ruang grup yang dapat ditutup. Chat pribadi tidak dapat dihapus."

/-- The update of the close handler on the relation. -/
def setClosed (sessions : List SessionRow) (sessionId : String) (closedAt : Timestamp)
    (closedBy : String) : List SessionRow :=
  sessions.map (fun s =>
    if s.session_id = sessionId then
      { s with status := some "closed", closed_at := some closedAt, closed_by := some closedBy }
    else s)

/-- The system message the close handler inserts. -/
def closeMessage (env : Env) (sessionId : String) : MessageRow :=
  { message_id := env.uuid
    session_id := sessionId
    sender_id := none
    display_name := "Sistem"
    text := "Ruang grup ini telah ditutup oleh pendamping."
    is_companion := false
    is_system := true
    created_at := env.storeNow }

/-- The close handler.  `fault k` is the fault injected into its `k`-th store
call: 0 the session fetch, 1 the status update, 2 the message insert.  The
source's `if (!session)` branch cannot be taken once `.single()` has answered
with a row, so it has no counterpart here. -/
def closeHandler (db : Db) (fault : Nat → Option DbError) (env : Env) (req : Request) :
    Outcome Response :=
  if req.method = "OPTIONS" then ⟨⟨200, .empty⟩, db, []⟩
  else if req.method ≠ "POST" then ⟨⟨405, .error "Method not allowed"⟩, db, []⟩
  else
    match getCompanionFromRequest req with
    | none => ⟨⟨401, .error "Not authenticated as companion"⟩, db, []⟩
    | some companion =>
      match presentId req.sessionId with
      | none => ⟨⟨400, .error "Session ID required"⟩, db, []⟩
      | some sessionId =>
        let log₀ := [Op.selectSession sessionId]
        match fetchSession db (fault 0) sessionId with
        | .error sessError =>
          if sessError.code = "42703" then
            ⟨⟨400, .error
              "Database migration required. Please run supabase-room-close-migration.sql"⟩,
              db, log₀⟩
          else ⟨⟨404, .error "Session not found"⟩, db, log₀⟩
        | .ok session =>
          if session.companion_id ≠ some companion.companionId then
            ⟨⟨403, .error "Not assigned to this session"⟩, db, log₀⟩
          else if session.status = some "closed" then
            ⟨⟨200, .success "Session already closed"⟩, db, log₀⟩
          else if session.room_type ≠ some "group" then
            ⟨⟨403, .error groupOnlyError⟩, db, log₀⟩
          else
            let log₁ := log₀ ++ [Op.updateSessionClosed sessionId env.now companion.companionId]
            match fault 1 with
            | some _ => ⟨⟨500, .error "Failed to close session"⟩, db, log₁⟩
            | none =>
              let db₁ : Db :=
                { db with chat_sessions :=
                    setClosed db.chat_sessions sessionId env.now companion.companionId }
              let log₂ := log₁ ++ [Op.insertMessage env.uuid sessionId]
              match fault 2 with
              | some _ => ⟨⟨200, .success "Session closed successfully"⟩, db₁, log₂⟩
              | none =>
                ⟨⟨200, .success "Session closed successfully"⟩,
                  { db₁ with messages := db₁.messages ++ [closeMessage env sessionId] }, log₂⟩

/-! ## `api/companion/read.js` -/

/-- The update of the mark-read handler on the relation. -/
def setRead (sessions : List SessionRow) (sessionId : String) (readAt : Timestamp) :
    List SessionRow :=
  sessions.map (fun s =>
    if s.session_id = sessionId then { s with companion_last_read_at := some readAt } else s)

/-- The mark-read handler.  `fault 0` is injected into the session fetch,
`fault 1` into the update of `companion_last_read_at`. -/
def readHandler (db : Db) (fault : Nat → Option DbError) (env : Env) (req : Request) :
    Outcome Response :=
  if req.method = "OPTIONS" then ⟨⟨200, .empty⟩, db, []⟩
  else if req.method ≠ "POST" then ⟨⟨405, .error "Method not allowed"⟩, db, []⟩
  else
    match getCompanionFromRequest req with
    | none => ⟨⟨401, .error "Not authenticated as companion"⟩, db, []⟩
    | some companion =>
      match presentId req.sessionId with
      | none => ⟨⟨400, .error "Session ID required"⟩, db, []⟩
      | some sessionId =>
        let log₀ := [Op.selectSession sessionId]
        match fetchSession db (fault 0) sessionId with
        | .error _ => ⟨⟨404, .error "Session not found"⟩, db, log₀⟩
        | .ok session =>
          if session.companion_id ≠ some companion.companionId then
            ⟨⟨403, .error "Not assigned to this session"⟩, db, log₀⟩
          else
            let log₁ := log₀ ++ [Op.updateSessionRead sessionId env.now]
            match fault 1 with
            | some updateError =>
              if updateError.code = "42703" then
                ⟨⟨200, .success "Session marked as read (migration pending)"⟩, db, log₁⟩
              else ⟨⟨500, .error "Failed to mark as read"⟩, db, log₁⟩
            | none =>
              ⟨⟨200, .success "Session marked as read"⟩,
                { db with chat_sessions := setRead db.chat_sessions sessionId env.now }, log₁⟩

/-! ## `api/companion/sessions.js` -/

/-- A row of the session list query: the selected columns of the session and
the embedded `users` row. -/
structure ListedSession where
  session : SessionRow
  users : Option UserRow
deriving DecidableEq, Repr

/-- The columns the list query selects: `closed_at` and `closed_by` are never
selected, and the retry leaves out `companion_last_read_at`, `room_type` and
`status` as well. -/
def selectColumns (optionalColumns : Bool) (s : SessionRow) : SessionRow :=
  if optionalColumns then { s with closed_at := none, closed_by := none }
  else
    { s with closed_at := none, closed_by := none, companion_last_read_at := none,
             room_type := none, status := none }

/-- The embedded `users (...)` relation of a session: the row of its creator. -/
def embeddedUser (db : Db) (s : SessionRow) : Option UserRow :=
  match s.created_by with
  | none => none
  | some uid => db.users.find? (fun u => u.user_id = uid)

/-- Rows ordered by `created_at` descending (ties keep their stored order). -/
def newestFirst {α : Type} (createdAt : α → Timestamp) (rows : List α) : List α :=
  rows.insertionSort (fun a b => createdAt b ≤ createdAt a)

/-- The session list query. -/
def listSessions (db : Db) (fault : Option DbError) (companionId : String)
    (optionalColumns : Bool) : Except DbError (List ListedSession) :=
  match fault with
  | some e => .error e
  | none =>
    .ok ((newestFirst SessionRow.created_at
        (db.chat_sessions.filter (fun s => s.companion_id = some companionId))).map
      (fun s => ⟨selectColumns optionalColumns s, embeddedUser db s⟩))

/-- The messages of a session. -/
def messagesOf (db : Db) (sessionId : String) : List MessageRow :=
  db.messages.filter (fun m => m.session_id = sessionId)

/-- A count query: `count` is `null` when the call fails, and `count || 0` is
what the handler uses. -/
def countOr0 (fault : Option DbError) (rows : List MessageRow) : Nat :=
  match fault with
  | some _ => 0
  | none => rows.length

/-- An `order('created_at', desc).limit(1)` query read through `data`: `null`
when the call fails or no row matches. -/
def latestRow (fault : Option DbError) (rows : List MessageRow) : Option MessageRow :=
  match fault with
  | some _ => none
  | none => (newestFirst MessageRow.created_at rows).head?

/-- Source `s || null` for a nullable string. -/
def textOrNull : Option String → Option String
  | some t => if t = "" then none else some t
  | none => none

/-- The unread count of one session (source lines 128-168) with the store calls
it issues.  `fault k` is injected into the `k`-th store call made for this
session: 2 is the first call of this part, 3 the second. -/
def unreadCount (db : Db) (fault : Nat → Option DbError) (hasReadTracking : Bool)
    (session : SessionRow) : Nat × List Op :=
  let sid := session.session_id
  let userMsgs := (messagesOf db sid).filter (fun m => m.is_companion = false)
  match hasReadTracking, session.companion_last_read_at with
  | true, some lastRead =>
    (countOr0 (fault 2) (userMsgs.filter (fun m => lastRead < m.created_at)),
      [Op.countUserMessagesAfter sid lastRead])
  | _, _ =>
    match latestRow (fault 2) ((messagesOf db sid).filter (fun m => m.is_companion = true)) with
    | some lastCompanionMsg =>
      (countOr0 (fault 3) (userMsgs.filter (fun m => lastCompanionMsg.created_at < m.created_at)),
        [Op.selectLastCompanionMessage sid,
         Op.countUserMessagesAfter sid lastCompanionMsg.created_at])
    | none =>
      (countOr0 (fault 3) userMsgs, [Op.selectLastCompanionMessage sid, Op.countUserMessages sid])

/-- The body of `sessions.map(async (session) => ...)`: the entry for one
session and the store calls issued for it. -/
def sessionStats (db : Db) (fault : Nat → Option DbError) (hasReadTracking hasRoomType : Bool)
    (row : ListedSession) : SessionStats × List Op :=
  let session := row.session
  let sid := session.session_id
  let count := countOr0 (fault 0) (messagesOf db sid)
  let lastMsg := latestRow (fault 1) (messagesOf db sid)
  let unread := unreadCount db fault hasReadTracking session
  ({ sessionId := sid
     topic := session.topic
     anonNumber := orNull (row.users.bind (fun u => u.anon_number))
     userId := textOrNull (row.users.map (fun u => u.user_id))
     createdAt := session.created_at
     messageCount := count
     lastMessage := textOrNull (lastMsg.map (fun m => m.text))
     lastMessageTime := (lastMsg.map (fun m => m.created_at)).getD session.created_at
     unreadCount := unread.1
     roomType := if hasRoomType then (textOrNull session.room_type).getD "private" else "private"
     status := if hasRoomType then (textOrNull session.status).getD "active" else "active" },
   [Op.countMessages sid, Op.selectLastMessage sid] ++ unread.2)

/-- The part of the list handler after the session query has answered: filter,
per-session statistics, final sort and response.  `statFault sid` is the fault
oracle of the store calls made for session `sid`. -/
def respondSessions (db : Db) (statFault : String → Nat → Option DbError)
    (hasReadTracking hasRoomType : Bool) (sessions : List ListedSession) (log : List Op) :
    Outcome Response :=
  let sessions := if hasRoomType then
      sessions.filter (fun r => r.session.status ≠ some "closed") else sessions
  let withStats := sessions.map
    (fun r => sessionStats db (statFault r.session.session_id) hasReadTracking hasRoomType r)
  let sorted := (withStats.map (fun p => p.1)).insertionSort
    (fun a b => b.lastMessageTime ≤ a.lastMessageTime)
  ⟨⟨200, .sessions sorted⟩, db, log ++ (withStats.map (fun p => p.2)).flatten⟩

/-- The session list handler.  `fault 0` is injected into the session query and
`fault 1` into its retry without the optional columns. -/
def sessionsHandler (db : Db) (fault : Nat → Option DbError)
    (statFault : String → Nat → Option DbError) (req : Request) : Outcome Response :=
  if req.method = "OPTIONS" then ⟨⟨200, .empty⟩, db, []⟩
  else
    match getCompanionFromRequest req with
    | none => ⟨⟨401, .error "Not authenticated as companion"⟩, db, []⟩
    | some companion =>
      if req.method = "GET" then
        let cid := companion.companionId
        match listSessions db (fault 0) cid true with
        | .error error =>
          if error.code = "42703" then
            let log := [Op.selectSessions cid true, Op.selectSessions cid false]
            match listSessions db (fault 1) cid false with
            | .error _ => ⟨⟨500, .error "Internal server error"⟩, db, log⟩
            | .ok fallbackData => respondSessions db statFault false false fallbackData log
          else ⟨⟨500, .error "Internal server error"⟩, db, [Op.selectSessions cid true]⟩
        | .ok sessionsData =>
          respondSessions db statFault true true sessionsData [Op.selectSessions cid true]
      else ⟨⟨405, .error "Method not allowed"⟩, db, []⟩

/-! ## `formatAnonLabel` of `api/_lib/anonNumber.js` -/

/-- Source `s.padStart(3, '0')`. -/
def padStart3 (s : String) : String := String.mk (List.replicate (3 - s.length) '0') ++ s

/-- Source `formatAnonLabel(n)`, for `n` `null` or `undefined` (`none`) or an
integer. -/
def formatAnonLabel (n : Option Int) : String :=
  match n with
  | none => "Pengguna ---"
  | some k =>
    if k = 0 ∨ k < 1 then "Pengguna ---"
    else "Pengguna " ++ padStart3 (toString k)

/-! ## `api/auth/login.js` -/

/-- The retry loop of `assignAnonNumber` (source lines 21-35), from attempt
`attempt` with `remaining` iterations left.  Only `data` of the existence check
is read, so a failed check counts as "no owner".  Returns the candidate found
and the number of checks issued; `fault i` is injected into the check of
attempt `i`. -/
def assignLoop (db : Db) (fault : Nat → Option DbError) (random : Nat → Draw) :
    Nat → Nat → Option Int × Nat
  | 0, _ => (none, 0)
  | remaining + 1, attempt =>
    let candidate := candidateOf (random attempt)
    match checkTaken db (fault attempt) candidate with
    | .ok (some _) =>
      let r := assignLoop db fault random remaining (attempt + 1)
      (r.1, r.2 + 1)
    | _ => (some candidate, 1)

/-- Source `assignAnonNumber(db)`: the number returned and the number of
existence checks issued.  `now` is `Date.now()`. -/
def assignAnonNumber (db : Db) (fault : Nat → Option DbError) (random : Nat → Draw)
    (now : Nat) : Int × Nat :=
  let found := assignLoop db fault random 50 0
  match found.1 with
  | some candidate => (candidate, found.2)
  | none => (((now % 10000 : Nat) : Int), found.2)

/-- What the login handler reads from the request. -/
structure LoginRequest where
  method : String
  inviteCode : Option String
  displayName : Option String
deriving DecidableEq, Repr

/-- The helpers of `_lib/auth` and `_lib/rateLimit` and the surroundings the
login handler uses: `rateLimited` is the result of `strictRateLimit(req, res)`,
`now` is `Date.now()`, `newUserId` is the `user_id` the store gives an inserted
row. -/
structure LoginEnv where
  rateLimited : Bool
  sanitizeInput : Option String → Nat → String
  isValidInviteCode : String → Bool
  now : Nat
  newUserId : String

/-- The JSON body of a login response. -/
inductive LoginBody where
  /-- Source `{ error }` -/
  | error (error : String)
  /-- Source `{ success: true, user: { userId, displayName, hasConsented } }` -/
  | user (userId : String) (displayName : String) (hasConsented : Bool)
deriving DecidableEq, Repr

/-- A login response. -/
structure LoginResponse where
  status : Nat
  body : LoginBody
deriving DecidableEq, Repr

/-- Source `users.select('*').eq('display_name', d).eq('invite_code', c).maybeSingle()`. -/
def findUser (db : Db) (fault : Option DbError) (displayName inviteCode : String) :
    Except DbError (Option UserRow) :=
  match fault with
  | some e => .error e
  | none =>
    maybeSingle (db.users.filter
      (fun u => u.display_name = displayName ∧ u.invite_code = inviteCode))

/-- The login handler.  `fault 0` is injected into the user lookup, `fault (1 + i)`
into the existence check of attempt `i`, and the next call after the checks is
the update or the insert.  The result is `none` when the rate limiter has
answered the request itself. -/
def loginHandler (db : Db) (fault : Nat → Option DbError) (random : Nat → Draw)
    (env : LoginEnv) (req : LoginRequest) : Outcome (Option LoginResponse) :=
  if req.method ≠ "POST" then ⟨some ⟨405, .error "Method not allowed"⟩, db, []⟩
  else if env.rateLimited then ⟨none, db, []⟩
  else
    let cleanInviteCode := env.sanitizeInput req.inviteCode 50
    let cleanDisplayName := env.sanitizeInput req.displayName 50
    if cleanInviteCode = "" then ⟨some ⟨400, .error "Invite code is required"⟩, db, []⟩
    else if cleanDisplayName = "" ∨ cleanDisplayName.length < 2 then
      ⟨some ⟨400, .error "Display name is required (minimum 2 characters)"⟩, db, []⟩
    else if !env.isValidInviteCode cleanInviteCode then
      ⟨some ⟨401, .error "Invalid invite code"⟩, db, []⟩
    else
      let log₀ := [Op.selectUserByLogin cleanDisplayName cleanInviteCode]
      let existing : Option UserRow :=
        match findUser db (fault 0) cleanDisplayName cleanInviteCode with
        | .ok row => row
        | .error _ => none
      match existing with
      | some existingUser =>
        let userId := existingUser.user_id
        let answer : LoginResponse :=
          ⟨200, .user userId cleanDisplayName existingUser.consent_at.isSome⟩
        if !truthy existingUser.anon_number then
          let assigned := assignAnonNumber db (fun i => fault (1 + i)) random env.now
          let log₁ := log₀ ++ checkOps random assigned.2
          if assigned.1 ≠ 0 then
            match fault (1 + assigned.2) with
            | some _ => ⟨some answer, db, log₁ ++ [Op.updateUserAnon userId assigned.1]⟩
            | none =>
              ⟨some answer, { db with users := setAnon db.users userId assigned.1 },
                log₁ ++ [Op.updateUserAnon userId assigned.1]⟩
          else ⟨some answer, db, log₁⟩
        else ⟨some answer, db, log₀⟩
      | none =>
        let assigned := assignAnonNumber db (fun i => fault (1 + i)) random env.now
        let log₁ := log₀ ++ checkOps random assigned.2 ++
          [Op.insertUser cleanDisplayName cleanInviteCode assigned.1]
        match fault (1 + assigned.2) with
        | some _ => ⟨some ⟨500, .error "Failed to create user"⟩, db, log₁⟩
        | none =>
          let newUser : UserRow :=
            { user_id := env.newUserId, display_name := cleanDisplayName,
              anon_number := some assigned.1, invite_code := cleanInviteCode,
              consent_at := none }
          ⟨some ⟨200, .user newUser.user_id cleanDisplayName false⟩,
            { db with users := db.users ++ [newUser] }, log₁⟩

/-! ## `public/app.js`: message loading and polling -/

/-- A message as the client holds it. -/
structure ClientMessage where
  messageId : String
  sessionId : String
  userId : Option String
  displayName : String
  text : String
  createdAt : Timestamp
  isOwn : Bool
  isSystem : Bool
deriving DecidableEq, Repr

/-- An entry of `state.sessions`. -/
structure ClientSession where
  sessionId : String
  topic : String
  createdBy : Option String
  companionName : Option String
deriving DecidableEq, Repr

/-- The signed-in user, `state.user`. -/
structure ClientUser where
  userId : String
  displayName : String
deriving DecidableEq, Repr

/-- The fields of the global `state` object that the chat code uses.  A polling
handle `some k` stands for the positive timer id the browser returned, so it is
always truthy. -/
structure ClientState where
  user : Option ClientUser
  currentTab : String
  currentSessionId : Option String
  currentSession : Option ClientSession
  lastMessageTime : Option Timestamp
  pollingInterval : Option Nat
  sessions : List ClientSession
  messages : List ClientMessage
  isSendingMessage : Bool
deriving DecidableEq, Repr

/-- The page: the `state` object together with what the browser holds for it,
namely the interval timers that are live (`timers`), the next handle
`setInterval` returns, the `localStorage` keys `rd_app_last_room` and
`rd_app_last_tab`, and whether the input area shows the closed banner. -/
structure Client where
  state : ClientState
  timers : List Nat
  nextHandle : Nat
  lastRoom : Option String
  lastTab : Option String
  closedBanner : Bool
deriving DecidableEq, Repr

/-- The body of a successful `GET /chat/messages` response: `sessionStatus` is
`data.session.status` (`none` when `data.session` is missing). -/
structure MessageList where
  messages : List ClientMessage
  sessionStatus : Option String
  serverTime : Option Timestamp
deriving DecidableEq, Repr

/-- Source `stopPolling()`. -/
def stopPolling (c : Client) : Client :=
  match c.state.pollingInterval with
  | some h =>
    { c with timers := c.timers.filter (fun t => t ≠ h),
             state := { c.state with pollingInterval := none } }
  | none => c

/-- Source `startPolling()`: the timer created is the handle `nextHandle`. -/
def startPolling (c : Client) : Client :=
  match presentId c.state.currentSessionId with
  | none => c
  | some _ =>
    let c₁ := stopPolling c
    { c₁ with timers := c₁.timers ++ [c₁.nextHandle],
              nextHandle := c₁.nextHandle + 1,
              state := { c₁.state with pollingInterval := some c₁.nextHandle } }

/-- Source `handleClosedRoom()`. -/
def handleClosedRoom (c : Client) : Client :=
  stopPolling { c with closedBanner := true, lastRoom := none }

/-- Whether the character list `p` occurs in `s` as a contiguous part. -/
def occursIn (p : List Char) : List Char → Bool
  | [] => p.isEmpty
  | c :: s => p.isPrefixOf (c :: s) || occursIn p s

/-- Source `err.message.includes('ditutup')`. -/
def mentionsClosed (message : String) : Bool := occursIn "ditutup".data message.data

/-- The messages of a response whose `messageId` the client does not hold yet
(source lines 657-658). -/
def newMessages (held : List ClientMessage) (received : List ClientMessage) :
    List ClientMessage :=
  received.filter (fun m => !(held.map (fun x => x.messageId)).contains m.messageId)

/-- Source `loadMessages()`.  `response` is what `api(endpoint)` gives for the
request the function makes: the body of the response, or the message of the
error it throws. -/
def loadMessages (c : Client) (response : Except String MessageList) : Client :=
  match presentId c.state.currentSessionId with
  | none => c
  | some _ =>
    match response with
    | .error message => if mentionsClosed message then handleClosedRoom c else c
    | .ok data =>
      let c₁ : Client :=
        match c.state.lastMessageTime with
        | some _ =>
          if data.messages.length > 0 then
            let fresh := newMessages c.state.messages data.messages
            match fresh.getLast? with
            | some last =>
              { c with state := { c.state with messages := c.state.messages ++ fresh,
                                               lastMessageTime := some last.createdAt } }
            | none => c
          else c
        | none =>
          { c with state := { c.state with
              messages := data.messages,
              lastMessageTime :=
                match data.messages.getLast? with
                | some last => some last.createdAt
                | none => data.serverTime } }
      if data.sessionStatus = some "closed" then handleClosedRoom c₁ else c₁

/-- Source `selectSession(sessionId)`; `response` answers its `loadMessages()`. -/
def selectSession (c : Client) (sessionId : String) (response : Except String MessageList) :
    Client :=
  let c₁ := stopPolling c
  let c₂ : Client :=
    { c₁ with
      state := { c₁.state with
        currentSessionId := some sessionId,
        currentSession := c₁.state.sessions.find? (fun s => s.sessionId = sessionId),
        lastMessageTime := none,
        messages := [] },
      lastRoom := some sessionId,
      lastTab := some "chat" }
  startPolling (loadMessages c₂ response)

/-- The callback of the polling timer (source lines 853-862); `response` answers
its `loadMessages()`. -/
def pollTick (c : Client) (response : Except String MessageList) : Client :=
  match presentId c.state.currentSessionId with
  | some _ => loadMessages c response
  | none => c

/-! ## `public/app.js`: sending, tabs and the other users of the timer -/

/-- The characters `String.prototype.trim` strips: the white space of
ECMAScript (tab, vertical tab, form feed, U+FEFF and the space separators
U+0020, U+00A0, U+1680, U+2000 to U+200A, U+202F, U+205F, U+3000) and its line
terminators (line feed, carriage return, U+2028, U+2029). -/
def jsWhiteSpace (c : Char) : Bool :=
  c.toNat == 0x09 || c.toNat == 0x0A || c.toNat == 0x0B || c.toNat == 0x0C ||
  c.toNat == 0x0D || c.toNat == 0x20 || c.toNat == 0xA0 || c.toNat == 0x1680 ||
  (decide (0x2000 ≤ c.toNat) && decide (c.toNat ≤ 0x200A)) ||
  c.toNat == 0x2028 || c.toNat == 0x2029 || c.toNat == 0x202F || c.toNat == 0x205F ||
  c.toNat == 0x3000 || c.toNat == 0xFEFF

/-- Source `text.trim()`. -/
def jsTrim (text : String) : String :=
  String.mk ((text.data.dropWhile jsWhiteSpace).reverse.dropWhile jsWhiteSpace).reverse

/-- The `message` of a `POST /chat/messages` response: the id the server
assigned and, when present, the creation time. -/
structure SentMessage where
  messageId : String
  createdAt : Option Timestamp
deriving DecidableEq, Repr

/-- The body of a successful `POST /chat/messages` response. -/
structure SendResponse where
  message : Option SentMessage
deriving DecidableEq, Repr

/-- The first part of `sendMessage(text)`, up to the `await` of the POST
(source lines 876-885): `none` when the function returns `false` at once,
otherwise the page while the request is in flight. -/
def sendStart (c : Client) (text : String) : Option Client :=
  match presentId c.state.currentSessionId with
  | none => none
  | some _ =>
    if jsTrim text = "" then none
    else if c.state.isSendingMessage then none
    else some { c with state := { c.state with isSendingMessage := true } }

/-- The second part of `sendMessage(text)`, from the answer of the POST on
(source lines 894-929), with the value the function returns.  `now` is
`new Date()`, `post` the answer of the POST and `load` the answer of the
`loadMessages` made when the response carries no message. -/
def sendFinish (c : Client) (text : String) (now : Timestamp)
    (post : Except String SendResponse) (load : Except String MessageList) : Client × Bool :=
  let failed : Client × Bool :=
    ({ c with state := { c.state with isSendingMessage := false } }, false)
  match post with
  | .error _ => failed
  | .ok data =>
    match data.message with
    | some message =>
      match c.state.user with
      | none => failed
      | some user =>
        let newMessage : ClientMessage :=
          { messageId := message.messageId
            sessionId := c.state.currentSessionId.getD ""
            userId := some user.userId
            displayName := user.displayName
            text := jsTrim text
            createdAt := message.createdAt.getD now
            isOwn := true
            isSystem := false }
        let c₁ : Client :=
          if c.state.messages.any (fun m => m.messageId = newMessage.messageId) then c
          else
            { c with state := { c.state with
                messages := c.state.messages ++ [newMessage],
                lastMessageTime := some newMessage.createdAt } }
        ({ c₁ with state := { c₁.state with isSendingMessage := false } }, true)
    | none =>
      let c₁ := loadMessages c load
      ({ c₁ with state := { c₁.state with isSendingMessage := false } }, true)

/-- Source `sendMessage(text)` run without anything happening in between. -/
def sendMessage (c : Client) (text : String) (now : Timestamp)
    (post : Except String SendResponse) (load : Except String MessageList) : Client × Bool :=
  match sendStart c text with
  | none => (c, false)
  | some c₁ => sendFinish c₁ text now post load

/-- Source `switchTab(tabId, saveToStorage)`, as far as the chat state goes: the
loads it starts are events of their own. -/
def switchTab (c : Client) (tabId : String) (saveToStorage : Bool) : Client :=
  let c₁ : Client :=
    { c with state := { c.state with currentTab := tabId },
             lastTab := if saveToStorage then some tabId else c.lastTab }
  if tabId = "chat" then
    match presentId c₁.state.currentSessionId with
    | none => stopPolling c₁
    | some _ => c₁
  else c₁

/-- One `visibilitychange` listener (source lines 1779-1785 and 2039-2045). -/
def onVisibilityChange (c : Client) (hidden : Bool) : Client :=
  if hidden then stopPolling c
  else if c.state.currentTab = "chat" ∧ (presentId c.state.currentSessionId).isSome then
    startPolling c
  else c

/-- A `visibilitychange` event: both registered listeners run. -/
def visibilityChange (c : Client) (hidden : Bool) : Client :=
  onVisibilityChange (onVisibilityChange c hidden) hidden

/-- The back-to-list button (source lines 1586-1596). -/
def backToList (c : Client) : Client :=
  let c₁ : Client :=
    { c with state := { c.state with currentSessionId := none, currentSession := none } }
  { stopPolling c₁ with lastRoom := none }

/-- Source `deleteSession(sessionId)` after the user confirmed and the DELETE
was answered (source lines 998-1017). -/
def deleteSession (c : Client) (sessionId : String) : Client :=
  if sessionId = "" then c
  else
    let c₁ : Client :=
      { c with state := { c.state with
          sessions := c.state.sessions.filter (fun s => s.sessionId ≠ sessionId) } }
    if c₁.state.currentSessionId = some sessionId then
      let c₂ : Client :=
        { c₁ with state := { c₁.state with
            currentSessionId := none, currentSession := none, messages := [] } }
      { stopPolling c₂ with lastRoom := none }
    else c₁

/-- The first part of `selectSession(sessionId)`, up to the `await` of
`loadMessages()` (source lines 585-596). -/
def selectStart (c : Client) (sessionId : String) : Client :=
  let c₁ := stopPolling c
  { c₁ with
    state := { c₁.state with
      currentSessionId := some sessionId,
      currentSession := c₁.state.sessions.find? (fun s => s.sessionId = sessionId),
      lastMessageTime := none,
      messages := [] },
    lastRoom := some sessionId,
    lastTab := some "chat" }

/-- What can happen to the page, one uninterrupted piece of code at a time.
The functions that `await` are split at the `await`; `other f` is any other
code of the page, none of which reads or writes the polling timer. -/
inductive ClientEvent where
  | startPolling
  | stopPolling
  | selectStart (sessionId : String)
  | loadMessages (response : Except String MessageList)
  | pollTick (response : Except String MessageList)
  | sendStart (text : String)
  | sendFinish (text : String) (now : Timestamp) (post : Except String SendResponse)
      (load : Except String MessageList)
  | switchTab (tabId : String) (saveToStorage : Bool)
  | visibilityChange (hidden : Bool)
  | backToList
  | deleteSession (sessionId : String)
  | other (f : ClientState → ClientState)

/-- The page after an event. -/
def ClientEvent.apply : ClientEvent → Client → Client
  | .startPolling, c => SafeSpace.startPolling c
  | .stopPolling, c => SafeSpace.stopPolling c
  | .selectStart sessionId, c => SafeSpace.selectStart c sessionId
  | .loadMessages response, c => SafeSpace.loadMessages c response
  | .pollTick response, c => SafeSpace.pollTick c response
  | .sendStart text, c => (SafeSpace.sendStart c text).getD c
  | .sendFinish text now post load, c => (SafeSpace.sendFinish c text now post load).1
  | .switchTab tabId saveToStorage, c => SafeSpace.switchTab c tabId saveToStorage
  | .visibilityChange hidden, c => SafeSpace.visibilityChange c hidden
  | .backToList, c => SafeSpace.backToList c
  | .deleteSession sessionId, c => SafeSpace.deleteSession c sessionId
  | .other f, c =>
    { c with state := { f c.state with pollingInterval := c.state.pollingInterval } }

/-- The `state` object as the script creates it (source lines 9-24). -/
def initialState : ClientState :=
  { user := none, currentTab := "companions", currentSessionId := none,
    currentSession := none, lastMessageTime := none, pollingInterval := none,
    sessions := [], messages := [], isSendingMessage := false }

/-- The pages the code can reach: it starts with the initial `state` and no
polling timer, and moves by events. -/
inductive Reachable : Client → Prop where
  | init (c : Client) : c.state = initialState → c.timers = [] → Reachable c
  | step (c : Client) (ev : ClientEvent) : Reachable c → Reachable (ev.apply c)

/-- Modelled from the spec: the message-list endpoint `GET /chat/messages`,
which is not part of the source.  It returns the messages of the session, in
order, with `createdAt` strictly greater than `after` (all of them without
`after`). -/
def listEndpoint (history : List ClientMessage) (after : Option Timestamp) : MessageList :=
  { messages := match after with
      | some t => history.filter (fun m => t < m.createdAt)
      | none => history
    sessionStatus := some "active"
    serverTime := none }

/-! ## Two concurrent calls of `ensureAnonNumber` -/

/-- The stored numbers are pairwise distinct: no two rows carry the same
non-null `anon_number`. -/
def StoredDistinct (users : List UserRow) : Prop :=
  users.Pairwise (fun u v => u.anon_number.isSome → u.anon_number ≠ v.anon_number)

instance : DecidablePred StoredDistinct :=
  fun users => inferInstanceAs (Decidable (users.Pairwise
    (fun u v : UserRow => u.anon_number.isSome → u.anon_number ≠ v.anon_number)))

/-- Modelled from the spec: the unique constraint on `users.anon_number`, whose
schema is not part of the source ("unique across all users"; the source expects
it in its comment "Could be unique constraint violation if race condition").
With `unique` set, an update that would leave two rows with the same number
fails with a unique violation; without it the update is `updateAnon`. -/
def updateAnonStore (unique : Bool) (db : Db) (fault : Option DbError) (userId : String)
    (n : Int) : Except DbError Db :=
  match fault with
  | some e => .error e
  | none =>
    if unique = true ∧ ¬ StoredDistinct (setAnon db.users userId n) then .error ⟨"23505"⟩
    else .ok { db with users := setAnon db.users userId n }

/-- Where a running call of `ensureAnonNumber` stands: before its first row
read, before the existence check of an attempt, before the update, before the
re-read, or returned. -/
inductive Pc where
  | start
  | check (attempt : Nat)
  | update (anonNumber : Int)
  | reread
  | done (result : Option Int)
deriving DecidableEq, Repr

/-- The code after the retry loop (source lines 77-86): return `null` without a
number, otherwise go on to the update. -/
def afterLoop (anonNumber : Option Int) : Pc :=
  if truthy anonNumber then .update (anonNumber.getD 0) else .done none

/-- The loop head (source line 54): another attempt, or the code after the
loop with no number found. -/
def nextCheck (attempt : Nat) : Pc :=
  if attempt < MAX_RETRIES then .check attempt else afterLoop none

/-- One store call of a running `ensureAnonNumber(userId)` with the code up to
its next store call: the store and the position afterwards.  `fault` is the
fault injected into this call. -/
def procStep (unique : Bool) (db : Db) (fault : Option DbError) (random : Nat → Draw)
    (userId : String) : Pc → Db × Pc
  | .start =>
    if userId = "" then (db, .done none)
    else
      match fetchUser db fault userId with
      | .error _ => (db, .done none)
      | .ok user =>
        if truthy user.anon_number then (db, .done user.anon_number) else (db, nextCheck 0)
  | .check attempt =>
    let candidate := candidateOf (random attempt)
    match checkTaken db fault candidate with
    | .error _ => (db, nextCheck (attempt + 1))
    | .ok none => (db, afterLoop (some candidate))
    | .ok (some _) => (db, nextCheck (attempt + 1))
  | .update anonNumber =>
    match updateAnonStore unique db fault userId anonNumber with
    | .error _ => (db, .reread)
    | .ok db' => (db', .done (some anonNumber))
  | .reread =>
    match fetchUser db fault userId with
    | .ok retryUser => (db, .done (orNull retryUser.anon_number))
    | .error _ => (db, .done none)
  | .done result => (db, .done result)

/-- Two calls of `ensureAnonNumber` running over one store. -/
structure Config where
  db : Db
  pc₁ : Pc
  pc₂ : Pc
deriving DecidableEq, Repr

/-- One step of the pair: the first call (`first = true`) or the second makes
its next store call. -/
def stepConfig (unique : Bool) (u₁ u₂ : String) (r₁ r₂ : Nat → Draw) (c : Config)
    (first : Bool) (fault : Option DbError) : Config :=
  if first then
    let r := procStep unique c.db fault r₁ u₁ c.pc₁
    { c with db := r.1, pc₁ := r.2 }
  else
    let r := procStep unique c.db fault r₂ u₂ c.pc₂
    { c with db := r.1, pc₂ := r.2 }

/-- An interleaving: which call moves next, and the fault injected into its
store call, step by step. -/
def runSchedule (unique : Bool) (u₁ u₂ : String) (r₁ r₂ : Nat → Draw) :
    List (Bool × Option DbError) → Config → Config
  | [], c => c
  | (first, fault) :: rest, c =>
    runSchedule unique u₁ u₂ r₁ r₂ rest (stepConfig unique u₁ u₂ r₁ r₂ c first fault)

/-- One call running alone: `fuel` steps from store call number `k` on, the
`k`-th store call of the invocation taking the fault `fault k`. -/
def soloRun (db : Db) (fault : Nat → Option DbError) (random : Nat → Draw) (userId : String) :
    Nat → Nat → Db × Pc → Db × Pc
  | 0, _, s => s
  | fuel + 1, k, s =>
    soloRun db fault random userId fuel (k + 1) (procStep false s.1 (fault k) random userId s.2)

/-- The code of `ensureAnonNumber` after the retry loop, as store and result:
`base` is the attempt the loop was entered at and `found` what it returned. -/
def finishCall (db : Db) (fault : Nat → Option DbError) (userId : String) (base : Nat)
    (found : Option Int × Nat) : Db × Pc :=
  if truthy found.1 then
    match updateAnon db (fault (1 + base + found.2)) userId (found.1.getD 0) with
    | .error _ =>
      match fetchUser db (fault (2 + base + found.2)) userId with
      | .ok retryUser => (db, .done (orNull retryUser.anon_number))
      | .error _ => (db, .done none)
    | .ok db' => (db', .done (some (found.1.getD 0)))
  else (db, .done none)

/-- One call running beside other requests: `others k` is what the other
requests have done to the store when the call issues its `k`-th store call. -/
def runAmong (others : Nat → Db → Db) (fault : Nat → Option DbError) (random : Nat → Draw)
    (userId : String) : Nat → Nat → Db × Pc → Db × Pc
  | 0, _, s => s
  | fuel + 1, k, s =>
    runAmong others fault random userId fuel (k + 1)
      (procStep false (others k s.1) (fault k) random userId s.2)

/-- Other requests that write once, between store calls `k - 1` and `k` of the
call under study. -/
def onlyBefore (k : Nat) (other : Db → Db) : Nat → Db → Db :=
  fun j db => if j = k then other db else db

/-! ## Predicates used by the statements -/

/-- The existence check of attempt `k` was answered and reported no owner. -/
def freeAt (db : Db) (fault : Nat → Option DbError) (random : Nat → Draw) (k : Nat) : Prop :=
  checkTaken db (fault (1 + k)) (candidateOf (random k)) = .ok none

/-- The user row `u` has the alias `a`: a stored number that the code treats as
set (neither `null` nor `0`). -/
def hasAlias (u : UserRow) (a : Int) : Prop := u.anon_number = some a ∧ a ≠ 0

/-- The aliases of all user rows that have one are pairwise distinct. -/
def UniqueAliases (db : Db) : Prop :=
  db.users.Pairwise (fun u v => ∀ a, hasAlias u a → ¬ hasAlias v a)

/-- The stored `anon_number` values of the rows of user `userId`. -/
def storedAnon (db : Db) (userId : String) : List (Option Int) :=
  (db.users.filter (fun u => u.user_id = userId)).map (fun u => u.anon_number)

/-- Reference definition of the companion's unread count of a session, written
after the specification: with read tracking available and a last-read time `T`
on the session, the session's non-companion messages created strictly after
`T`; otherwise, when the session has a companion message, the non-companion
messages created strictly after the latest companion message; otherwise all
non-companion messages of the session. -/
def unreadReference (db : Db) (readTracking : Bool) (session : SessionRow) : Nat :=
  let msgs := messagesOf db session.session_id
  match (if readTracking then session.companion_last_read_at else none) with
  | some T => msgs.countP (fun m => !m.is_companion && decide (T < m.created_at))
  | none =>
    match ((msgs.filter (fun m => m.is_companion)).map (fun m => m.created_at)).max? with
    | some L => msgs.countP (fun m => !m.is_companion && decide (L < m.created_at))
    | none => msgs.countP (fun m => !m.is_companion)

/-- The sessions of a list response (empty for any other body). -/
def Response.sessions (r : Response) : List SessionStats :=
  match r.body with
  | .sessions l => l
  | _ => []

/-- Which session query answers the list handler: `some true` the first one
(read tracking is available), `some false` the retry without the optional
columns after an unknown-column error, `none` when the handler fails. -/
def answeredBy (fault : Nat → Option DbError) : Option Bool :=
  match fault 0 with
  | none => some true
  | some e =>
    if e.code = "42703" then
      match fault 1 with
      | none => some false
      | some _ => none
    else none

/-- The decimal digit `d` as a character. -/
def digitChar (d : Nat) : Char := Char.ofNat (48 + d)

/-- Reference definition of the label of an alias `n` in 1..999, written after
the specification: `'Pengguna '` followed by exactly three decimal digits, the
hundreds, tens and units of `n`. -/
def threeDigitLabel (n : Nat) : String :=
  "Pengguna " ++ String.mk [digitChar (n / 100), digitChar (n / 10 % 10), digitChar (n % 10)]

/-- The store call is an existence check of a candidate number. -/
def Op.isExistenceCheck : Op → Bool
  | .selectUserByAnon _ => true
  | _ => false

/-- The store call is an update of a user's `anon_number`. -/
def Op.isUserUpdate : Op → Bool
  | .updateUserAnon _ _ => true
  | _ => false

/-- The store call is one of the two session queries of the list handler. -/
def Op.isSessionQuery : Op → Bool
  | .selectSessions _ _ => true
  | _ => false

/-- The user rows `u` and `v` agree in every column except possibly
`display_name`. -/
def sameButName (u v : UserRow) : Prop :=
  v = { u with display_name := v.display_name }

/-- The stores `a` and `b` differ at most in the `display_name` of users. -/
def SameButNames (a b : Db) : Prop :=
  List.Forall₂ sameButName a.users b.users ∧ a.chat_sessions = b.chat_sessions ∧
    a.messages = b.messages

/-- The request `loadMessages()` makes: the session id and the `after`
parameter (source lines 647-650); `none` when it makes no request. -/
def messagesRequest (c : Client) : Option (String × Option Timestamp) :=
  match presentId c.state.currentSessionId with
  | none => none
  | some sid => some (sid, c.state.lastMessageTime)

/-- The live polling timers are exactly the one whose handle is stored in
`state.pollingInterval`, if any. -/
def TimerInv (c : Client) : Prop := c.timers = c.state.pollingInterval.toList

/-- What a running call of `ensureAnonNumber(userId)` can rely on at each
position: between its first read and its return the user has exactly one row,
and a number it has returned is the one stored in that row. -/
def CallInv (db : Db) (userId : String) : Pc → Prop
  | .start => True
  | .done r => r.isSome → storedAnon db userId = [r]
  | _ => (db.users.filter (fun u => u.user_id = userId)).length = 1

/-- A fault oracle that fails no call. -/
def noFault : Nat → Option DbError := fun _ => none

/-! ## Example data -/

/-- Two users: `u1` without an alias, `u2` with alias 1. -/
def dbTwoUsers : Db :=
  { users := [⟨"u1", "Ann", none, "KODE", none⟩, ⟨"u2", "Bob", some 1, "KODE", none⟩], chat_sessions := [], messages := [] }

/-- A session row with the given id, companion, room type and status. -/
def sessionRow (sid : String) (companion room status : Option String) : SessionRow :=
  { session_id := sid, topic := "topik", created_by := some "u1", created_at := 10,
    companion_id := companion, companion_last_read_at := none, room_type := room,
    status := status, closed_at := none, closed_by := none }

/-- A private session of companion `c1` that is active. -/
def privateActive : SessionRow := sessionRow "s1" (some "c1") (some "private") (some "active")

/-- A group session of companion `c1` that is already closed. -/
def groupClosed : SessionRow := sessionRow "s1" (some "c1") (some "group") (some "closed")

/-- A group session of companion `c1` that is active. -/
def groupActive : SessionRow := sessionRow "s1" (some "c1") (some "group") (some "active")

/-- A store with one session and no message. -/
def dbOneSession (s : SessionRow) : Db :=
  { users := [⟨"u1", "Ann", none, "KODE", none⟩], chat_sessions := [s], messages := [] }

/-- A `POST` request of companion `cid` for session `sid`. -/
def postAs (cid sid : String) : Request :=
  { method := "POST", token := some ⟨true, cid⟩, sessionId := some sid }

/-- A `GET` request of companion `cid`. -/
def getAs (cid : String) : Request :=
  { method := "GET", token := some ⟨true, cid⟩, sessionId := none }

/-- Surroundings used in the examples. -/
def env0 : Env := { now := 100, uuid := "m-sys", storeNow := 101 }

/-- A message of session `s1` written by the user (`fromCompanion = false`) or
by the companion. -/
def chatMessage (mid : String) (fromCompanion : Bool) (createdAt : Timestamp) : MessageRow :=
  { message_id := mid, session_id := "s1",
    sender_id := some (if fromCompanion then "c1" else "u1"),
    display_name := "nama", text := "halo", is_companion := fromCompanion,
    is_system := false, created_at := createdAt }

/-- The private session `s1` of companion `c1`: the companion wrote at 40, the
user replied at 50. -/
def dbChat : Db :=
  { users := [⟨"u1", "Ann", some 7, "KODE", none⟩], chat_sessions := [privateActive],
    messages := [chatMessage "m1" true 40, chatMessage "m2" false 50] }

/-- The store in which the column `companion_last_read_at` does not exist: the
update of the mark-read handler (its call 1) fails with the unknown-column error. -/
def readFaultNoColumn : Nat → Option DbError :=
  fun k => if k = 1 then some ⟨"42703"⟩ else none

/-- In the same store the first session query of the list handler (its call 0)
fails with the unknown-column error and the retry is answered. -/
def listFaultNoColumn : Nat → Option DbError :=
  fun k => if k = 0 then some ⟨"42703"⟩ else none

/-- No fault in the per-session calls of the list handler. -/
def noStatFault : String → Nat → Option DbError := fun _ _ => none

/-- A client message of session `s1`. -/
def clientMessage (mid : String) (createdAt : Timestamp) : ClientMessage :=
  { messageId := mid, sessionId := "s1", userId := some "u1", displayName := "Ann",
    text := "halo", createdAt := createdAt, isOwn := false, isSystem := false }

/-- A page on the chat tab with session `s1` in its list, nothing selected and
no timer. -/
def clientIdle : Client :=
  { state :=
      { user := some ⟨"u1", "Ann"⟩, currentTab := "chat", currentSessionId := none,
        currentSession := none, lastMessageTime := none, pollingInterval := none,
        sessions := [⟨"s1", "topik", some "u1", none⟩], messages := [],
        isSendingMessage := false },
    timers := [], nextHandle := 0, lastRoom := none, lastTab := none,
    closedBanner := false }

/-- The page after `s1` was opened and its two messages loaded: cursor 20, the
polling timer 0 live. -/
def clientOpen : Client :=
  { clientIdle with
    state := { clientIdle.state with
      currentSessionId := some "s1", lastMessageTime := some 20,
      pollingInterval := some 0,
      messages := [clientMessage "m1" 10, clientMessage "m2" 20] },
    timers := [0], nextHandle := 1, lastRoom := some "s1", lastTab := some "chat" }

/-- A message-list response of a closed session with no message. -/
def closedResponse : MessageList :=
  { messages := [], sessionStatus := some "closed", serverTime := some 100 }

/-- The store whose update of `users` (call 2 of an `ensureAnonNumber` that finds
a free candidate at once) fails with a unique-constraint violation. -/
def updateFault : Nat → Option DbError :=
  fun k => if k = 2 then some ⟨"23505"⟩ else none

/-- The user `x<i>` owning the number `i + 1`. -/
def poolUser (i : Nat) : UserRow := ⟨"x" ++ toString i, "nama", some ((i : Int) + 1), "KODE", none⟩

/-- The users `x0` .. `x998`, who own the numbers 1..999. -/
def poolUsers : List UserRow := (List.range 999).map poolUser

/-- A store in which every number 1..999 is owned by some user and `u0` has no
alias. -/
def dbFull : Db :=
  { users := ⟨"u0", "Ann", none, "KODE", none⟩ :: poolUsers,
    chat_sessions := [], messages := [] }

/-- A store in which two users carry the same number 500. -/
def dbShared : Db :=
  { users := [⟨"u1", "Ann", some 500, "KODE", none⟩, ⟨"u2", "Bob", some 500, "KODE", none⟩],
    chat_sessions := [], messages := [] }

/-- A group session without an assigned companion that is active. -/
def groupUnassigned : SessionRow := sessionRow "s1" none (some "group") (some "active")

/-- The store whose message insert (call 2 of the close handler) fails. -/
def insertFault : Nat → Option DbError :=
  fun k => if k = 2 then some ⟨"23503"⟩ else none

/-- Helpers of the login handler used in the examples: no rate limit, inputs
passed through, every invite code valid. -/
def loginEnv0 : LoginEnv :=
  { rateLimited := false, sanitizeInput := fun x _ => x.getD "",
    isValidInviteCode := fun _ => true, now := 1234, newUserId := "u9" }

/-- The store in which the columns `room_type` and `status` do not exist: the
session read of the close handler (its call 0) fails with the unknown-column
error. -/
def closeFaultNoColumn : Nat → Option DbError :=
  fun k => if k = 0 then some ⟨"42703"⟩ else none

/-- The store `dbChat` with the user renamed. -/
def dbChatRenamed : Db :=
  { dbChat with users := [⟨"u1", "Putri", some 7, "KODE", none⟩] }

/-- The page as the script starts it. -/
def clientInit : Client :=
  { state := initialState, timers := [], nextHandle := 0, lastRoom := none, lastTab := none,
    closedBanner := false }

/-- The page after session `s1` was selected on the initial page and polling
was started, before any response has arrived. -/
def clientPolling : Client :=
  ClientEvent.startPolling.apply ((ClientEvent.selectStart "s1").apply clientInit)

/-- The history of session `s1` on the server: `m1` and `m2`, which the page
`clientOpen` holds, and `mA`, written by another participant at 25. -/
def historyBefore : List ClientMessage :=
  [clientMessage "m1" 10, clientMessage "m2" 20, clientMessage "mA" 25]

/-- The message the user of `clientOpen` sends, as the server stores it: id
`m4`, created at 30. -/
def ownMessage : ClientMessage :=
  { messageId := "m4", sessionId := "s1", userId := some "u1", displayName := "Ann",
    text := "halo", createdAt := 30, isOwn := true, isSystem := false }

/-- The page `clientOpen` after it has sent `halo` and the server has answered
with the stored message. -/
def clientAfterSend : Client :=
  (sendMessage clientOpen " halo " 31 (.ok ⟨some ⟨"m4", some 30⟩⟩) (.error "")).1

/-- Two users without an alias, `u1` and `u3`, and `u2` with alias 1. -/
def dbThreeUsers : Db :=
  { users := [⟨"u1", "Ann", none, "KODE", none⟩, ⟨"u2", "Bob", some 1, "KODE", none⟩,
      ⟨"u3", "Cici", none, "KODE", none⟩],
    chat_sessions := [], messages := [] }

/-- The interleaving in which both calls read their row, then both check the
same candidate, then both update. -/
def raceSchedule : List (Bool × Option DbError) :=
  [(true, none), (false, none), (true, none), (false, none), (true, none), (false, none),
   (false, none)]

/-- Every draw is `1/4`, so every candidate is 250. -/
def drawsQuarter : Nat → Draw := fun _ => ⟨1, 2, by decide⟩

/-- Another request stores 250 for `u1`. -/
def otherStores : Db → Db := fun db => { db with users := setAnon db.users "u1" 250 }

/-- Two calls for `u1`: the first reads its row and finds 500 free, the second
runs to its end and stores 250, then the update of the first fails and it reads
the row again. -/
def lostUpdateSchedule : List (Bool × Option DbError) :=
  [(true, none), (true, none), (false, none), (false, none), (false, none),
   (true, some ⟨"23505"⟩), (true, none)]

/-- Every draw is `0`, so every candidate is 1. -/
def drawsZero : Nat → Draw := fun _ => ⟨0, 0, by decide⟩

/-- Every draw is `1/2`, so every candidate is 500. -/
def drawsHalf : Nat → Draw := fun _ => ⟨1, 1, by decide⟩

/-- Every draw is the double `577037790093517 / 2 ^ 52` (0.12812812812812813):
its product with 999 lies below 128 and the nearest double is 128. -/
def drawsEdge : Nat → Draw := fun _ => ⟨577037790093517, 52, by decide⟩

/-! ## Lemmas on the store primitives -/

theorem single_eq_ok {α : Type} {l : List α} {r : α} (h : single l = .ok r) : l = [r] := by
  match l, h with
  | [a], h => simp [single] at h; simp [h]

theorem fetchUser_eq_ok {db : Db} {f : Option DbError} {userId : String} {u : UserRow}
    (h : fetchUser db f userId = .ok u) :
    db.users.filter (fun u => u.user_id = userId) = [u] := by
  unfold fetchUser at h
  cases f with
  | some e => simp at h
  | none => exact single_eq_ok h

theorem maybeSingle_eq_ok_none {α : Type} {l : List α} (h : maybeSingle l = .ok none) :
    l = [] := by
  match l, h with
  | [], _ => rfl
  | [a], h => simp [maybeSingle] at h

theorem freeAt_not_mem {db : Db} {fault : Nat → Option DbError} {random : Nat → Draw} {k : Nat}
    (h : freeAt db fault random k) :
    ∀ u ∈ db.users, u.anon_number ≠ some (candidateOf (random k)) := by
  unfold freeAt checkTaken at h
  cases hf : fault (1 + k) with
  | some e => simp [hf] at h
  | none =>
    simp only [hf] at h
    have h0 := maybeSingle_eq_ok_none h
    intro u hu hc
    have : u ∈ db.users.filter (fun u => u.anon_number = some (candidateOf (random k))) := by
      simp [List.mem_filter, hu, hc]
    rw [h0] at this
    exact absurd this (List.not_mem_nil u)

theorem dropBits_le (fuel p : Nat) :
    dropBits fuel p = 0 ∨ 4503599627370496 * 2 ^ dropBits fuel p ≤ p := by
  induction fuel generalizing p with
  | zero => left; rfl
  | succ n ih =>
    unfold dropBits
    by_cases hp : p < 9007199254740992
    · left; simp [hp]
    · right
      simp only [hp, if_false]
      rcases ih (p / 2) with h | h
      · rw [h]; simp; omega
      · rw [pow_succ]
        have := Nat.div_mul_le_self p 2
        nlinarith

theorem roundToDouble_le (p : Nat) : roundToDouble p ≤ p + p / 9007199254740992 := by
  unfold roundToDouble
  dsimp only
  have hs := dropBits_le p p
  generalize dropBits p p = s at hs
  have hdm := Nat.div_add_mod p (2 ^ s)
  have hlt : p % 2 ^ s < 2 ^ s := Nat.mod_lt _ (by positivity)
  split_ifs with hup
  · rcases hs with h0 | hbig
    · subst h0
      simp at hlt hup
      omega
    · have h2 : 2 ^ s ≤ 2 * (p % 2 ^ s) := by
        rcases hup with h | h
        · omega
        · omega
      have h3 : 2 ^ s ≤ 2 * (p / 9007199254740992) := by
        have : 2 ^ s / 2 ≤ p / 9007199254740992 := by
          rw [Nat.le_div_iff_mul_le (by norm_num)]
          have := Nat.div_mul_le_self (2 ^ s) 2
          nlinarith
        have hev : 2 ∣ 2 ^ s := by
          rcases s with _ | s
          · simp at hbig hlt; omega
          · exact Dvd.intro_left (2 ^ s) rfl
        omega
      have hq : (p / 2 ^ s + 1) * 2 ^ s = 2 ^ s * (p / 2 ^ s) + 2 ^ s := by ring
      rw [hq]
      omega
  · have hq : p / 2 ^ s * 2 ^ s = 2 ^ s * (p / 2 ^ s) := by ring
    rw [hq]
    omega


theorem roundToDouble_exact (p : Nat) (h : p < 9007199254740992) : roundToDouble p = p := by
  have hs : dropBits p p = 0 := by
    cases p with
    | zero => rfl
    | succ n => unfold dropBits; simp [h]
  unfold roundToDouble
  simp [hs, Nat.mod_one]

theorem roundToDouble_div (p e : Nat) (h : p < 1024 * 2 ^ e) :
    p / 2 ^ e ≤ roundToDouble p / 2 ^ e ∧ roundToDouble p / 2 ^ e ≤ p / 2 ^ e + 1 := by
  unfold roundToDouble
  dsimp only
  have hs := dropBits_le p p
  generalize dropBits p p = s at hs
  have hse : s ≤ e := by
    rcases hs with h0 | hbig
    · omega
    · have hlt : 2 ^ s < 2 ^ e := by nlinarith
      exact le_of_lt ((Nat.pow_lt_pow_iff_right (by norm_num)).1 hlt)
  have hD : 2 ^ e = 2 ^ s * 2 ^ (e - s) := by
    rw [← pow_add, Nat.add_sub_cancel' hse]
  have hT : 0 < 2 ^ s := by positivity
  have hE : 0 < 2 ^ (e - s) := by positivity
  have hp : p / 2 ^ e = p / 2 ^ s / 2 ^ (e - s) := by
    rw [hD, Nat.div_div_eq_div_mul]
  have hdown : p / 2 ^ s * 2 ^ s / 2 ^ e = p / 2 ^ s / 2 ^ (e - s) := by
    rw [hD, Nat.mul_comm (p / 2 ^ s) (2 ^ s), Nat.mul_div_mul_left _ _ hT]
  have hup : (p / 2 ^ s + 1) * 2 ^ s / 2 ^ e = (p / 2 ^ s + 1) / 2 ^ (e - s) := by
    rw [hD, Nat.mul_comm (p / 2 ^ s + 1) (2 ^ s), Nat.mul_div_mul_left _ _ hT]
  split_ifs with hround
  · rw [hup, hp]
    constructor
    · exact Nat.div_le_div_right (Nat.le_succ _)
    · calc (p / 2 ^ s + 1) / 2 ^ (e - s)
          ≤ (p / 2 ^ s + 2 ^ (e - s)) / 2 ^ (e - s) :=
            Nat.div_le_div_right (by omega)
        _ = p / 2 ^ s / 2 ^ (e - s) + 1 := Nat.add_div_right _ hE
  · rw [hdown, hp]
    exact ⟨le_refl _, Nat.le_succ _⟩

theorem floor_toRat (r : Draw) : ⌊r.toRat * 999⌋ = ((r.num * 999 / 2 ^ r.exp : Nat) : Int) := by
  unfold Draw.toRat
  have h : ((r.num : ℚ) / ((2 ^ r.exp : Nat) : ℚ)) * 999 =
      ((r.num * 999 : ℕ) : ℚ) / ((2 ^ r.exp : Nat) : ℚ) := by
    push_cast
    ring
  rw [h, Rat.floor_natCast_div_natCast]
  rfl

theorem candidateOf_pos (r : Draw) : 1 ≤ candidateOf r := by
  unfold candidateOf
  have h := Int.ofNat_nonneg (roundToDouble (r.num * 999) / 2 ^ r.exp)
  omega

theorem candidateOf_le (r : Draw) (h : r.inUnit) : candidateOf r ≤ 999 := by
  unfold candidateOf
  have hsig := r.significand
  unfold Draw.inUnit at h
  have hR := roundToDouble_le (r.num * 999)
  have h1 : roundToDouble (r.num * 999) / 2 ^ r.exp < 999 := by
    apply Nat.div_lt_of_lt_mul
    by_cases he : r.exp ≤ 53
    · have hD : 2 ^ r.exp ≤ 2 ^ 53 := Nat.pow_le_pow_right (by norm_num) he
      norm_num at hD
      omega
    · have hD : 2 ^ 54 ≤ 2 ^ r.exp := Nat.pow_le_pow_right (by norm_num) (by omega)
      norm_num at hD
      omega
  omega

/-- The candidate is the real floor plus one, or one more when the product
rounds up to an integer. -/
theorem candidateOf_floor (r : Draw) (h : r.inUnit) :
    ⌊r.toRat * 999⌋ + 1 ≤ candidateOf r ∧ candidateOf r ≤ ⌊r.toRat * 999⌋ + 2 ∧
    (r.num * 999 < 9007199254740992 → candidateOf r = ⌊r.toRat * 999⌋ + 1) := by
  rw [floor_toRat]
  unfold candidateOf
  unfold Draw.inUnit at h
  have hb := roundToDouble_div (r.num * 999) r.exp (by omega)
  refine ⟨by omega, by omega, ?_⟩
  intro hx
  rw [roundToDouble_exact _ hx]

/-- What the retry loop returns: a found number is the candidate of the first
attempt in range whose check reported no owner. -/
theorem drawLoop_some (db : Db) (fault : Nat → Option DbError) (random : Nat → Draw) :
    ∀ (remaining attempt : Nat) (c : Int),
      (drawLoop db fault random remaining attempt).1 = some c →
      ∃ k, attempt ≤ k ∧ k < attempt + remaining ∧ freeAt db fault random k ∧
        (∀ j, attempt ≤ j → j < k → ¬ freeAt db fault random j) ∧
        c = candidateOf (random k) ∧
        (drawLoop db fault random remaining attempt).2 = k - attempt + 1 := by
  intro remaining
  induction remaining with
  | zero => intro attempt c h; simp [drawLoop] at h
  | succ n ih =>
    intro attempt c h
    unfold drawLoop at h ⊢
    cases hc : checkTaken db (fault (1 + attempt)) (candidateOf (random attempt)) with
    | error e =>
      simp only [hc] at h ⊢
      obtain ⟨k, hk1, hk2, hk3, hk4, hk5, hk6⟩ := ih (attempt + 1) c h
      refine ⟨k, by omega, by omega, hk3, ?_, hk5, by rw [hk6]; omega⟩
      intro j hj1 hj2
      by_cases hja : j = attempt
      · subst hja
        unfold freeAt
        rw [hc]
        simp
      · exact hk4 j (by omega) hj2
    | ok v =>
      cases v with
      | none =>
        simp only [hc] at h ⊢
        refine ⟨attempt, le_refl _, by omega, hc, ?_, ?_, by simp⟩
        · intro j hj1 hj2
          omega
        · simpa using h.symm
      | some w =>
        simp only [hc] at h ⊢
        obtain ⟨k, hk1, hk2, hk3, hk4, hk5, hk6⟩ := ih (attempt + 1) c h
        refine ⟨k, by omega, by omega, hk3, ?_, hk5, by rw [hk6]; omega⟩
        intro j hj1 hj2
        by_cases hja : j = attempt
        · subst hja
          unfold freeAt
          rw [hc]
          simp
        · exact hk4 j (by omega) hj2

/-! ## `ensureAnonNumber` -/

theorem truthy_candidateOf (r : Draw) : truthy (some (candidateOf r)) = true := by
  have h := candidateOf_pos r
  simp only [truthy, bne_iff_ne, ne_eq]
  omega

/-- The three ways a call of `ensureAnonNumber` can end: without a number and
without a write; with the number already stored; or with the candidate of the
first attempt whose check reported no owner, written to the user's row. -/
theorem ensureAnonNumber_cases (db : Db) (fault : Nat → Option DbError)
    (random : Nat → Draw) (userId : String) :
    ((ensureAnonNumber db fault random userId).result = none ∧
      (ensureAnonNumber db fault random userId).db = db) ∨
    (∃ u, db.users.filter (fun u => u.user_id = userId) = [u] ∧
      truthy u.anon_number = true ∧
      (ensureAnonNumber db fault random userId).result = u.anon_number ∧
      (ensureAnonNumber db fault random userId).db = db ∧
      (ensureAnonNumber db fault random userId).log = [Op.selectUserAnon userId]) ∨
    (∃ u k, db.users.filter (fun u => u.user_id = userId) = [u] ∧
      truthy u.anon_number = false ∧ k < 20 ∧ freeAt db fault random k ∧
      (∀ j, j < k → ¬ freeAt db fault random j) ∧
      (ensureAnonNumber db fault random userId).result = some (candidateOf (random k)) ∧
      (ensureAnonNumber db fault random userId).db =
        { db with users := setAnon db.users userId (candidateOf (random k)) }) := by
  unfold ensureAnonNumber
  by_cases hid : userId = ""
  · simp [hid]
  · simp only [hid, if_false]
    cases hf : fetchUser db (fault 0) userId with
    | error e => simp
    | ok user =>
      have hu := fetchUser_eq_ok hf
      dsimp only
      by_cases ht : truthy user.anon_number = true
      · rw [if_pos ht]
        exact Or.inr (Or.inl ⟨user, hu, ht, rfl, rfl, rfl⟩)
      · rw [if_neg ht]
        cases hd : (drawLoop db fault random MAX_RETRIES 0).1 with
        | none => simp [truthy]
        | some c =>
          obtain ⟨k, _, hk2, hk3, hk4, hk5, _⟩ := drawLoop_some db fault random _ _ c hd
          have hc0 : truthy (some c) = true := by rw [hk5]; exact truthy_candidateOf _
          simp only [hc0, Option.getD_some, if_true]
          cases hfu : fault (1 + (drawLoop db fault random MAX_RETRIES 0).2) with
          | some e =>
            left
            simp only [updateAnon, and_true]
            have ht' : truthy user.anon_number = false := by simpa using ht
            cases hr : fetchUser db (fault (2 + (drawLoop db fault random MAX_RETRIES 0).2)) userId with
            | error e2 => rfl
            | ok retryUser =>
              have hu2 := fetchUser_eq_ok hr
              rw [hu] at hu2
              have : user = retryUser := by simpa using hu2
              subst this
              simp [orNull, ht']
          | none =>
            right; right
            simp only [updateAnon]
            refine ⟨user, k, hu, by simpa using ht, ?_, hk3, ?_, by rw [hk5], by rw [hk5]⟩
            · simpa [MAX_RETRIES] using hk2
            · intro j hj
              exact hk4 j (Nat.zero_le _) hj

theorem setAnon_filter (users : List UserRow) (userId : String) (n : Int) :
    (setAnon users userId n).filter (fun u => u.user_id = userId) =
      (users.filter (fun u => u.user_id = userId)).map
        (fun u => { u with anon_number := some n }) := by
  induction users with
  | nil => rfl
  | cons a l ih =>
    unfold setAnon at ih ⊢
    by_cases h : a.user_id = userId
    · simp [List.filter_cons, h, ih]
    · simp [List.filter_cons, h, ih]

theorem fetchUser_of_filter {db : Db} {userId : String} {u : UserRow}
    (h : db.users.filter (fun u => u.user_id = userId) = [u]) :
    fetchUser db none userId = .ok u := by
  simp [fetchUser, h, single]

/-- A call for a user whose row is read and carries a set number returns it
after that single read. -/
theorem ensureAnonNumber_stored {db : Db} {fault : Nat → Option DbError}
    (random : Nat → Draw) {userId : String} {u : UserRow}
    (hid : userId ≠ "") (hread : fetchUser db (fault 0) userId = .ok u)
    (ht : truthy u.anon_number = true) :
    (ensureAnonNumber db fault random userId).result = u.anon_number ∧
    (ensureAnonNumber db fault random userId).log = [Op.selectUserAnon userId] ∧
    (ensureAnonNumber db fault random userId).db = db := by
  unfold ensureAnonNumber
  rw [if_neg hid, hread]
  dsimp only
  rw [if_pos ht]
  exact ⟨rfl, rfl, rfl⟩

theorem ensureAnonNumber_empty_id (db : Db) (fault : Nat → Option DbError)
    (random : Nat → Draw) : (ensureAnonNumber db fault random "").result = none := by
  simp [ensureAnonNumber]

/-- C2: for a user whose row can be read and whose stored `anon_number` is an
integer in 1..999, `ensureAnonNumber` returns exactly that number, issues the
single row read and nothing else (no existence check, no update), and leaves
the store unchanged. -/
theorem ensureAnonNumber_returns_stored (db : Db) (fault : Nat → Option DbError)
    (random : Nat → Draw) (userId : String) (user : UserRow) (n : Int)
    (hid : userId ≠ "") (hread : fetchUser db (fault 0) userId = .ok user)
    (hn : user.anon_number = some n) (h1 : 1 ≤ n) (h2 : n ≤ 999) :
    (ensureAnonNumber db fault random userId).result = some n ∧
    (ensureAnonNumber db fault random userId).log = [Op.selectUserAnon userId] ∧
    (ensureAnonNumber db fault random userId).db = db := by
  have ht : truthy user.anon_number = true := by
    rw [hn]
    simp only [truthy, bne_iff_ne, ne_eq]
    omega
  have h := ensureAnonNumber_stored random hid hread ht
  rw [hn] at h
  exact h

/-- C3 (amended): for a user without an alias and draws in `[0, 1)`, a non-null
result `n` is the candidate of the first attempt `k < 20` whose existence check
was answered and reported no owner, computed as the source does, with the
product `r_k * 999` rounded to the nearest double: `n` is `floor(r_k * 999) + 1`
or one more, and it is `floor(r_k * 999) + 1` when the product is a double
itself; `1 ≤ n ≤ 999`; and after the call the user's stored `anon_number` is
`n`. -/
theorem ensureAnonNumber_assigns_first_free (db : Db) (fault : Nat → Option DbError)
    (random : Nat → Draw) (userId : String) (n : Int)
    (hdraw : ∀ i, (random i).inUnit)
    (hnone : ∀ u ∈ db.users, u.user_id = userId → truthy u.anon_number = false)
    (hres : (ensureAnonNumber db fault random userId).result = some n) :
    ∃ k, k < 20 ∧ freeAt db fault random k ∧ (∀ j, j < k → ¬ freeAt db fault random j) ∧
      n = candidateOf (random k) ∧
      ⌊(random k).toRat * 999⌋ + 1 ≤ n ∧ n ≤ ⌊(random k).toRat * 999⌋ + 2 ∧
      ((random k).num * 999 < 9007199254740992 → n = ⌊(random k).toRat * 999⌋ + 1) ∧
      1 ≤ n ∧ n ≤ 999 ∧
      storedAnon (ensureAnonNumber db fault random userId).db userId = [some n] := by
  rcases ensureAnonNumber_cases db fault random userId with h | h | h
  · rw [h.1] at hres
    exact absurd hres (by simp)
  · obtain ⟨u, hu, ht, _, _, _⟩ := h
    have hmem : u ∈ db.users.filter (fun u => u.user_id = userId) := by simp [hu]
    rw [List.mem_filter] at hmem
    have := hnone u hmem.1 (by simpa using hmem.2)
    rw [this] at ht
    exact absurd ht (by simp)
  · obtain ⟨u, k, hu, _, hk, hfree, hfirst, hr, hdb⟩ := h
    rw [hr] at hres
    have hn : n = candidateOf (random k) := by simpa using hres.symm
    have hfl := candidateOf_floor (random k) (hdraw k)
    refine ⟨k, hk, hfree, hfirst, hn, ?_, ?_, ?_, ?_, ?_, ?_⟩
    · rw [hn]; exact hfl.1
    · rw [hn]; exact hfl.2.1
    · rw [hn]; exact hfl.2.2
    · rw [hn]; exact candidateOf_pos _
    · rw [hn]; exact candidateOf_le _ (hdraw k)
    · rw [hdb, hn]
      simp [storedAnon, setAnon_filter, hu]

/-- Writing a number that no row carries into the single row of a user keeps
the aliases pairwise distinct. -/
theorem setAnon_unique (users : List UserRow) (userId : String) (c : Int) (u : UserRow)
    (hrow : users.filter (fun u => u.user_id = userId) = [u])
    (hfree : ∀ v ∈ users, v.anon_number ≠ some c)
    (hpw : users.Pairwise (fun u v => ∀ a, hasAlias u a → ¬ hasAlias v a)) :
    (setAnon users userId c).Pairwise (fun u v => ∀ a, hasAlias u a → ¬ hasAlias v a) := by
  unfold setAnon
  rw [List.pairwise_map, List.pairwise_iff_forall_sublist]
  intro a b hab
  have hR := (List.pairwise_iff_forall_sublist.mp hpw) hab
  have ha : a ∈ users := hab.subset (by simp)
  have hb : b ∈ users := hab.subset (by simp)
  intro x hx hy
  by_cases h1 : a.user_id = userId
  · by_cases h2 : b.user_id = userId
    · have hsub := hab.filter (fun u => decide (u.user_id = userId))
      rw [hrow] at hsub
      have hlen := hsub.length_le
      simp [List.filter_cons, h1, h2] at hlen
    · simp only [h1, h2, if_true, if_false, hasAlias] at hx hy
      have hxc : c = x := by simpa using hx.1
      exact hfree b hb (by rw [hxc]; exact hy.1)
  · by_cases h2 : b.user_id = userId
    · simp only [h1, h2, if_true, if_false, hasAlias] at hx hy
      have hxc : c = x := by simpa using hy.1
      exact hfree a ha (by rw [hxc]; exact hx.1)
    · simp only [h1, h2, if_false] at hx hy
      exact hR x hx hy

/-- C4: if the aliases of all users that have one are pairwise distinct before
a call of `ensureAnonNumber`, they are pairwise distinct after it, whatever the
draws and whichever store calls fail. -/
theorem ensureAnonNumber_preserves_unique (db : Db) (fault : Nat → Option DbError)
    (random : Nat → Draw) (userId : String) (huniq : UniqueAliases db) :
    UniqueAliases (ensureAnonNumber db fault random userId).db := by
  rcases ensureAnonNumber_cases db fault random userId with h | h | h
  · rw [h.2]; exact huniq
  · obtain ⟨u, _, _, _, hdb, _⟩ := h
    rw [hdb]; exact huniq
  · obtain ⟨u, k, hu, _, _, hfree, _, _, hdb⟩ := h
    rw [hdb]
    exact setAnon_unique db.users userId _ u hu (freeAt_not_mem hfree) huniq

/-- C1 (amended): when a call of `ensureAnonNumber` returns an alias `n`, a
second call in succession whose row read is answered returns the same `n` and
does not change the store. -/
theorem ensureAnonNumber_second_call_same (db : Db) (fault₁ fault₂ : Nat → Option DbError)
    (random₁ random₂ : Nat → Draw) (userId : String) (n : Int)
    (hfirst : (ensureAnonNumber db fault₁ random₁ userId).result = some n)
    (hread : fault₂ 0 = none) :
    (ensureAnonNumber (ensureAnonNumber db fault₁ random₁ userId).db fault₂ random₂
      userId).result = some n ∧
    (ensureAnonNumber (ensureAnonNumber db fault₁ random₁ userId).db fault₂ random₂
      userId).db = (ensureAnonNumber db fault₁ random₁ userId).db := by
  have hid : userId ≠ "" := by
    intro h
    rw [h, ensureAnonNumber_empty_id] at hfirst
    exact absurd hfirst (by simp)
  rcases ensureAnonNumber_cases db fault₁ random₁ userId with h | h | h
  · rw [h.1] at hfirst
    exact absurd hfirst (by simp)
  · obtain ⟨u, hu, ht, hr, hdb, _⟩ := h
    rw [hdb]
    have hf : fetchUser db (fault₂ 0) userId = .ok u := by
      rw [hread]; exact fetchUser_of_filter hu
    have h2 := ensureAnonNumber_stored random₂ hid hf ht
    rw [hr] at hfirst
    exact ⟨by rw [h2.1, hfirst], h2.2.2⟩
  · obtain ⟨u, k, hu, _, _, _, _, hr, hdb⟩ := h
    rw [hr] at hfirst
    have hn : candidateOf (random₁ k) = n := by simpa using hfirst
    rw [hdb, hn]
    have hrow : ({ db with users := setAnon db.users userId n } : Db).users.filter
        (fun u => u.user_id = userId) = [{ u with anon_number := some n }] := by
      simp [setAnon_filter, hu]
    have hf : fetchUser { db with users := setAnon db.users userId n } (fault₂ 0) userId =
        .ok { u with anon_number := some n } := by
      rw [hread]; exact fetchUser_of_filter hrow
    have ht : truthy ({ u with anon_number := some n } : UserRow).anon_number = true := by
      rw [← hn]; exact truthy_candidateOf _
    have h2 := ensureAnonNumber_stored random₂ hid hf ht
    exact ⟨h2.1, h2.2.2⟩

/-- C2 at a concrete store: `u2` carries alias 1. -/
theorem ensureAnonNumber_returns_stored_witness :
    ("u2" ≠ "" ∧ fetchUser dbTwoUsers (noFault 0) "u2" = .ok ⟨"u2", "Bob", some 1, "KODE", none⟩) ∧
    ((ensureAnonNumber dbTwoUsers noFault drawsHalf "u2").result = some 1 ∧
     (ensureAnonNumber dbTwoUsers noFault drawsHalf "u2").log = [Op.selectUserAnon "u2"] ∧
     (ensureAnonNumber dbTwoUsers noFault drawsHalf "u2").db = dbTwoUsers) :=
  ⟨⟨by decide, rfl⟩,
    ensureAnonNumber_returns_stored dbTwoUsers noFault drawsHalf "u2" ⟨"u2", "Bob", some 1, "KODE", none⟩ 1
      (by decide) rfl rfl (by decide) (by decide)⟩

/-- C3 as stated fails: `u1` has no alias, the first draw is the double
`577037790093517 / 2 ^ 52`, the first check finds no owner and the update
succeeds; the call returns and stores 129, while `floor(r_0 * 999) + 1` is
128. -/
theorem ensureAnonNumber_rounds_up :
    (∀ i, (drawsEdge i).inUnit) ∧
    (∀ u ∈ dbTwoUsers.users, u.user_id = "u1" → truthy u.anon_number = false) ∧
    freeAt dbTwoUsers noFault drawsEdge 0 ∧
    (ensureAnonNumber dbTwoUsers noFault drawsEdge "u1").result = some 129 ∧
    storedAnon (ensureAnonNumber dbTwoUsers noFault drawsEdge "u1").db "u1" = [some 129] ∧
    ⌊(drawsEdge 0).toRat * 999⌋ + 1 = 128 := by
  refine ⟨fun _ => by simp [drawsEdge, Draw.inUnit], by decide, rfl, by decide, by decide, ?_⟩
  rw [floor_toRat]
  decide

/-- C3 (amended) at a concrete store: `u1` has no alias and the first draw gives
500. -/
theorem ensureAnonNumber_assigns_first_free_witness :
    ((∀ i, (drawsHalf i).inUnit) ∧
      (∀ u ∈ dbTwoUsers.users, u.user_id = "u1" → truthy u.anon_number = false) ∧
      (ensureAnonNumber dbTwoUsers noFault drawsHalf "u1").result = some 500) ∧
    ∃ k, k < 20 ∧ freeAt dbTwoUsers noFault drawsHalf k ∧
      (∀ j, j < k → ¬ freeAt dbTwoUsers noFault drawsHalf j) ∧
      (500 : Int) = candidateOf (drawsHalf k) ∧
      ⌊(drawsHalf k).toRat * 999⌋ + 1 ≤ (500 : Int) ∧
      (500 : Int) ≤ ⌊(drawsHalf k).toRat * 999⌋ + 2 ∧
      ((drawsHalf k).num * 999 < 9007199254740992 →
        (500 : Int) = ⌊(drawsHalf k).toRat * 999⌋ + 1) ∧
      (1 : Int) ≤ 500 ∧ (500 : Int) ≤ 999 ∧
      storedAnon (ensureAnonNumber dbTwoUsers noFault drawsHalf "u1").db "u1" = [some 500] :=
  ⟨⟨fun _ => by simp [drawsHalf, Draw.inUnit], by decide, by decide⟩,
    ensureAnonNumber_assigns_first_free dbTwoUsers noFault drawsHalf "u1" 500
      (fun _ => by simp [drawsHalf, Draw.inUnit]) (by decide) (by decide)⟩

/-- C4 at a concrete store: assigning 500 to `u1` keeps the aliases distinct. -/
theorem ensureAnonNumber_preserves_unique_witness :
    UniqueAliases dbTwoUsers ∧
    UniqueAliases (ensureAnonNumber dbTwoUsers noFault drawsHalf "u1").db :=
  ⟨by simp [UniqueAliases, hasAlias, dbTwoUsers],
    ensureAnonNumber_preserves_unique dbTwoUsers noFault drawsHalf "u1"
      (by simp [UniqueAliases, hasAlias, dbTwoUsers])⟩

/-- C1 as stated fails: with no store fault at all, a first call whose twenty
candidates are all taken returns `null`, and the next call returns 500. -/
theorem ensureAnonNumber_twice_differs :
    (ensureAnonNumber dbTwoUsers noFault drawsZero "u1").result = none ∧
    (ensureAnonNumber (ensureAnonNumber dbTwoUsers noFault drawsZero "u1").db noFault
      drawsHalf "u1").result = some 500 ∧
    (ensureAnonNumber dbTwoUsers noFault drawsZero "u1").result ≠
      (ensureAnonNumber (ensureAnonNumber dbTwoUsers noFault drawsZero "u1").db noFault
        drawsHalf "u1").result := by
  decide

/-- C1 (amended) at a concrete store: the first call assigns 500. -/
theorem ensureAnonNumber_second_call_same_witness :
    ((ensureAnonNumber dbTwoUsers noFault drawsHalf "u1").result = some 500 ∧
      noFault 0 = none) ∧
    ((ensureAnonNumber (ensureAnonNumber dbTwoUsers noFault drawsHalf "u1").db noFault
      drawsZero "u1").result = some 500 ∧
     (ensureAnonNumber (ensureAnonNumber dbTwoUsers noFault drawsHalf "u1").db noFault
      drawsZero "u1").db = (ensureAnonNumber dbTwoUsers noFault drawsHalf "u1").db) :=
  ⟨⟨by decide, rfl⟩,
    ensureAnonNumber_second_call_same dbTwoUsers noFault noFault drawsHalf drawsZero "u1" 500
      (by decide) rfl⟩

/-! ## The close and mark-read handlers -/

theorem fetchSession_eq_ok {db : Db} {f : Option DbError} {sid : String} {r : SessionRow}
    (h : fetchSession db f sid = .ok r) :
    db.chat_sessions.filter (fun s => s.session_id = sid) = [r] := by
  unfold fetchSession at h
  cases f with
  | some e => simp at h
  | none => exact single_eq_ok h

/-- C5 as stated fails: the assigned companion closing an already closed private
session is answered 200 success, and a companion that is not assigned is
answered 403 with the assignment error, not with the policy error. -/
theorem closeHandler_private_not_always_policy :
    (closeHandler (dbOneSession (sessionRow "s1" (some "c1") (some "private") (some "closed")))
      noFault env0 (postAs "c1" "s1")).result = ⟨200, .success "Session already closed"⟩ ∧
    (closeHandler (dbOneSession (sessionRow "s1" (some "c1") (some "private") (some "active")))
      noFault env0 (postAs "c2" "s1")).result = ⟨403, .error "Not assigned to this session"⟩ := by
  decide

/-- C5 (amended): for a session whose `room_type` is not `'group'` the close
handler issues no write and leaves the store unchanged; it answers 403 with the
policy error when the actor is the assigned companion and the session is not
already closed, 403 with the assignment error when the actor is not assigned,
and the idempotent 200 when the actor is assigned and the session is closed. -/
theorem closeHandler_non_group (db : Db) (fault : Nat → Option DbError) (env : Env)
    (req : Request) (companion : DecodedToken) (sid : String) (session : SessionRow)
    (hm : req.method = "POST") (hc : getCompanionFromRequest req = some companion)
    (hs : presentId req.sessionId = some sid)
    (hf : fetchSession db (fault 0) sid = .ok session)
    (hroom : session.room_type ≠ some "group") :
    (closeHandler db fault env req).db = db ∧
    (closeHandler db fault env req).log = [Op.selectSession sid] ∧
    (session.companion_id = some companion.companionId → session.status ≠ some "closed" →
      (closeHandler db fault env req).result = ⟨403, .error groupOnlyError⟩) ∧
    (session.companion_id ≠ some companion.companionId →
      (closeHandler db fault env req).result = ⟨403, .error "Not assigned to this session"⟩) ∧
    (session.companion_id = some companion.companionId → session.status = some "closed" →
      (closeHandler db fault env req).result = ⟨200, .success "Session already closed"⟩) := by
  unfold closeHandler
  simp only [hm, hc, hs, hf]
  by_cases h1 : session.companion_id = some companion.companionId
  · by_cases h2 : session.status = some "closed"
    · simp [h1, h2]
    · simp [h1, h2, hroom]
  · simp [h1]

/-- C6: closing an already closed session as its assigned companion answers 200
success, issues only the session read (no update of `chat_sessions`, no insert
into `messages`) and leaves the store unchanged. -/
theorem closeHandler_already_closed (db : Db) (fault : Nat → Option DbError) (env : Env)
    (req : Request) (companion : DecodedToken) (sid : String) (session : SessionRow)
    (hm : req.method = "POST") (hc : getCompanionFromRequest req = some companion)
    (hs : presentId req.sessionId = some sid)
    (hf : fetchSession db (fault 0) sid = .ok session)
    (hassigned : session.companion_id = some companion.companionId)
    (hclosed : session.status = some "closed") :
    (closeHandler db fault env req).result = ⟨200, .success "Session already closed"⟩ ∧
    (closeHandler db fault env req).log = [Op.selectSession sid] ∧
    (closeHandler db fault env req).db = db := by
  unfold closeHandler
  simp [hm, hc, hs, hf, hassigned, hclosed]

theorem setClosed_filter_same (l : List SessionRow) (sid : String) (t : Timestamp)
    (c : String) :
    (setClosed l sid t c).filter (fun s => s.session_id = sid) =
      (l.filter (fun s => s.session_id = sid)).map (fun s =>
        { s with status := some "closed", closed_at := some t, closed_by := some c }) := by
  induction l with
  | nil => rfl
  | cons a l ih =>
    unfold setClosed at ih ⊢
    by_cases h : a.session_id = sid
    · simp [List.filter_cons, h, ih]
    · simp [List.filter_cons, h, ih]

theorem setClosed_filter_other (l : List SessionRow) (sid : String) (t : Timestamp)
    (c : String) :
    (setClosed l sid t c).filter (fun s => s.session_id ≠ sid) =
      l.filter (fun s => s.session_id ≠ sid) := by
  induction l with
  | nil => rfl
  | cons a l ih =>
    unfold setClosed at ih ⊢
    simp only [decide_not] at ih ⊢
    by_cases h : a.session_id = sid
    · simp [List.filter_cons, h, ih]
    · simp [List.filter_cons, h, ih]

/-- C7: closing a group session that is not yet closed, as its assigned
companion, with the update and the insert succeeding: the answer is 200 success;
afterwards the session's row has `status = 'closed'`, `closed_by` the actor and
`closed_at` the close time; exactly one message is appended, for that session,
with `is_system = true`, `is_companion = false` and `sender_id = null`; the rows
of other sessions and all users are unchanged. -/
theorem closeHandler_closes_group (db : Db) (fault : Nat → Option DbError) (env : Env)
    (req : Request) (companion : DecodedToken) (sid : String) (session : SessionRow)
    (hm : req.method = "POST") (hc : getCompanionFromRequest req = some companion)
    (hs : presentId req.sessionId = some sid)
    (hf : fetchSession db (fault 0) sid = .ok session)
    (hassigned : session.companion_id = some companion.companionId)
    (hopen : session.status ≠ some "closed")
    (hgroup : session.room_type = some "group")
    (hupdate : fault 1 = none) (hinsert : fault 2 = none) :
    (closeHandler db fault env req).result = ⟨200, .success "Session closed successfully"⟩ ∧
    (closeHandler db fault env req).db.chat_sessions.filter (fun s => s.session_id = sid) =
      [{ session with status := some "closed", closed_at := some env.now,
                      closed_by := some companion.companionId }] ∧
    (closeHandler db fault env req).db.chat_sessions.filter (fun s => s.session_id ≠ sid) =
      db.chat_sessions.filter (fun s => s.session_id ≠ sid) ∧
    (∃ m : MessageRow, (closeHandler db fault env req).db.messages = db.messages ++ [m] ∧
      m.session_id = sid ∧ m.is_system = true ∧ m.is_companion = false ∧ m.sender_id = none) ∧
    (closeHandler db fault env req).db.users = db.users := by
  have hrow := fetchSession_eq_ok hf
  unfold closeHandler
  simp only [hm, hc, hs, hf, hupdate, hinsert]
  simp only [hassigned, hopen, hgroup]
  refine ⟨by simp, ?_, ?_, ⟨closeMessage env sid, by simp, rfl, rfl, rfl, rfl⟩, by simp⟩
  · simp [setClosed_filter_same, hrow, hassigned, hgroup]
  · simpa using setClosed_filter_other db.chat_sessions sid env.now companion.companionId

/-- C8: for an existing session whose `companion_id` differs from the
authenticated companion's id, the close handler and the mark-read handler both
answer 403, issue only the session read and leave the store unchanged. -/
theorem handlers_reject_unassigned (db : Db) (faultC faultR : Nat → Option DbError) (env : Env)
    (req : Request) (companion : DecodedToken) (sid : String) (session : SessionRow)
    (hm : req.method = "POST") (hc : getCompanionFromRequest req = some companion)
    (hs : presentId req.sessionId = some sid)
    (hfc : fetchSession db (faultC 0) sid = .ok session)
    (hfr : fetchSession db (faultR 0) sid = .ok session)
    (hdiff : session.companion_id ≠ some companion.companionId) :
    ((closeHandler db faultC env req).result.status = 403 ∧
      (closeHandler db faultC env req).log = [Op.selectSession sid] ∧
      (closeHandler db faultC env req).db = db) ∧
    ((readHandler db faultR env req).result.status = 403 ∧
      (readHandler db faultR env req).log = [Op.selectSession sid] ∧
      (readHandler db faultR env req).db = db) := by
  unfold closeHandler readHandler
  simp [hm, hc, hs, hfc, hfr, hdiff]

/-- C5 (amended) at a concrete store: the assigned companion `c1` asks to
close its active private session. -/
theorem closeHandler_non_group_witness :
    ((postAs "c1" "s1").method = "POST" ∧
      getCompanionFromRequest (postAs "c1" "s1") = some ⟨true, "c1"⟩ ∧
      presentId (postAs "c1" "s1").sessionId = some "s1" ∧
      fetchSession (dbOneSession privateActive) (noFault 0) "s1" = .ok privateActive ∧
      privateActive.room_type ≠ some "group") ∧
    ((closeHandler (dbOneSession privateActive) noFault env0 (postAs "c1" "s1")).db =
        dbOneSession privateActive ∧
     (closeHandler (dbOneSession privateActive) noFault env0 (postAs "c1" "s1")).log =
        [Op.selectSession "s1"] ∧
     (privateActive.companion_id = some "c1" → privateActive.status ≠ some "closed" →
        (closeHandler (dbOneSession privateActive) noFault env0 (postAs "c1" "s1")).result =
          ⟨403, .error groupOnlyError⟩) ∧
     (privateActive.companion_id ≠ some "c1" →
        (closeHandler (dbOneSession privateActive) noFault env0 (postAs "c1" "s1")).result =
          ⟨403, .error "Not assigned to this session"⟩) ∧
     (privateActive.companion_id = some "c1" → privateActive.status = some "closed" →
        (closeHandler (dbOneSession privateActive) noFault env0 (postAs "c1" "s1")).result =
          ⟨200, .success "Session already closed"⟩)) :=
  ⟨⟨rfl, rfl, rfl, rfl, by decide⟩,
    closeHandler_non_group (dbOneSession privateActive) noFault env0 (postAs "c1" "s1")
      ⟨true, "c1"⟩ "s1" privateActive rfl rfl rfl rfl (by decide)⟩

/-- C6 at a concrete store: the assigned companion closes a closed session. -/
theorem closeHandler_already_closed_witness :
    ((postAs "c1" "s1").method = "POST" ∧
      getCompanionFromRequest (postAs "c1" "s1") = some ⟨true, "c1"⟩ ∧
      presentId (postAs "c1" "s1").sessionId = some "s1" ∧
      fetchSession (dbOneSession groupClosed) (noFault 0) "s1" = .ok groupClosed ∧
      groupClosed.companion_id = some "c1" ∧ groupClosed.status = some "closed") ∧
    ((closeHandler (dbOneSession groupClosed) noFault env0 (postAs "c1" "s1")).result =
        ⟨200, .success "Session already closed"⟩ ∧
     (closeHandler (dbOneSession groupClosed) noFault env0 (postAs "c1" "s1")).log =
        [Op.selectSession "s1"] ∧
     (closeHandler (dbOneSession groupClosed) noFault env0 (postAs "c1" "s1")).db =
        dbOneSession groupClosed) :=
  ⟨⟨rfl, rfl, rfl, rfl, rfl, rfl⟩,
    closeHandler_already_closed (dbOneSession groupClosed) noFault env0 (postAs "c1" "s1")
      ⟨true, "c1"⟩ "s1" groupClosed rfl rfl rfl rfl rfl rfl⟩

/-- C7 at a concrete store: the assigned companion closes an active group. -/
theorem closeHandler_closes_group_witness :
    ((postAs "c1" "s1").method = "POST" ∧
      getCompanionFromRequest (postAs "c1" "s1") = some ⟨true, "c1"⟩ ∧
      presentId (postAs "c1" "s1").sessionId = some "s1" ∧
      fetchSession (dbOneSession groupActive) (noFault 0) "s1" = .ok groupActive ∧
      groupActive.companion_id = some "c1" ∧ groupActive.status ≠ some "closed" ∧
      groupActive.room_type = some "group" ∧ noFault 1 = none ∧ noFault 2 = none) ∧
    ((closeHandler (dbOneSession groupActive) noFault env0 (postAs "c1" "s1")).result =
        ⟨200, .success "Session closed successfully"⟩ ∧
     (closeHandler (dbOneSession groupActive) noFault env0
        (postAs "c1" "s1")).db.chat_sessions.filter (fun s => s.session_id = "s1") =
        [{ groupActive with status := some "closed", closed_at := some env0.now,
                            closed_by := some "c1" }] ∧
     (closeHandler (dbOneSession groupActive) noFault env0
        (postAs "c1" "s1")).db.chat_sessions.filter (fun s => s.session_id ≠ "s1") =
        (dbOneSession groupActive).chat_sessions.filter (fun s => s.session_id ≠ "s1") ∧
     (∃ m : MessageRow,
        (closeHandler (dbOneSession groupActive) noFault env0 (postAs "c1" "s1")).db.messages =
          (dbOneSession groupActive).messages ++ [m] ∧
        m.session_id = "s1" ∧ m.is_system = true ∧ m.is_companion = false ∧
        m.sender_id = none) ∧
     (closeHandler (dbOneSession groupActive) noFault env0 (postAs "c1" "s1")).db.users =
        (dbOneSession groupActive).users) :=
  ⟨⟨rfl, rfl, rfl, rfl, rfl, by decide, rfl, rfl, rfl⟩,
    closeHandler_closes_group (dbOneSession groupActive) noFault env0 (postAs "c1" "s1")
      ⟨true, "c1"⟩ "s1" groupActive rfl rfl rfl rfl rfl (by decide) rfl rfl rfl⟩

/-- C8 at a concrete store: companion `c2` acts on a session of `c1`. -/
theorem handlers_reject_unassigned_witness :
    ((postAs "c2" "s1").method = "POST" ∧
      getCompanionFromRequest (postAs "c2" "s1") = some ⟨true, "c2"⟩ ∧
      presentId (postAs "c2" "s1").sessionId = some "s1" ∧
      fetchSession (dbOneSession groupActive) (noFault 0) "s1" = .ok groupActive ∧
      groupActive.companion_id ≠ some "c2") ∧
    (((closeHandler (dbOneSession groupActive) noFault env0 (postAs "c2" "s1")).result.status
        = 403 ∧
      (closeHandler (dbOneSession groupActive) noFault env0 (postAs "c2" "s1")).log =
        [Op.selectSession "s1"] ∧
      (closeHandler (dbOneSession groupActive) noFault env0 (postAs "c2" "s1")).db =
        dbOneSession groupActive) ∧
     ((readHandler (dbOneSession groupActive) noFault env0 (postAs "c2" "s1")).result.status
        = 403 ∧
      (readHandler (dbOneSession groupActive) noFault env0 (postAs "c2" "s1")).log =
        [Op.selectSession "s1"] ∧
      (readHandler (dbOneSession groupActive) noFault env0 (postAs "c2" "s1")).db =
        dbOneSession groupActive)) :=
  ⟨⟨rfl, rfl, rfl, rfl, by decide⟩,
    handlers_reject_unassigned (dbOneSession groupActive) noFault noFault env0
      (postAs "c2" "s1") ⟨true, "c2"⟩ "s1" groupActive rfl rfl rfl rfl rfl (by decide)⟩

/-! ## The session list and the unread count -/

theorem newestFirst_head_none {α : Type} (f : α → Timestamp) (l : List α)
    (h : (newestFirst f l).head? = none) : l = [] := by
  have hp := List.perm_insertionSort (fun a b => f b ≤ f a) l
  unfold newestFirst at h
  rw [List.head?_eq_none_iff] at h
  rw [h] at hp
  exact List.Perm.eq_nil hp.symm

/-- The head of the rows ordered newest first is a row of the list with the
greatest `created_at`. -/
theorem newestFirst_head_some {α : Type} (f : α → Timestamp) (l : List α) (m : α)
    (h : (newestFirst f l).head? = some m) : m ∈ l ∧ ∀ x ∈ l, f x ≤ f m := by
  haveI : IsTotal α (fun a b => f b ≤ f a) := ⟨fun a b => le_total (f b) (f a)⟩
  haveI : IsTrans α (fun a b => f b ≤ f a) := ⟨fun a b c hab hbc => le_trans hbc hab⟩
  have hs := List.sorted_insertionSort (fun a b => f b ≤ f a) l
  have hmem : ∀ x, x ∈ List.insertionSort (fun a b => f b ≤ f a) l ↔ x ∈ l :=
    fun x => (List.perm_insertionSort (fun a b => f b ≤ f a) l).mem_iff
  unfold newestFirst at h
  cases hl : List.insertionSort (fun a b => f b ≤ f a) l with
  | nil => rw [hl] at h; simp at h
  | cons a t =>
    rw [hl] at h hs hmem
    have ham : a = m := by simpa using h
    subst ham
    refine ⟨(hmem a).mp (by simp), ?_⟩
    intro x hx
    have hx' := (hmem x).mpr hx
    rcases List.mem_cons.mp hx' with hxa | hxt
    · rw [hxa]
    · exact List.rel_of_sorted_cons hs x hxt

theorem filter_filter_length (l : List MessageRow) (p q : MessageRow → Bool) :
    ((l.filter p).filter q).length = l.countP (fun m => p m && q m) := by
  rw [List.filter_filter, List.countP_eq_length_filter]
  congr 1
  apply List.filter_congr
  intro x _
  exact Bool.and_comm _ _

/-- The unread count computed by the list handler equals the reference
definition when the store answers the two calls made for it. -/
theorem unreadCount_eq_reference (db : Db) (fault : Nat → Option DbError) (tracking : Bool)
    (s : SessionRow) (h2 : fault 2 = none) (h3 : fault 3 = none) :
    (unreadCount db fault tracking (selectColumns tracking s)).1 =
      unreadReference db tracking s := by
  have hfall :
      (match latestRow (fault 2)
          ((messagesOf db s.session_id).filter (fun m => m.is_companion = true)) with
        | some lastCompanionMsg =>
          (countOr0 (fault 3) (((messagesOf db s.session_id).filter
              (fun m : MessageRow => m.is_companion = false)).filter
              (fun m : MessageRow => lastCompanionMsg.created_at < m.created_at)),
            [Op.selectLastCompanionMessage s.session_id,
             Op.countUserMessagesAfter s.session_id lastCompanionMsg.created_at])
        | none =>
          (countOr0 (fault 3) ((messagesOf db s.session_id).filter
              (fun m : MessageRow => m.is_companion = false)),
            [Op.selectLastCompanionMessage s.session_id,
             Op.countUserMessages s.session_id])).1 =
      (match (((messagesOf db s.session_id).filter
          (fun m : MessageRow => m.is_companion)).map (fun m => m.created_at)).max? with
        | some L => (messagesOf db s.session_id).countP
            (fun m : MessageRow => !m.is_companion && decide (L < m.created_at))
        | none => (messagesOf db s.session_id).countP
            (fun m : MessageRow => !m.is_companion)) := by
    rw [h2, h3]
    unfold latestRow countOr0
    dsimp only
    cases hh : (newestFirst MessageRow.created_at
        ((messagesOf db s.session_id).filter (fun m => m.is_companion = true))).head? with
    | none =>
      have hnil := newestFirst_head_none _ _ hh
      have hnil' : (messagesOf db s.session_id).filter (fun m => m.is_companion) = [] := by
        simpa using hnil
      rw [hnil']
      simp [List.countP_eq_length_filter]
    | some m =>
      obtain ⟨hm, hmax⟩ := newestFirst_head_some _ _ _ hh
      have hL : (((messagesOf db s.session_id).filter (fun m => m.is_companion)).map
          (fun m => m.created_at)).max? = some m.created_at := by
        rw [List.max?_eq_some_iff']
        constructor
        · exact List.mem_map.mpr ⟨m, by simpa using hm, rfl⟩
        · intro b hb
          obtain ⟨x, hx, hxb⟩ := List.mem_map.mp hb
          rw [← hxb]
          exact hmax x (by simpa using hx)
      rw [hL]
      dsimp only
      rw [filter_filter_length]
      congr 1
      funext x
      simp
  unfold unreadCount unreadReference
  cases tracking with
  | false =>
    simp only [selectColumns, Bool.false_eq_true, if_false]
    exact hfall
  | true =>
    cases hT : s.companion_last_read_at with
    | none =>
      simp only [selectColumns, if_true, hT]
      exact hfall
    | some T =>
      simp only [selectColumns, if_true, hT, h2, countOr0]
      rw [filter_filter_length]
      congr 1
      funext x
      simp

theorem selectColumns_session_id (t : Bool) (s : SessionRow) :
    (selectColumns t s).session_id = s.session_id := by
  cases t <;> rfl

/-- The entries of the list response built from the rows of a session query:
one per selected session that survives the closed filter. -/
theorem mem_respondSessions (db : Db) (statFault : String → Nat → Option DbError) (t : Bool)
    (cid : String) (log : List Op) (e : SessionStats) :
    e ∈ (respondSessions db statFault t t
        ((newestFirst SessionRow.created_at
          (db.chat_sessions.filter (fun s => s.companion_id = some cid))).map
          (fun s => ⟨selectColumns t s, embeddedUser db s⟩)) log).result.sessions ↔
      ∃ s ∈ db.chat_sessions, s.companion_id = some cid ∧
        (t = true → s.status ≠ some "closed") ∧
        e = (sessionStats db (statFault s.session_id) t t
              ⟨selectColumns t s, embeddedUser db s⟩).1 := by
  unfold respondSessions Response.sessions newestFirst
  cases t with
  | false =>
    simp only [Bool.false_eq_true, if_false, List.mem_insertionSort, List.mem_map,
      List.mem_filter, decide_eq_true_eq]
    constructor
    · rintro ⟨p, ⟨r, ⟨s, ⟨hs, hc⟩, rfl⟩, rfl⟩, rfl⟩
      exact ⟨s, hs, hc, by simp, by simp [selectColumns]⟩
    · rintro ⟨s, hs, hc, _, rfl⟩
      exact ⟨_, ⟨_, ⟨s, ⟨hs, hc⟩, rfl⟩, rfl⟩, by simp [selectColumns]⟩
  | true =>
    simp only [if_true, List.mem_insertionSort, List.mem_map, List.mem_filter,
      decide_eq_true_eq]
    constructor
    · rintro ⟨p, ⟨r, ⟨⟨s, ⟨hs, hc⟩, rfl⟩, hopen⟩, rfl⟩, rfl⟩
      exact ⟨s, hs, hc, fun _ => by simpa [selectColumns] using hopen, by simp [selectColumns]⟩
    · rintro ⟨s, hs, hc, hopen, rfl⟩
      exact ⟨_, ⟨_, ⟨⟨s, ⟨hs, hc⟩, rfl⟩, by simpa [selectColumns] using hopen trivial⟩, rfl⟩,
        by simp [selectColumns]⟩

/-- The response of the list handler once a session query has answered. -/
theorem sessionsHandler_answered (db : Db) (fault : Nat → Option DbError)
    (statFault : String → Nat → Option DbError) (req : Request) (companion : DecodedToken)
    (t : Bool) (hm : req.method = "GET") (hc : getCompanionFromRequest req = some companion)
    (hans : answeredBy fault = some t) :
    ∃ log, (sessionsHandler db fault statFault req).result =
      (respondSessions db statFault t t
        ((newestFirst SessionRow.created_at
          (db.chat_sessions.filter (fun s => s.companion_id = some companion.companionId))).map
          (fun s => ⟨selectColumns t s, embeddedUser db s⟩)) log).result := by
  unfold answeredBy at hans
  unfold sessionsHandler
  have hne : ¬ ("GET" = "OPTIONS") := by decide
  simp only [hm, hne, if_false, hc, if_true]
  cases h0 : fault 0 with
  | none =>
    rw [h0] at hans
    have ht : t = true := by simpa using hans.symm
    subst ht
    exact ⟨[Op.selectSessions companion.companionId true], by simp [listSessions]⟩
  | some e =>
    rw [h0] at hans
    by_cases hcode : e.code = "42703"
    · cases h1 : fault 1 with
      | none =>
        simp only [hcode, if_true, h1] at hans
        have ht : t = false := by simpa using hans.symm
        subst ht
        exact ⟨[Op.selectSessions companion.companionId true,
          Op.selectSessions companion.companionId false], by simp [listSessions, hcode]⟩
      | some e1 => simp [hcode, h1] at hans
    · simp [hcode] at hans

/-- C9: when a session query answers the list handler and the store answers the
calls made for the unread count, the response is 200 and the unread count of
every listed session equals the reference definition, with read tracking
available exactly when the first query answered; every session of the companion
that the handler does not filter out as closed is listed. -/
theorem sessionsHandler_unread_reference (db : Db) (fault : Nat → Option DbError)
    (statFault : String → Nat → Option DbError) (req : Request) (companion : DecodedToken)
    (tracking : Bool) (hm : req.method = "GET")
    (hc : getCompanionFromRequest req = some companion)
    (hans : answeredBy fault = some tracking)
    (hstat : ∀ sid, statFault sid 2 = none ∧ statFault sid 3 = none) :
    (sessionsHandler db fault statFault req).result.status = 200 ∧
    (∀ e ∈ (sessionsHandler db fault statFault req).result.sessions,
      ∃ s ∈ db.chat_sessions, s.companion_id = some companion.companionId ∧
        s.session_id = e.sessionId ∧ e.unreadCount = unreadReference db tracking s) ∧
    (∀ s ∈ db.chat_sessions, s.companion_id = some companion.companionId →
      (tracking = true → s.status ≠ some "closed") →
      ∃ e ∈ (sessionsHandler db fault statFault req).result.sessions,
        e.sessionId = s.session_id ∧ e.unreadCount = unreadReference db tracking s) := by
  obtain ⟨log, hres⟩ := sessionsHandler_answered db fault statFault req companion tracking
    hm hc hans
  rw [hres]
  refine ⟨rfl, ?_, ?_⟩
  · intro e he
    obtain ⟨s, hs, hcid, _, rfl⟩ :=
      (mem_respondSessions db statFault tracking companion.companionId log e).mp he
    refine ⟨s, hs, hcid, ?_, ?_⟩
    · simp [sessionStats, selectColumns_session_id]
    · have h := unreadCount_eq_reference db (statFault s.session_id) tracking s
        (hstat s.session_id).1 (hstat s.session_id).2
      simpa [sessionStats, selectColumns_session_id] using h
  · intro s hs hcid hopen
    refine ⟨_, (mem_respondSessions db statFault tracking companion.companionId log _).mpr
      ⟨s, hs, hcid, hopen, rfl⟩, ?_, ?_⟩
    · simp [sessionStats, selectColumns_session_id]
    · have h := unreadCount_eq_reference db (statFault s.session_id) tracking s
        (hstat s.session_id).1 (hstat s.session_id).2
      simpa [sessionStats, selectColumns_session_id] using h

/-- When the mark-read handler answers that the session was marked as read, it
found the session assigned to the actor and stamped it with the current time. -/
theorem readHandler_marked (db : Db) (fault : Nat → Option DbError) (env : Env)
    (req : Request) (companion : DecodedToken) (sid : String)
    (hm : req.method = "POST") (hc : getCompanionFromRequest req = some companion)
    (hs : presentId req.sessionId = some sid)
    (hok : (readHandler db fault env req).result = ⟨200, .success "Session marked as read"⟩) :
    ∃ session, db.chat_sessions.filter (fun s => s.session_id = sid) = [session] ∧
      session.companion_id = some companion.companionId ∧
      (readHandler db fault env req).db =
        { db with chat_sessions := setRead db.chat_sessions sid env.now } := by
  unfold readHandler at hok ⊢
  have hne : ¬ ("POST" = "OPTIONS") := by decide
  simp only [hm, hne, if_false, hc, hs, ne_eq, not_true_eq_false] at hok ⊢
  cases hf : fetchSession db (fault 0) sid with
  | error e => simp [hf] at hok
  | ok session =>
    simp only [hf] at hok ⊢
    by_cases hcid : session.companion_id = some companion.companionId
    · simp only [hcid, not_true_eq_false, if_false] at hok ⊢
      cases h1 : fault 1 with
      | none => exact ⟨session, fetchSession_eq_ok hf, hcid, rfl⟩
      | some e =>
        simp only [h1] at hok
        by_cases hcode : e.code = "42703"
        · simp [hcode] at hok
        · simp [hcode] at hok
    · simp [hcid] at hok

/-- With a last-read time that no message of the session exceeds, the unread
count is 0, whichever of its store calls fail. -/
theorem unreadCount_zero (db : Db) (fault : Nat → Option DbError) (s : SessionRow)
    (T : Timestamp) (hT : s.companion_last_read_at = some T)
    (hpast : ∀ m ∈ db.messages, m.session_id = s.session_id → m.created_at ≤ T) :
    (unreadCount db fault true s).1 = 0 := by
  unfold unreadCount
  simp only [hT]
  cases fault 2 with
  | some e => rfl
  | none =>
    simp only [countOr0, List.length_eq_zero, List.filter_eq_nil_iff, messagesOf,
      List.mem_filter, decide_eq_true_eq, not_lt]
    intro m hm
    exact hpast m hm.1.1 hm.1.2

theorem mem_setRead {l : List SessionRow} {sid : String} {t : Timestamp} {x : SessionRow} :
    x ∈ setRead l sid t ↔
      ∃ s ∈ l, x = if s.session_id = sid then { s with companion_last_read_at := some t }
        else s := by
  unfold setRead
  rw [List.mem_map]
  constructor
  · rintro ⟨s, hs, rfl⟩
    exact ⟨s, hs, rfl⟩
  · rintro ⟨s, hs, rfl⟩
    exact ⟨s, hs, rfl⟩

/-- C9 at a concrete store: one user message after the companion's message. -/
theorem sessionsHandler_unread_reference_witness :
    ((getAs "c1").method = "GET" ∧
      getCompanionFromRequest (getAs "c1") = some ⟨true, "c1"⟩ ∧
      answeredBy noFault = some true ∧
      (∀ sid, noStatFault sid 2 = none ∧ noStatFault sid 3 = none)) ∧
    ((sessionsHandler dbChat noFault noStatFault (getAs "c1")).result.status = 200 ∧
     (∀ e ∈ (sessionsHandler dbChat noFault noStatFault (getAs "c1")).result.sessions,
        ∃ s ∈ dbChat.chat_sessions, s.companion_id = some "c1" ∧
          s.session_id = e.sessionId ∧ e.unreadCount = unreadReference dbChat true s) ∧
     (∀ s ∈ dbChat.chat_sessions, s.companion_id = some "c1" →
        (true = true → s.status ≠ some "closed") →
        ∃ e ∈ (sessionsHandler dbChat noFault noStatFault (getAs "c1")).result.sessions,
          e.sessionId = s.session_id ∧ e.unreadCount = unreadReference dbChat true s)) :=
  ⟨⟨rfl, rfl, rfl, fun _ => ⟨rfl, rfl⟩⟩,
    sessionsHandler_unread_reference dbChat noFault noStatFault (getAs "c1") ⟨true, "c1"⟩ true
      rfl rfl rfl (fun _ => ⟨rfl, rfl⟩)⟩

/-- C10 as stated fails: where the last-read column does not exist, the
mark-read handler reports success without stamping anything, and the session
list computed right after still reports one unread message. -/
theorem unread_after_markRead_migration_pending :
    (readHandler dbChat readFaultNoColumn env0 (postAs "c1" "s1")).result =
      ⟨200, .success "Session marked as read (migration pending)"⟩ ∧
    ((sessionsHandler (readHandler dbChat readFaultNoColumn env0 (postAs "c1" "s1")).db
        listFaultNoColumn noStatFault (getAs "c1")).result.sessions.map
      (fun e => (e.sessionId, e.unreadCount))) = [("s1", 1)] := by
  decide

/-- C10 (amended): when the mark-read handler answers that the session was
marked as read (the update was carried out), no message of the session is
later than the stamped time, and the first session query of the list handler
answers (read tracking is available), the unread count the list reports for
that session is 0; the session is listed unless it is closed. -/
theorem unread_zero_after_markRead (db : Db) (faultR faultL : Nat → Option DbError)
    (statFault : String → Nat → Option DbError) (env : Env) (req reqL : Request)
    (companion : DecodedToken) (sid : String)
    (hm : req.method = "POST") (hc : getCompanionFromRequest req = some companion)
    (hs : presentId req.sessionId = some sid)
    (hok : (readHandler db faultR env req).result = ⟨200, .success "Session marked as read"⟩)
    (hpast : ∀ m ∈ db.messages, m.session_id = sid → m.created_at ≤ env.now)
    (hmL : reqL.method = "GET") (hcL : getCompanionFromRequest reqL = some companion)
    (htrack : faultL 0 = none) :
    (∀ e ∈ (sessionsHandler (readHandler db faultR env req).db faultL statFault
        reqL).result.sessions, e.sessionId = sid → e.unreadCount = 0) ∧
    ((∀ s ∈ db.chat_sessions, s.session_id = sid → s.status ≠ some "closed") →
      ∃ e ∈ (sessionsHandler (readHandler db faultR env req).db faultL statFault
        reqL).result.sessions, e.sessionId = sid) := by
  obtain ⟨session, hrow, hcid, hdb⟩ := readHandler_marked db faultR env req companion sid
    hm hc hs hok
  have hans : answeredBy faultL = some true := by simp [answeredBy, htrack]
  obtain ⟨log, hres⟩ := sessionsHandler_answered (readHandler db faultR env req).db faultL
    statFault reqL companion true hmL hcL hans
  rw [hres, hdb]
  constructor
  · intro e he hid
    obtain ⟨s', hs', _, _, rfl⟩ := (mem_respondSessions _ statFault true
      companion.companionId log e).mp he
    obtain ⟨s, _, rfl⟩ := mem_setRead.mp hs'
    simp only [sessionStats, selectColumns_session_id] at hid ⊢
    by_cases hsid : s.session_id = sid
    · simp only [hsid, if_true]
      apply unreadCount_zero _ _ _ env.now
      · simp [selectColumns]
      · intro m hmem hmid
        exact hpast m hmem (by simpa [selectColumns] using hmid)
    · simp only [hsid, if_false] at hid
  · intro hopen
    have hmem : session ∈ db.chat_sessions.filter (fun s => s.session_id = sid) := by
      simp [hrow]
    rw [List.mem_filter] at hmem
    have hsid : session.session_id = sid := by simpa using hmem.2
    refine ⟨_, (mem_respondSessions _ statFault true companion.companionId log _).mpr
      ⟨{ session with companion_last_read_at := some env.now }, ?_, hcid, ?_, rfl⟩, ?_⟩
    · exact mem_setRead.mpr ⟨session, hmem.1, by simp [hsid]⟩
    · intro _
      exact hopen session hmem.1 hsid
    · simp [sessionStats, selectColumns_session_id, hsid]

/-- C10 (amended) at a concrete store: the companion marks `s1` as read at 100. -/
theorem unread_zero_after_markRead_witness :
    ((postAs "c1" "s1").method = "POST" ∧
      getCompanionFromRequest (postAs "c1" "s1") = some ⟨true, "c1"⟩ ∧
      presentId (postAs "c1" "s1").sessionId = some "s1" ∧
      (readHandler dbChat noFault env0 (postAs "c1" "s1")).result =
        ⟨200, .success "Session marked as read"⟩ ∧
      (∀ m ∈ dbChat.messages, m.session_id = "s1" → m.created_at ≤ env0.now) ∧
      (getAs "c1").method = "GET" ∧
      getCompanionFromRequest (getAs "c1") = some ⟨true, "c1"⟩ ∧ noFault 0 = none) ∧
    ((∀ e ∈ (sessionsHandler (readHandler dbChat noFault env0 (postAs "c1" "s1")).db noFault
        noStatFault (getAs "c1")).result.sessions, e.sessionId = "s1" → e.unreadCount = 0) ∧
     ((∀ s ∈ dbChat.chat_sessions, s.session_id = "s1" → s.status ≠ some "closed") →
       ∃ e ∈ (sessionsHandler (readHandler dbChat noFault env0 (postAs "c1" "s1")).db noFault
        noStatFault (getAs "c1")).result.sessions, e.sessionId = "s1")) :=
  ⟨⟨rfl, rfl, rfl, by decide, by decide, rfl, rfl, rfl⟩,
    unread_zero_after_markRead dbChat noFault noFault noStatFault env0 (postAs "c1" "s1")
      (getAs "c1") ⟨true, "c1"⟩ "s1" rfl rfl rfl (by decide) (by decide) rfl rfl rfl⟩

/-! ## The client: loading messages and polling -/

theorem stopPolling_state (c : Client) :
    (stopPolling c).state.messages = c.state.messages ∧
    (stopPolling c).state.lastMessageTime = c.state.lastMessageTime ∧
    (stopPolling c).state.pollingInterval = none := by
  unfold stopPolling
  cases h : c.state.pollingInterval with
  | none => simp [h]
  | some t => simp

theorem handleClosedRoom_state (c : Client) :
    (handleClosedRoom c).state.messages = c.state.messages ∧
    (handleClosedRoom c).state.lastMessageTime = c.state.lastMessageTime ∧
    (handleClosedRoom c).state.pollingInterval = none := by
  unfold handleClosedRoom
  exact stopPolling_state _

theorem newMessages_eq (held received : List ClientMessage) :
    newMessages held received =
      received.filter (fun m => decide (m.messageId ∉ held.map (fun x => x.messageId))) := by
  unfold newMessages
  apply List.filter_congr
  intro m _
  show (!(List.elem m.messageId (held.map (fun x => x.messageId)))) =
    decide (m.messageId ∉ held.map (fun x => x.messageId))
  rw [List.elem_eq_mem]
  by_cases h : m.messageId ∈ held.map (fun x => x.messageId)
  · rw [decide_eq_true h, decide_eq_false (not_not.mpr h)]
    rfl
  · rw [decide_eq_false h, decide_eq_true h]
    rfl

/-- C11: an incremental load (a session is selected and the cursor is set)
sets `state.messages` to the old list followed by the messages of the response,
in its order, whose `messageId` does not occur in the old list, and sets the
cursor to the `createdAt` of the last of them; when there is none, among them
when the response is empty, the list and the cursor are unchanged. -/
theorem loadMessages_incremental (c : Client) (R : MessageList) (sid : String)
    (T : Timestamp) (hs : presentId c.state.currentSessionId = some sid)
    (hT : c.state.lastMessageTime = some T) :
    (loadMessages c (.ok R)).state.messages =
      c.state.messages ++ R.messages.filter
        (fun m => decide (m.messageId ∉ c.state.messages.map (fun x => x.messageId))) ∧
    (loadMessages c (.ok R)).state.lastMessageTime =
      (match (R.messages.filter
          (fun m => decide (m.messageId ∉ c.state.messages.map (fun x => x.messageId)))).getLast?
        with
        | some last => some last.createdAt
        | none => some T) ∧
    (R.messages.filter
        (fun m => decide (m.messageId ∉ c.state.messages.map (fun x => x.messageId))) = [] →
      (loadMessages c (.ok R)).state.messages = c.state.messages ∧
      (loadMessages c (.ok R)).state.lastMessageTime = c.state.lastMessageTime) := by
  rw [← newMessages_eq]
  have key : ∀ c₁ : Client,
      (if R.sessionStatus = some "closed" then handleClosedRoom c₁ else c₁).state.messages =
        c₁.state.messages ∧
      (if R.sessionStatus = some "closed" then handleClosedRoom c₁ else c₁).state.lastMessageTime
        = c₁.state.lastMessageTime := by
    intro c₁
    by_cases h : R.sessionStatus = some "closed"
    · simp only [h, if_true]
      exact ⟨(handleClosedRoom_state c₁).1, (handleClosedRoom_state c₁).2.1⟩
    · simp [h]
  unfold loadMessages
  simp only [hs, hT]
  by_cases hlen : R.messages.length > 0
  · simp only [hlen, if_true]
    cases hl : (newMessages c.state.messages R.messages).getLast? with
    | none =>
      have hnil : newMessages c.state.messages R.messages = [] := by
        simpa [List.getLast?_eq_none_iff] using hl
      simp only [(key c).1, (key c).2, hT, hnil, List.append_nil]
      simp
    | some last =>
      have hne : newMessages c.state.messages R.messages ≠ [] := by
        intro h
        rw [h] at hl
        simp at hl
      simp only [(key _).1, (key _).2]
      simp [hne]
  · simp only [hlen, if_false]
    have hnil : R.messages = [] := by
      cases hR : R.messages with
      | nil => rfl
      | cons a l => rw [hR] at hlen; simp at hlen
    simp only [(key c).1, (key c).2, hT, hnil, newMessages, List.filter_nil, List.append_nil,
      List.getLast?_nil]
    simp

/-- C11 at a concrete page: of the received `m2` and `m3` only `m3` is new. -/
theorem loadMessages_incremental_witness :
    (presentId clientOpen.state.currentSessionId = some "s1" ∧
      clientOpen.state.lastMessageTime = some 20) ∧
    ((loadMessages clientOpen (.ok ⟨[clientMessage "m2" 20, clientMessage "m3" 30], none,
        some 40⟩)).state.messages =
      clientOpen.state.messages ++ [clientMessage "m2" 20, clientMessage "m3" 30].filter
        (fun m => decide (m.messageId ∉ clientOpen.state.messages.map (fun x => x.messageId))) ∧
    (loadMessages clientOpen (.ok ⟨[clientMessage "m2" 20, clientMessage "m3" 30], none,
        some 40⟩)).state.lastMessageTime =
      (match ([clientMessage "m2" 20, clientMessage "m3" 30].filter
          (fun m => decide (m.messageId ∉
            clientOpen.state.messages.map (fun x => x.messageId)))).getLast?
        with
        | some last => some last.createdAt
        | none => some 20) ∧
    ([clientMessage "m2" 20, clientMessage "m3" 30].filter
        (fun m => decide (m.messageId ∉ clientOpen.state.messages.map (fun x => x.messageId)))
        = [] →
      (loadMessages clientOpen (.ok ⟨[clientMessage "m2" 20, clientMessage "m3" 30], none,
        some 40⟩)).state.messages = clientOpen.state.messages ∧
      (loadMessages clientOpen (.ok ⟨[clientMessage "m2" 20, clientMessage "m3" 30], none,
        some 40⟩)).state.lastMessageTime = clientOpen.state.lastMessageTime)) :=
  ⟨⟨rfl, rfl⟩,
    loadMessages_incremental clientOpen ⟨[clientMessage "m2" 20, clientMessage "m3" 30], none,
      some 40⟩ "s1" 20 rfl rfl⟩

/-- Opening a session with a non-empty id always ends with a polling timer
scheduled, whatever the message-list response says. -/
theorem selectSession_polls (c : Client) (sessionId : String)
    (response : Except String MessageList) (hid : sessionId ≠ "") :
    ∃ h, (selectSession c sessionId response).state.pollingInterval = some h ∧
      h ∈ (selectSession c sessionId response).timers := by
  have hcur : ∀ d : Client, (stopPolling d).state.currentSessionId = d.state.currentSessionId := by
    intro d
    unfold stopPolling
    cases d.state.pollingInterval <;> rfl
  have hload : ∀ d : Client, (loadMessages d response).state.currentSessionId =
      d.state.currentSessionId := by
    intro d
    unfold loadMessages handleClosedRoom
    cases presentId d.state.currentSessionId with
    | none => rfl
    | some sid =>
      cases response with
      | error msg =>
        by_cases hm : mentionsClosed msg = true
        · simp [hm, hcur]
        · simp [hm]
      | ok data =>
        by_cases hcl : data.sessionStatus = some "closed"
        · simp only [hcl, if_true, hcur]
          cases d.state.lastMessageTime with
          | none => rfl
          | some T =>
            by_cases hlen : data.messages.length > 0
            · simp only [hlen, if_true]
              cases (newMessages d.state.messages data.messages).getLast? <;> rfl
            · simp [hlen]
        · simp only [hcl, if_false]
          cases d.state.lastMessageTime with
          | none => rfl
          | some T =>
            by_cases hlen : data.messages.length > 0
            · simp only [hlen, if_true]
              cases (newMessages d.state.messages data.messages).getLast? <;> rfl
            · simp [hlen]
  unfold selectSession startPolling
  simp only [hload, presentId, hid, if_false]
  exact ⟨_, rfl, by simp⟩

/-- C12 at the failing input: a direct `loadMessages` and a poll tick that
receive a response with `session.status = 'closed'` leave no polling timer, but
`selectSession` opening that session ends with timer 0 scheduled and stored in
`state.pollingInterval`, because it calls `startPolling()` after the load. -/
theorem selectSession_closed_keeps_timer :
    (loadMessages clientOpen (.ok closedResponse)).state.pollingInterval = none ∧
    (loadMessages clientOpen (.ok closedResponse)).timers = [] ∧
    (pollTick clientOpen (.ok closedResponse)).state.pollingInterval = none ∧
    (selectSession clientIdle "s1" (.ok closedResponse)).state.pollingInterval = some 0 ∧
    (selectSession clientIdle "s1" (.ok closedResponse)).timers = [0] := by
  decide

/-! ## `formatAnonLabel` -/

set_option maxRecDepth 100000 in
theorem formatAnonLabel_digits :
    ∀ k : Fin 1000, 1 ≤ k.val → formatAnonLabel (some (k.val : Int)) = threeDigitLabel k.val := by
  decide

/-- C13: `formatAnonLabel` returns the sentinel `'Pengguna ---'` for `null` and
`undefined`, for 0 and for every negative number, and for every integer `n`
with `1 ≤ n ≤ 999` it returns `'Pengguna '` followed by the three decimal digits
of `n` (hundreds, tens, units), that is `n` left-padded with zeros. -/
theorem formatAnonLabel_reference :
    formatAnonLabel none = "Pengguna ---" ∧
    (∀ n : Int, n ≤ 0 → formatAnonLabel (some n) = "Pengguna ---") ∧
    (∀ n : Int, 1 ≤ n → n ≤ 999 → formatAnonLabel (some n) = threeDigitLabel n.toNat) := by
  refine ⟨rfl, ?_, ?_⟩
  · intro n hn
    unfold formatAnonLabel
    have h : n = 0 ∨ n < 1 := Or.inr (by omega)
    simp only [h, if_true]
  · intro n h1 h2
    have hk : n.toNat < 1000 := by omega
    have h := formatAnonLabel_digits ⟨n.toNat, hk⟩ (by show 1 ≤ n.toNat; omega)
    have hn : ((n.toNat : Nat) : Int) = n := Int.toNat_of_nonneg (by omega)
    simp only [hn] at h
    exact h

/-- C13 at concrete inputs: 42 is rendered `Pengguna 042`, -3 as the sentinel. -/
theorem formatAnonLabel_reference_witness :
    ((-3 : Int) ≤ 0 ∧ (1 : Int) ≤ 42 ∧ (42 : Int) ≤ 999) ∧
    (formatAnonLabel (some (-3)) = "Pengguna ---" ∧
     formatAnonLabel (some 42) = threeDigitLabel (42 : Int).toNat ∧
     threeDigitLabel (42 : Int).toNat = "Pengguna 042") :=
  ⟨⟨by decide, by decide, by decide⟩,
    formatAnonLabel_reference.2.1 (-3) (by decide),
    formatAnonLabel_reference.2.2 42 (by decide) (by decide), by decide⟩

/-! ## `ensureAnonNumber`: collisions and failed updates -/

/-- When no attempt in range finds a free candidate, the loop runs all its
iterations and finds nothing. -/
theorem drawLoop_none (db : Db) (fault : Nat → Option DbError) (random : Nat → Draw) :
    ∀ (remaining attempt : Nat),
      (∀ k, attempt ≤ k → k < attempt + remaining → ¬ freeAt db fault random k) →
      drawLoop db fault random remaining attempt = (none, remaining) := by
  intro remaining
  induction remaining with
  | zero => intro attempt _; rfl
  | succ n ih =>
    intro attempt h
    have hrec := ih (attempt + 1) (fun k hk1 hk2 => h k (by omega) (by omega))
    have h0 := h attempt (le_refl _) (by omega)
    unfold freeAt at h0
    unfold drawLoop
    cases hc : checkTaken db (fault (1 + attempt)) (candidateOf (random attempt)) with
    | error e => simp only [hc, hrec]
    | ok v =>
      cases v with
      | none => exact absurd hc h0
      | some w => simp only [hc, hrec]

/-- When attempt `k` is the first in range to find a free candidate, the loop
returns that candidate after `k - attempt + 1` checks. -/
theorem drawLoop_first_free (db : Db) (fault : Nat → Option DbError) (random : Nat → Draw) :
    ∀ (remaining attempt k : Nat), attempt ≤ k → k < attempt + remaining →
      freeAt db fault random k →
      (∀ j, attempt ≤ j → j < k → ¬ freeAt db fault random j) →
      drawLoop db fault random remaining attempt =
        (some (candidateOf (random k)), k - attempt + 1) := by
  intro remaining
  induction remaining with
  | zero => intro attempt k h1 h2; omega
  | succ n ih =>
    intro attempt k h1 h2 hfree hfirst
    by_cases hk : k = attempt
    · subst hk
      unfold freeAt at hfree
      unfold drawLoop
      simp [hfree]
    · have hrec := ih (attempt + 1) k (by omega) (by omega) hfree
        (fun j hj1 hj2 => hfirst j (by omega) hj2)
      have h0 := hfirst attempt (le_refl _) (by omega)
      unfold freeAt at h0
      unfold drawLoop
      cases hc : checkTaken db (fault (1 + attempt)) (candidateOf (random attempt)) with
      | error e =>
        simp only [hc, hrec]
        have harith : k - (attempt + 1) + 1 + 1 = k - attempt + 1 := by omega
        rw [harith]
      | ok v =>
        cases v with
        | none => exact absurd hc h0
        | some w =>
          simp only [hc, hrec]
          have harith : k - (attempt + 1) + 1 + 1 = k - attempt + 1 := by omega
          rw [harith]

theorem checkOps_count (random : Nat → Draw) (k : Nat) :
    ((checkOps random k).filter Op.isExistenceCheck).length = k := by
  unfold checkOps
  rw [List.filter_map]
  have h : (Op.isExistenceCheck ∘ fun i => Op.selectUserByAnon (candidateOf (random i))) =
      fun _ => true := by
    funext i
    rfl
  rw [h]
  simp

theorem checkOps_no_update (random : Nat → Draw) (k : Nat) :
    ∀ op ∈ checkOps random k, op.isUserUpdate = false := by
  intro op hop
  unfold checkOps at hop
  obtain ⟨i, _, rfl⟩ := List.mem_map.mp hop
  rfl

/-- The outcome of a call for a user without an alias when no attempt finds a
free candidate: `null`, no write, and a log made of the row read and the twenty
existence checks. -/
theorem ensureAnonNumber_exhausted (db : Db) (fault : Nat → Option DbError)
    (random : Nat → Draw) (userId : String) (user : UserRow)
    (hid : userId ≠ "") (hread : fetchUser db (fault 0) userId = .ok user)
    (hnone : truthy user.anon_number = false)
    (hnofree : ∀ k, k < 20 → ¬ freeAt db fault random k) :
    (ensureAnonNumber db fault random userId).result = none ∧
    (ensureAnonNumber db fault random userId).db = db ∧
    (ensureAnonNumber db fault random userId).log =
      Op.selectUserAnon userId :: checkOps random 20 := by
  have hloop := drawLoop_none db fault random MAX_RETRIES 0
    (fun k _ hk => hnofree k (by simpa [MAX_RETRIES] using hk))
  unfold ensureAnonNumber
  rw [if_neg hid, hread]
  dsimp only
  rw [if_neg (by simp [hnone]), hloop]
  simp [truthy, MAX_RETRIES]

/-- C14 as stated fails: when all twenty candidates collide the call issues the
first row read and the twenty checks and nothing after them (no re-read), and
returns `null`. -/
theorem ensureAnonNumber_exhausted_no_reread :
    (ensureAnonNumber dbTwoUsers noFault drawsZero "u1").result = none ∧
    (ensureAnonNumber dbTwoUsers noFault drawsZero "u1").log =
      Op.selectUserAnon "u1" :: List.replicate 20 (Op.selectUserByAnon 1) ∧
    ((ensureAnonNumber dbTwoUsers noFault drawsZero "u1").log.filter
      (fun op => op = Op.selectUserAnon "u1")).length = 1 := by
  decide

/-- C14 (amended): for a user without an alias, if every one of the twenty
drawn candidates already has an owner, `ensureAnonNumber` returns `null`
without re-reading the user's row and without an update: its calls are the
first row read followed by the twenty existence checks, and the store is
unchanged. -/
theorem ensureAnonNumber_all_collide (db : Db) (fault : Nat → Option DbError)
    (random : Nat → Draw) (userId : String) (user : UserRow)
    (hid : userId ≠ "") (hread : fetchUser db (fault 0) userId = .ok user)
    (hnone : truthy user.anon_number = false)
    (hcollide : ∀ k, k < 20 → ∃ owner,
      checkTaken db (fault (1 + k)) (candidateOf (random k)) = .ok (some owner)) :
    (ensureAnonNumber db fault random userId).result = none ∧
    (ensureAnonNumber db fault random userId).db = db ∧
    (ensureAnonNumber db fault random userId).log =
      Op.selectUserAnon userId :: checkOps random 20 := by
  apply ensureAnonNumber_exhausted db fault random userId user hid hread hnone
  intro k hk hfree
  obtain ⟨owner, ho⟩ := hcollide k hk
  unfold freeAt at hfree
  rw [ho] at hfree
  simp at hfree

theorem dbTwoUsers_collide : ∀ k, k < 20 → ∃ owner,
    checkTaken dbTwoUsers (noFault (1 + k)) (candidateOf (drawsZero k)) = .ok (some owner) := by
  intro k _
  refine ⟨⟨"u2", "Bob", some 1, "KODE", none⟩, ?_⟩
  have hc : candidateOf (drawsZero k) = 1 := by
    show candidateOf ⟨0, 0, _⟩ = 1
    decide
  rw [hc]
  rfl

/-- C14 (amended) at a concrete store: every candidate is 1, owned by `u2`. -/
theorem ensureAnonNumber_all_collide_witness :
    ("u1" ≠ "" ∧
      fetchUser dbTwoUsers (noFault 0) "u1" = .ok ⟨"u1", "Ann", none, "KODE", none⟩ ∧
      truthy (none : Option Int) = false ∧
      (∀ k, k < 20 → ∃ owner,
        checkTaken dbTwoUsers (noFault (1 + k)) (candidateOf (drawsZero k)) =
          .ok (some owner))) ∧
    ((ensureAnonNumber dbTwoUsers noFault drawsZero "u1").result = none ∧
     (ensureAnonNumber dbTwoUsers noFault drawsZero "u1").db = dbTwoUsers ∧
     (ensureAnonNumber dbTwoUsers noFault drawsZero "u1").log =
       Op.selectUserAnon "u1" :: checkOps drawsZero 20) :=
  ⟨⟨by decide, rfl, rfl, dbTwoUsers_collide⟩,
    ensureAnonNumber_all_collide dbTwoUsers noFault drawsZero "u1"
      ⟨"u1", "Ann", none, "KODE", none⟩ (by decide) rfl rfl
      dbTwoUsers_collide⟩

/-- A call that nothing else runs beside: when attempt `k` is the first to find
a free candidate and the update fails, the re-read is the last call of the log,
the result is what it finds, never the candidate, and the store is unchanged. -/
theorem ensureAnonNumber_update_fails_alone (db : Db) (fault : Nat → Option DbError)
    (random : Nat → Draw) (userId : String) (user : UserRow) (k : Nat) (e : DbError)
    (hid : userId ≠ "") (hread : fetchUser db (fault 0) userId = .ok user)
    (hnone : truthy user.anon_number = false)
    (hk : k < 20) (hfree : freeAt db fault random k)
    (hfirst : ∀ j, j < k → ¬ freeAt db fault random j)
    (hupdate : fault (2 + k) = some e) :
    (ensureAnonNumber db fault random userId).result =
      (match fetchUser db (fault (3 + k)) userId with
        | .ok row => orNull row.anon_number
        | .error _ => none) ∧
    (ensureAnonNumber db fault random userId).result ≠ some (candidateOf (random k)) ∧
    (ensureAnonNumber db fault random userId).db = db ∧
    (ensureAnonNumber db fault random userId).log =
      Op.selectUserAnon userId :: checkOps random (k + 1) ++
        [Op.updateUserAnon userId (candidateOf (random k)), Op.selectUserAnon userId] := by
  have hloop := drawLoop_first_free db fault random MAX_RETRIES 0 k (Nat.zero_le _)
    (by simpa [MAX_RETRIES] using hk) hfree (fun j _ hj => hfirst j hj)
  have hi1 : 1 + (k + 1) = 2 + k := by omega
  have hi2 : 2 + (k + 1) = 3 + k := by omega
  have hk0 : k - 0 + 1 = k + 1 := by omega
  rw [hk0] at hloop
  have hval : (match fetchUser db (fault (3 + k)) userId with
        | .ok row => orNull row.anon_number
        | .error _ => none) = none := by
    cases hr : fetchUser db (fault (3 + k)) userId with
    | error e2 => rfl
    | ok row =>
      have h1 := fetchUser_eq_ok hread
      have h2 := fetchUser_eq_ok hr
      rw [h1] at h2
      have : user = row := by simpa using h2
      subst this
      simp [orNull, hnone]
  unfold ensureAnonNumber
  rw [if_neg hid, hread]
  dsimp only
  rw [if_neg (by simp [hnone]), hloop]
  simp only [truthy_candidateOf, if_true, Option.getD_some, hi1, hi2, hupdate, updateAnon]
  rw [hval]
  simp

/-- C16: in a store where each number 1..999 is owned by some user and the
target user has no alias, with draws in `[0, 1)`, `ensureAnonNumber` returns
`null`, leaves the store unchanged, issues at most 20 existence checks and no
update, whichever store calls fail. -/
theorem ensureAnonNumber_pool_exhausted (db : Db) (fault : Nat → Option DbError)
    (random : Nat → Draw) (userId : String)
    (hdraw : ∀ i, (random i).inUnit)
    (hfull : ∀ n : Int, 1 ≤ n → n ≤ 999 → ∃ u ∈ db.users, u.anon_number = some n)
    (hnone : ∀ u ∈ db.users, u.user_id = userId → truthy u.anon_number = false) :
    (ensureAnonNumber db fault random userId).result = none ∧
    (ensureAnonNumber db fault random userId).db = db ∧
    ((ensureAnonNumber db fault random userId).log.filter Op.isExistenceCheck).length ≤ 20 ∧
    (∀ op ∈ (ensureAnonNumber db fault random userId).log, op.isUserUpdate = false) := by
  by_cases hid : userId = ""
  · simp [ensureAnonNumber, hid]
  · cases hread : fetchUser db (fault 0) userId with
    | error e => simp [ensureAnonNumber, hid, hread, Op.isExistenceCheck, Op.isUserUpdate]
    | ok user =>
      have hrow := fetchUser_eq_ok hread
      have hmem : user ∈ db.users.filter (fun u => u.user_id = userId) := by simp [hrow]
      rw [List.mem_filter] at hmem
      have hno := hnone user hmem.1 (by simpa using hmem.2)
      have hnofree : ∀ k, k < 20 → ¬ freeAt db fault random k := by
        intro k _ hfree
        obtain ⟨u, hu, hc⟩ := hfull (candidateOf (random k)) (candidateOf_pos _)
          (candidateOf_le _ (hdraw k))
        exact freeAt_not_mem hfree u hu hc
      obtain ⟨hr, hdb, hlog⟩ := ensureAnonNumber_exhausted db fault random userId user hid hread
        hno hnofree
      refine ⟨hr, hdb, ?_, ?_⟩
      · rw [hlog]
        simp [List.filter_cons, Op.isExistenceCheck, checkOps_count]
      · rw [hlog]
        intro op hop
        rcases List.mem_cons.mp hop with h | h
        · rw [h]; rfl
        · exact checkOps_no_update random 20 op h

theorem dbFull_owned : ∀ n : Int, 1 ≤ n → n ≤ 999 →
    ∃ u ∈ dbFull.users, u.anon_number = some n := by
  intro n h1 h2
  obtain ⟨k, hk⟩ : ∃ k : Nat, n = (k : Int) + 1 := ⟨n.toNat - 1, by omega⟩
  subst hk
  have hmem : poolUser k ∈ poolUsers :=
    List.mem_map.mpr ⟨k, List.mem_range.mpr (by omega), rfl⟩
  exact ⟨poolUser k, List.mem_cons_of_mem _ hmem, rfl⟩

theorem dbFull_target : ∀ u ∈ dbFull.users, u.user_id = "u0" →
    truthy u.anon_number = false := by
  intro u hu hid
  have hu' : u ∈ (⟨"u0", "Ann", none, "KODE", none⟩ : UserRow) :: poolUsers := hu
  rcases List.mem_cons.mp hu' with h | h
  · rw [h]; rfl
  · obtain ⟨i, _, rfl⟩ := List.mem_map.mp h
    have hd := congrArg String.data hid
    simp [poolUser] at hd

/-- C16 at a concrete store: 999 users own 1..999, `u0` has no alias. -/
theorem ensureAnonNumber_pool_exhausted_witness :
    ((∀ i, (drawsHalf i).inUnit) ∧
      (∀ n : Int, 1 ≤ n → n ≤ 999 → ∃ u ∈ dbFull.users, u.anon_number = some n) ∧
      (∀ u ∈ dbFull.users, u.user_id = "u0" → truthy u.anon_number = false)) ∧
    ((ensureAnonNumber dbFull noFault drawsHalf "u0").result = none ∧
     (ensureAnonNumber dbFull noFault drawsHalf "u0").db = dbFull ∧
     ((ensureAnonNumber dbFull noFault drawsHalf "u0").log.filter
        Op.isExistenceCheck).length ≤ 20 ∧
     (∀ op ∈ (ensureAnonNumber dbFull noFault drawsHalf "u0").log, op.isUserUpdate = false)) :=
  ⟨⟨fun _ => by simp [drawsHalf, Draw.inUnit], dbFull_owned, dbFull_target⟩,
    ensureAnonNumber_pool_exhausted dbFull noFault drawsHalf "u0"
      (fun _ => by simp [drawsHalf, Draw.inUnit]) dbFull_owned dbFull_target⟩

/-! ## `api/auth/login.js` -/

set_option maxRecDepth 100000 in
/-- C17 at failing inputs: after fifty collisions `assignAnonNumber` returns
`Date.now() % 10000`, here 1234 (not in 1..999) and 1 (owned by `u2`); and a
candidate whose existence check fails, here 500 carried by two users, is
returned although it is taken. -/
theorem assignAnonNumber_not_unique :
    assignAnonNumber dbTwoUsers noFault drawsZero 1234 = (1234, 50) ∧
    assignAnonNumber dbTwoUsers noFault drawsZero 20001 = (1, 50) ∧
    assignAnonNumber dbShared noFault drawsHalf 1234 = (500, 1) := by
  decide

/-- A call of `ensureAnonNumber` for a user one of whose rows carries a set
number issues no update and leaves the store unchanged. -/
theorem ensureAnonNumber_keeps_alias (db : Db) (fault : Nat → Option DbError)
    (random : Nat → Draw) (user : UserRow) (hmem : user ∈ db.users)
    (ht : truthy user.anon_number = true) :
    (ensureAnonNumber db fault random user.user_id).db = db ∧
    (∀ op ∈ (ensureAnonNumber db fault random user.user_id).log, op.isUserUpdate = false) := by
  by_cases hid : user.user_id = ""
  · simp [ensureAnonNumber, hid]
  · cases hread : fetchUser db (fault 0) user.user_id with
    | error e => simp [ensureAnonNumber, hid, hread, Op.isUserUpdate]
    | ok row =>
      have hrow := fetchUser_eq_ok hread
      have hin : user ∈ db.users.filter (fun u => u.user_id = user.user_id) := by
        simp [List.mem_filter, hmem]
      rw [hrow] at hin
      have hru : user = row := by simpa using hin
      subst hru
      obtain ⟨_, hlog, hdb⟩ := ensureAnonNumber_stored random hid hread ht
      refine ⟨hdb, ?_⟩
      rw [hlog]
      intro op hop
      have : op = Op.selectUserAnon user.user_id := by simpa using hop
      rw [this]
      rfl

/-- C18: for a user whose stored `anon_number` is an integer in 1..999, neither
`ensureAnonNumber` for that user nor the login handler on its existing-user
path (the lookup finds that user) issues an update of `anon_number`, and the
store, hence the stored alias, is the same after the operation as before. -/
theorem alias_immutable (db : Db) (user : UserRow) (n : Int)
    (faultE faultL : Nat → Option DbError) (randomE randomL : Nat → Draw)
    (env : LoginEnv) (req : LoginRequest)
    (hn : user.anon_number = some n) (h1 : 1 ≤ n) (h2 : n ≤ 999)
    (hmem : user ∈ db.users)
    (hfind : findUser db (faultL 0) (env.sanitizeInput req.displayName 50)
      (env.sanitizeInput req.inviteCode 50) = .ok (some user)) :
    ((ensureAnonNumber db faultE randomE user.user_id).db = db ∧
      (∀ op ∈ (ensureAnonNumber db faultE randomE user.user_id).log,
        op.isUserUpdate = false)) ∧
    ((loginHandler db faultL randomL env req).db = db ∧
      (∀ op ∈ (loginHandler db faultL randomL env req).log, op.isUserUpdate = false)) := by
  have ht : truthy user.anon_number = true := by
    rw [hn]
    simp only [truthy, bne_iff_ne, ne_eq]
    omega
  refine ⟨ensureAnonNumber_keeps_alias db faultE randomE user hmem ht, ?_⟩
  unfold loginHandler
  simp only [hfind, ht, Bool.not_true, Bool.false_eq_true, if_false]
  split_ifs <;> simp [Op.isUserUpdate]

/-- C18 at a concrete store: `u2` carries alias 1 and logs in again. -/
theorem alias_immutable_witness :
    ((⟨"u2", "Bob", some 1, "KODE", none⟩ : UserRow).anon_number = some 1 ∧
      (1 : Int) ≤ 1 ∧ (1 : Int) ≤ 999 ∧
      (⟨"u2", "Bob", some 1, "KODE", none⟩ : UserRow) ∈ dbTwoUsers.users ∧
      findUser dbTwoUsers (noFault 0)
        (loginEnv0.sanitizeInput (⟨"POST", some "KODE", some "Bob"⟩ : LoginRequest).displayName 50)
        (loginEnv0.sanitizeInput (⟨"POST", some "KODE", some "Bob"⟩ : LoginRequest).inviteCode 50)
        = .ok (some ⟨"u2", "Bob", some 1, "KODE", none⟩)) ∧
    (((ensureAnonNumber dbTwoUsers noFault drawsHalf "u2").db = dbTwoUsers ∧
      (∀ op ∈ (ensureAnonNumber dbTwoUsers noFault drawsHalf "u2").log,
        op.isUserUpdate = false)) ∧
     ((loginHandler dbTwoUsers noFault drawsHalf loginEnv0 ⟨"POST", some "KODE", some "Bob"⟩).db
        = dbTwoUsers ∧
      (∀ op ∈ (loginHandler dbTwoUsers noFault drawsHalf loginEnv0
          ⟨"POST", some "KODE", some "Bob"⟩).log, op.isUserUpdate = false))) :=
  ⟨⟨rfl, by decide, by decide, by decide, rfl⟩,
    alias_immutable dbTwoUsers ⟨"u2", "Bob", some 1, "KODE", none⟩ 1 noFault noFault drawsHalf
      drawsHalf loginEnv0 ⟨"POST", some "KODE", some "Bob"⟩ rfl (by decide) (by decide)
      (by decide) rfl⟩

/-! ## The close handler: unassigned groups and failed inserts -/

/-- C19 as stated fails: an authenticated companion closing an active group
session that has no assigned companion is answered 403 and the session stays
active. -/
theorem closeHandler_unassigned_group_rejected :
    (closeHandler (dbOneSession groupUnassigned) noFault env0 (postAs "c1" "s1")).result =
      ⟨403, .error "Not assigned to this session"⟩ ∧
    (closeHandler (dbOneSession groupUnassigned) noFault env0 (postAs "c1" "s1")).db =
      dbOneSession groupUnassigned := by
  decide

/-- C19 (amended): for every session with no assigned companion (`companion_id`
null), in particular an active group room, and every authenticated companion,
the close handler answers 403 'Not assigned to this session', issues only the
session read and leaves the store unchanged. -/
theorem closeHandler_no_companion (db : Db) (fault : Nat → Option DbError) (env : Env)
    (req : Request) (companion : DecodedToken) (sid : String) (session : SessionRow)
    (hm : req.method = "POST") (hc : getCompanionFromRequest req = some companion)
    (hs : presentId req.sessionId = some sid)
    (hf : fetchSession db (fault 0) sid = .ok session)
    (hnone : session.companion_id = none) :
    (closeHandler db fault env req).result = ⟨403, .error "Not assigned to this session"⟩ ∧
    (closeHandler db fault env req).log = [Op.selectSession sid] ∧
    (closeHandler db fault env req).db = db := by
  unfold closeHandler
  simp [hm, hc, hs, hf, hnone]

/-- C19 (amended) at a concrete store: companion `c1` and an unassigned group. -/
theorem closeHandler_no_companion_witness :
    ((postAs "c1" "s1").method = "POST" ∧
      getCompanionFromRequest (postAs "c1" "s1") = some ⟨true, "c1"⟩ ∧
      presentId (postAs "c1" "s1").sessionId = some "s1" ∧
      fetchSession (dbOneSession groupUnassigned) (noFault 0) "s1" = .ok groupUnassigned ∧
      groupUnassigned.companion_id = none) ∧
    ((closeHandler (dbOneSession groupUnassigned) noFault env0 (postAs "c1" "s1")).result =
        ⟨403, .error "Not assigned to this session"⟩ ∧
     (closeHandler (dbOneSession groupUnassigned) noFault env0 (postAs "c1" "s1")).log =
        [Op.selectSession "s1"] ∧
     (closeHandler (dbOneSession groupUnassigned) noFault env0 (postAs "c1" "s1")).db =
        dbOneSession groupUnassigned) :=
  ⟨⟨rfl, rfl, rfl, rfl, rfl⟩,
    closeHandler_no_companion (dbOneSession groupUnassigned) noFault env0 (postAs "c1" "s1")
      ⟨true, "c1"⟩ "s1" groupUnassigned rfl rfl rfl rfl rfl⟩

/-- C20: closing a group session that is not yet closed, as its assigned
companion, with the status update succeeding and the message insert failing:
the answer is still 200 success, the calls are the read, the one update and the
insert (no compensating update), the session's row has `status = 'closed'`, and
no message is added. -/
theorem closeHandler_insert_fails (db : Db) (fault : Nat → Option DbError) (env : Env)
    (req : Request) (companion : DecodedToken) (sid : String) (session : SessionRow)
    (e : DbError)
    (hm : req.method = "POST") (hc : getCompanionFromRequest req = some companion)
    (hs : presentId req.sessionId = some sid)
    (hf : fetchSession db (fault 0) sid = .ok session)
    (hassigned : session.companion_id = some companion.companionId)
    (hopen : session.status ≠ some "closed")
    (hgroup : session.room_type = some "group")
    (hupdate : fault 1 = none) (hinsert : fault 2 = some e) :
    (closeHandler db fault env req).result = ⟨200, .success "Session closed successfully"⟩ ∧
    (closeHandler db fault env req).log =
      [Op.selectSession sid, Op.updateSessionClosed sid env.now companion.companionId,
       Op.insertMessage env.uuid sid] ∧
    (closeHandler db fault env req).db.chat_sessions.filter (fun s => s.session_id = sid) =
      [{ session with status := some "closed", closed_at := some env.now,
                      closed_by := some companion.companionId }] ∧
    (closeHandler db fault env req).db.messages = db.messages := by
  have hrow := fetchSession_eq_ok hf
  unfold closeHandler
  simp only [hm, hc, hs, hf, hupdate, hinsert]
  simp only [hassigned, hopen, hgroup]
  refine ⟨by simp, by simp, ?_, by simp⟩
  simp [setClosed_filter_same, hrow, hassigned, hgroup]

/-- C20 at a concrete store: the insert of the system message fails. -/
theorem closeHandler_insert_fails_witness :
    ((postAs "c1" "s1").method = "POST" ∧
      getCompanionFromRequest (postAs "c1" "s1") = some ⟨true, "c1"⟩ ∧
      presentId (postAs "c1" "s1").sessionId = some "s1" ∧
      fetchSession (dbOneSession groupActive) (insertFault 0) "s1" = .ok groupActive ∧
      groupActive.companion_id = some "c1" ∧ groupActive.status ≠ some "closed" ∧
      groupActive.room_type = some "group" ∧ insertFault 1 = none ∧
      insertFault 2 = some ⟨"23503"⟩) ∧
    ((closeHandler (dbOneSession groupActive) insertFault env0 (postAs "c1" "s1")).result =
        ⟨200, .success "Session closed successfully"⟩ ∧
     (closeHandler (dbOneSession groupActive) insertFault env0 (postAs "c1" "s1")).log =
        [Op.selectSession "s1", Op.updateSessionClosed "s1" env0.now "c1",
         Op.insertMessage env0.uuid "s1"] ∧
     (closeHandler (dbOneSession groupActive) insertFault env0
        (postAs "c1" "s1")).db.chat_sessions.filter (fun s => s.session_id = "s1") =
        [{ groupActive with status := some "closed", closed_at := some env0.now,
                            closed_by := some "c1" }] ∧
     (closeHandler (dbOneSession groupActive) insertFault env0 (postAs "c1" "s1")).db.messages =
        (dbOneSession groupActive).messages) :=
  ⟨⟨rfl, rfl, rfl, rfl, rfl, by decide, rfl, rfl, rfl⟩,
    closeHandler_insert_fails (dbOneSession groupActive) insertFault env0 (postAs "c1" "s1")
      ⟨true, "c1"⟩ "s1" groupActive ⟨"23503"⟩ rfl rfl rfl rfl rfl (by decide) rfl rfl rfl⟩

/-! ## Unknown-column errors -/

/-- C21 as stated fails: when the session read of the close handler reports the
unknown-column error the response is 400, and when both session queries of the
list handler report it the response is 500. -/
theorem unknown_column_surfaced :
    (closeHandler (dbOneSession groupActive) closeFaultNoColumn env0
      (postAs "c1" "s1")).result =
      ⟨400, .error "Database migration required. Please run supabase-room-close-migration.sql"⟩
    ∧ (sessionsHandler dbChat (fun _ => some ⟨"42703"⟩) noStatFault (getAs "c1")).result =
      ⟨500, .error "Internal server error"⟩ := by
  decide

/-- C21 (amended): the unknown-column error is absorbed where the handler has a
fallback: the mark-read handler answers 200 when its update reports it, and the
list handler answers 200 whenever one of its session queries is answered,
whatever the calls made per session report; the close handler surfaces it as
400 when its session read reports it. -/
theorem unknown_column_handling (db : Db) (fault : Nat → Option DbError) (env : Env)
    (req : Request) (companion : DecodedToken) (sid : String) (e : DbError)
    (hc : getCompanionFromRequest req = some companion)
    (hcode : e.code = "42703") :
    (req.method = "POST" → presentId req.sessionId = some sid →
      (∃ session, fetchSession db (fault 0) sid = .ok session ∧
        session.companion_id = some companion.companionId) →
      fault 1 = some e → (readHandler db fault env req).result.status = 200) ∧
    (req.method = "GET" → fault 0 = some e → fault 1 = none →
      ∀ statFault, (sessionsHandler db fault statFault req).result.status = 200) ∧
    (req.method = "POST" → presentId req.sessionId = some sid → fault 0 = some e →
      (closeHandler db fault env req).result.status = 400) := by
  refine ⟨?_, ?_, ?_⟩
  · rintro hm hs ⟨session, hf, hassigned⟩ h1
    unfold readHandler
    simp [hm, hc, hs, hf, hassigned, h1, hcode]
  · intro hm h0 h1 statFault
    have hans : answeredBy fault = some false := by simp [answeredBy, h0, h1, hcode]
    obtain ⟨log, hres⟩ := sessionsHandler_answered db fault statFault req companion false hm hc
      hans
    rw [hres]
    rfl
  · intro hm hs h0
    unfold closeHandler
    simp [hm, hc, hs, fetchSession, h0, hcode]

/-- C21 (amended) at concrete stores where the optional columns are missing. -/
theorem unknown_column_handling_witness :
    (getCompanionFromRequest (postAs "c1" "s1") = some ⟨true, "c1"⟩ ∧
      getCompanionFromRequest (getAs "c1") = some ⟨true, "c1"⟩ ∧
      (⟨"42703"⟩ : DbError).code = "42703") ∧
    ((readHandler dbChat readFaultNoColumn env0 (postAs "c1" "s1")).result.status = 200 ∧
     (∀ statFault,
        (sessionsHandler dbChat listFaultNoColumn statFault (getAs "c1")).result.status = 200) ∧
     (closeHandler (dbOneSession groupActive) closeFaultNoColumn env0
        (postAs "c1" "s1")).result.status = 400) :=
  ⟨⟨rfl, rfl, rfl⟩,
    (unknown_column_handling dbChat readFaultNoColumn env0 (postAs "c1" "s1") ⟨true, "c1"⟩ "s1"
      ⟨"42703"⟩ rfl rfl).1 rfl rfl ⟨privateActive, rfl, rfl⟩ rfl,
    (unknown_column_handling dbChat listFaultNoColumn env0 (getAs "c1") ⟨true, "c1"⟩ "s1"
      ⟨"42703"⟩ rfl rfl).2.1 rfl rfl rfl,
    (unknown_column_handling (dbOneSession groupActive) closeFaultNoColumn env0
      (postAs "c1" "s1") ⟨true, "c1"⟩ "s1" ⟨"42703"⟩ rfl rfl).2.2 rfl rfl rfl⟩

/-- C23: for a session whose assigned companion is the actor, when the update of
the last-read time fails with the unknown-column error the mark-read handler
answers 200 with `success: true` and leaves the store unchanged; when it fails
with any other error the handler answers 500. -/
theorem readHandler_update_fails (db : Db) (fault : Nat → Option DbError) (env : Env)
    (req : Request) (companion : DecodedToken) (sid : String) (session : SessionRow)
    (e : DbError)
    (hm : req.method = "POST") (hc : getCompanionFromRequest req = some companion)
    (hs : presentId req.sessionId = some sid)
    (hf : fetchSession db (fault 0) sid = .ok session)
    (hassigned : session.companion_id = some companion.companionId)
    (hupdate : fault 1 = some e) :
    (e.code = "42703" →
      (readHandler db fault env req).result =
        ⟨200, .success "Session marked as read (migration pending)"⟩ ∧
      (readHandler db fault env req).db = db) ∧
    (e.code ≠ "42703" →
      (readHandler db fault env req).result = ⟨500, .error "Failed to mark as read"⟩ ∧
      (readHandler db fault env req).db = db) := by
  unfold readHandler
  simp only [hm, hc, hs, hf, hassigned, hupdate]
  constructor
  · intro hcode
    simp [hcode]
  · intro hcode
    simp [hcode]

/-- C23 at a concrete store: the last-read column does not exist. -/
theorem readHandler_update_fails_witness :
    ((postAs "c1" "s1").method = "POST" ∧
      getCompanionFromRequest (postAs "c1" "s1") = some ⟨true, "c1"⟩ ∧
      presentId (postAs "c1" "s1").sessionId = some "s1" ∧
      fetchSession dbChat (readFaultNoColumn 0) "s1" = .ok privateActive ∧
      privateActive.companion_id = some "c1" ∧ readFaultNoColumn 1 = some ⟨"42703"⟩) ∧
    (((⟨"42703"⟩ : DbError).code = "42703" →
      (readHandler dbChat readFaultNoColumn env0 (postAs "c1" "s1")).result =
        ⟨200, .success "Session marked as read (migration pending)"⟩ ∧
      (readHandler dbChat readFaultNoColumn env0 (postAs "c1" "s1")).db = dbChat) ∧
     ((⟨"42703"⟩ : DbError).code ≠ "42703" →
      (readHandler dbChat readFaultNoColumn env0 (postAs "c1" "s1")).result =
        ⟨500, .error "Failed to mark as read"⟩ ∧
      (readHandler dbChat readFaultNoColumn env0 (postAs "c1" "s1")).db = dbChat)) :=
  ⟨⟨rfl, rfl, rfl, rfl, rfl, rfl⟩,
    readHandler_update_fails dbChat readFaultNoColumn env0 (postAs "c1" "s1") ⟨true, "c1"⟩ "s1"
      privateActive ⟨"42703"⟩ rfl rfl rfl rfl rfl rfl⟩

/-! ## Degradation and anonymization of the session list -/

theorem unreadCount_no_query (db : Db) (fault : Nat → Option DbError) (t : Bool)
    (s : SessionRow) : ∀ op ∈ (unreadCount db fault t s).2, op.isSessionQuery = false := by
  have hfall : ∀ op ∈ (match latestRow (fault 2)
        ((messagesOf db s.session_id).filter (fun m : MessageRow => m.is_companion = true)) with
      | some lastCompanionMsg =>
        (countOr0 (fault 3) (((messagesOf db s.session_id).filter
            (fun m : MessageRow => m.is_companion = false)).filter
            (fun m : MessageRow => lastCompanionMsg.created_at < m.created_at)),
          [Op.selectLastCompanionMessage s.session_id,
           Op.countUserMessagesAfter s.session_id lastCompanionMsg.created_at])
      | none =>
        (countOr0 (fault 3) ((messagesOf db s.session_id).filter
            (fun m : MessageRow => m.is_companion = false)),
          [Op.selectLastCompanionMessage s.session_id,
           Op.countUserMessages s.session_id])).2, op.isSessionQuery = false := by
    intro op hop
    cases hl : latestRow (fault 2)
        ((messagesOf db s.session_id).filter (fun m : MessageRow => m.is_companion = true)) with
    | none =>
      rw [hl] at hop
      simp only [List.mem_cons, List.mem_singleton, List.not_mem_nil, or_false] at hop
      rcases hop with h | h <;> rw [h] <;> rfl
    | some m =>
      rw [hl] at hop
      simp only [List.mem_cons, List.mem_singleton, List.not_mem_nil, or_false] at hop
      rcases hop with h | h <;> rw [h] <;> rfl
  unfold unreadCount
  cases t with
  | false => exact hfall
  | true =>
    cases hT : s.companion_last_read_at with
    | none => exact hfall
    | some T =>
      intro op hop
      simp only [List.mem_singleton] at hop
      rw [hop]
      rfl

/-- The session queries in the log of the list handler's second part are those
of the log it was given. -/
theorem respondSessions_queries (db : Db) (statFault : String → Nat → Option DbError)
    (t r : Bool) (rows : List ListedSession) (log : List Op) :
    (respondSessions db statFault t r rows log).log.filter Op.isSessionQuery =
      log.filter Op.isSessionQuery := by
  unfold respondSessions
  simp only [List.filter_append]
  have hnil : ∀ l : List ListedSession,
      ((l.map (fun x => sessionStats db (statFault x.session.session_id) t r x)).map
        (fun p => p.2)).flatten.filter Op.isSessionQuery = [] := by
    intro l
    rw [List.filter_eq_nil_iff]
    intro op hop
    obtain ⟨ops, hops, hmem⟩ := List.mem_flatten.mp hop
    simp only [List.map_map, List.mem_map, Function.comp] at hops
    obtain ⟨x, _, rfl⟩ := hops
    simp only [sessionStats, List.mem_append, List.mem_cons, List.mem_singleton,
      List.not_mem_nil, or_false] at hmem
    rcases hmem with (h | h) | h
    · rw [h]; simp [Op.isSessionQuery]
    · rw [h]; simp [Op.isSessionQuery]
    · simp [unreadCount_no_query db _ t x.session op h]
  rw [hnil]
  simp

/-- C22: when the first session query fails with the unknown-column error the
list handler issues the retry without the optional columns, once.  If the retry
is answered the response is 200, every session of the companion is listed, and
every entry has `roomType` 'private', `status` 'active' and, when the store
answers the calls made for it, the unread count of the fallback rule (the
reference definition without read tracking).  If the retry fails, or the first
error is any other error, the response is 500. -/
theorem sessionsHandler_degrades (db : Db) (fault : Nat → Option DbError)
    (statFault : String → Nat → Option DbError) (req : Request) (companion : DecodedToken)
    (e : DbError) (hm : req.method = "GET")
    (hc : getCompanionFromRequest req = some companion) (h0 : fault 0 = some e) :
    (e.code = "42703" → fault 1 = none →
      (sessionsHandler db fault statFault req).result.status = 200 ∧
      (sessionsHandler db fault statFault req).log.filter Op.isSessionQuery =
        [Op.selectSessions companion.companionId true,
         Op.selectSessions companion.companionId false] ∧
      (∀ s ∈ db.chat_sessions, s.companion_id = some companion.companionId →
        ∃ x ∈ (sessionsHandler db fault statFault req).result.sessions,
          x.sessionId = s.session_id) ∧
      (∀ x ∈ (sessionsHandler db fault statFault req).result.sessions,
        x.roomType = "private" ∧ x.status = "active" ∧
        ∃ s ∈ db.chat_sessions, s.companion_id = some companion.companionId ∧
          s.session_id = x.sessionId ∧
          (statFault s.session_id 2 = none → statFault s.session_id 3 = none →
            x.unreadCount = unreadReference db false s))) ∧
    (e.code = "42703" → fault 1 ≠ none →
      (sessionsHandler db fault statFault req).result = ⟨500, .error "Internal server error"⟩ ∧
      (sessionsHandler db fault statFault req).log =
        [Op.selectSessions companion.companionId true,
         Op.selectSessions companion.companionId false]) ∧
    (e.code ≠ "42703" →
      (sessionsHandler db fault statFault req).result = ⟨500, .error "Internal server error"⟩ ∧
      (sessionsHandler db fault statFault req).log =
        [Op.selectSessions companion.companionId true]) := by
  have hne : ¬ ("GET" = "OPTIONS") := by decide
  refine ⟨?_, ?_, ?_⟩
  · intro hcode h1
    have hrun : sessionsHandler db fault statFault req =
        respondSessions db statFault false false
          ((newestFirst SessionRow.created_at (db.chat_sessions.filter
            (fun s => s.companion_id = some companion.companionId))).map
            (fun s => ⟨selectColumns false s, embeddedUser db s⟩))
          [Op.selectSessions companion.companionId true,
           Op.selectSessions companion.companionId false] := by
      unfold sessionsHandler
      simp [hm, hc, listSessions, h0, h1, hcode]
    rw [hrun]
    refine ⟨rfl, ?_, ?_, ?_⟩
    · rw [respondSessions_queries]
      rfl
    · intro s hs hcid
      refine ⟨_, (mem_respondSessions db statFault false companion.companionId _ _).mpr
        ⟨s, hs, hcid, by simp, rfl⟩, ?_⟩
      simp [sessionStats, selectColumns_session_id]
    · intro x hx
      obtain ⟨s, hs, hcid, _, rfl⟩ :=
        (mem_respondSessions db statFault false companion.companionId _ x).mp hx
      refine ⟨by simp [sessionStats], by simp [sessionStats], s, hs, hcid, ?_, ?_⟩
      · simp [sessionStats, selectColumns_session_id]
      · intro h2 h3
        have h := unreadCount_eq_reference db (statFault s.session_id) false s h2 h3
        simpa [sessionStats, selectColumns_session_id] using h
  · intro hcode h1
    obtain ⟨e1, he1⟩ := Option.ne_none_iff_exists'.mp h1
    unfold sessionsHandler
    simp [hm, hc, listSessions, h0, he1, hcode]
  · intro hcode
    unfold sessionsHandler
    simp [hm, hc, listSessions, h0, hcode]

/-- C22 at a concrete store: the optional columns are missing. -/
theorem sessionsHandler_degrades_witness :
    ((getAs "c1").method = "GET" ∧ getCompanionFromRequest (getAs "c1") = some ⟨true, "c1"⟩ ∧
      listFaultNoColumn 0 = some ⟨"42703"⟩ ∧ (⟨"42703"⟩ : DbError).code = "42703" ∧
      listFaultNoColumn 1 = none) ∧
    ((sessionsHandler dbChat listFaultNoColumn noStatFault (getAs "c1")).result.status = 200 ∧
      (sessionsHandler dbChat listFaultNoColumn noStatFault (getAs "c1")).log.filter
        Op.isSessionQuery = [Op.selectSessions "c1" true, Op.selectSessions "c1" false] ∧
      (∀ s ∈ dbChat.chat_sessions, s.companion_id = some "c1" →
        ∃ x ∈ (sessionsHandler dbChat listFaultNoColumn noStatFault (getAs "c1")).result.sessions,
          x.sessionId = s.session_id) ∧
      (∀ x ∈ (sessionsHandler dbChat listFaultNoColumn noStatFault (getAs "c1")).result.sessions,
        x.roomType = "private" ∧ x.status = "active" ∧
        ∃ s ∈ dbChat.chat_sessions, s.companion_id = some "c1" ∧
          s.session_id = x.sessionId ∧
          (noStatFault s.session_id 2 = none → noStatFault s.session_id 3 = none →
            x.unreadCount = unreadReference dbChat false s))) :=
  ⟨⟨rfl, rfl, rfl, rfl, rfl⟩,
    (sessionsHandler_degrades dbChat listFaultNoColumn noStatFault (getAs "c1") ⟨true, "c1"⟩
      ⟨"42703"⟩ rfl rfl rfl).1 rfl rfl⟩

theorem find_sameButName (l₁ l₂ : List UserRow) (uid : String)
    (h : List.Forall₂ sameButName l₁ l₂) :
    (l₁.find? (fun u => u.user_id = uid)).bind (fun u => u.anon_number) =
      (l₂.find? (fun u => u.user_id = uid)).bind (fun u => u.anon_number) ∧
    (l₁.find? (fun u => u.user_id = uid)).map (fun u => u.user_id) =
      (l₂.find? (fun u => u.user_id = uid)).map (fun u => u.user_id) := by
  induction h with
  | nil => exact ⟨rfl, rfl⟩
  | @cons x y xs ys hab _ ih =>
    unfold sameButName at hab
    have hid : y.user_id = x.user_id := by rw [hab]
    have han : y.anon_number = x.anon_number := by rw [hab]
    by_cases hu : x.user_id = uid
    · simp [List.find?_cons, hu, hid, han]
    · simp [List.find?_cons, hu, hid, ih]

theorem embeddedUser_sameButName (a b : Db) (s : SessionRow)
    (h : List.Forall₂ sameButName a.users b.users) :
    (embeddedUser a s).bind (fun u => u.anon_number) =
      (embeddedUser b s).bind (fun u => u.anon_number) ∧
    (embeddedUser a s).map (fun u => u.user_id) =
      (embeddedUser b s).map (fun u => u.user_id) := by
  unfold embeddedUser
  cases s.created_by with
  | none => exact ⟨rfl, rfl⟩
  | some uid => exact find_sameButName a.users b.users uid h

theorem sessionStats_sameButName (a b : Db) (fault : Nat → Option DbError) (t r : Bool)
    (s : SessionRow) (h : SameButNames a b) :
    sessionStats a fault t r ⟨selectColumns t s, embeddedUser a s⟩ =
      sessionStats b fault t r ⟨selectColumns t s, embeddedUser b s⟩ := by
  obtain ⟨hu, _, hmsg⟩ := h
  have hm : ∀ sid, messagesOf a sid = messagesOf b sid := by
    intro sid
    unfold messagesOf
    rw [hmsg]
  have hun : ∀ x, unreadCount a fault t x = unreadCount b fault t x := by
    intro x
    unfold unreadCount
    simp only [hm]
  obtain ⟨h1, h2⟩ := embeddedUser_sameButName a b s hu
  unfold sessionStats
  simp only [hm, hun, h1, h2]

/-- C24: for two stores that differ at most in the `display_name` of users, the
same request and the same store faults, the session list handler gives the same
response and issues the same calls: nothing in the response depends on a
user's `display_name`. -/
theorem sessionsHandler_ignores_names (a b : Db) (fault : Nat → Option DbError)
    (statFault : String → Nat → Option DbError) (req : Request) (h : SameButNames a b) :
    (sessionsHandler a fault statFault req).result =
      (sessionsHandler b fault statFault req).result ∧
    (sessionsHandler a fault statFault req).log =
      (sessionsHandler b fault statFault req).log := by
  have hsess : a.chat_sessions = b.chat_sessions := h.2.1
  have hresp : ∀ (t : Bool) (cid : String) (log : List Op),
      (respondSessions a statFault t t
        ((newestFirst SessionRow.created_at
          (a.chat_sessions.filter (fun s => s.companion_id = some cid))).map
          (fun s => ⟨selectColumns t s, embeddedUser a s⟩)) log).result =
      (respondSessions b statFault t t
        ((newestFirst SessionRow.created_at
          (b.chat_sessions.filter (fun s => s.companion_id = some cid))).map
          (fun s => ⟨selectColumns t s, embeddedUser b s⟩)) log).result ∧
      (respondSessions a statFault t t
        ((newestFirst SessionRow.created_at
          (a.chat_sessions.filter (fun s => s.companion_id = some cid))).map
          (fun s => ⟨selectColumns t s, embeddedUser a s⟩)) log).log =
      (respondSessions b statFault t t
        ((newestFirst SessionRow.created_at
          (b.chat_sessions.filter (fun s => s.companion_id = some cid))).map
          (fun s => ⟨selectColumns t s, embeddedUser b s⟩)) log).log := by
    intro t cid log
    rw [← hsess]
    have hstats : ∀ L : List SessionRow,
        ((if t = true then
            (L.map (fun s => (⟨selectColumns t s, embeddedUser a s⟩ : ListedSession))).filter
              (fun x => x.session.status ≠ some "closed")
          else L.map (fun s => (⟨selectColumns t s, embeddedUser a s⟩ : ListedSession))).map
          (fun x => sessionStats a (statFault x.session.session_id) t t x)) =
        ((if t = true then
            (L.map (fun s => (⟨selectColumns t s, embeddedUser b s⟩ : ListedSession))).filter
              (fun x => x.session.status ≠ some "closed")
          else L.map (fun s => (⟨selectColumns t s, embeddedUser b s⟩ : ListedSession))).map
          (fun x => sessionStats b (statFault x.session.session_id) t t x)) := by
      intro L
      induction L with
      | nil => cases t <;> rfl
      | cons s L ih =>
        have hs := sessionStats_sameButName a b (statFault (selectColumns t s).session_id) t t
          s h
        cases t with
        | false =>
          simp only [Bool.false_eq_true, if_false, List.map_cons] at ih ⊢
          rw [hs, ih]
        | true =>
          simp only [if_true, List.map_cons, List.filter_cons] at ih ⊢
          by_cases hcl : (selectColumns true s).status = some "closed"
          · simp only [hcl, ne_eq, not_true_eq_false, decide_False, Bool.false_eq_true,
              if_false]
            exact ih
          · simp only [hcl, ne_eq, not_false_eq_true, decide_True, if_true, List.map_cons]
            rw [hs, ih]
    unfold respondSessions
    simp only [hstats]
    exact ⟨trivial, trivial⟩
  unfold sessionsHandler
  by_cases hopt : req.method = "OPTIONS"
  · simp [hopt]
  · simp only [hopt, if_false]
    cases hc : getCompanionFromRequest req with
    | none => exact ⟨rfl, rfl⟩
    | some companion =>
      by_cases hget : req.method = "GET"
      · simp only [hget, if_true]
        cases h0 : fault 0 with
        | none =>
          simp only [listSessions]
          exact hresp true companion.companionId _
        | some e =>
          simp only [listSessions]
          by_cases hcode : e.code = "42703"
          · simp only [hcode, if_true]
            cases h1 : fault 1 with
            | none => exact hresp false companion.companionId _
            | some e1 => exact ⟨rfl, rfl⟩
          · simp only [hcode, if_false]
            exact ⟨trivial, trivial⟩
      · simp only [hget, if_false]
        exact ⟨trivial, trivial⟩

/-- C24 at concrete stores: the user of `dbChat` renamed from Ann to Putri. -/
theorem sessionsHandler_ignores_names_witness :
    SameButNames dbChat dbChatRenamed ∧
    ((sessionsHandler dbChat noFault noStatFault (getAs "c1")).result =
      (sessionsHandler dbChatRenamed noFault noStatFault (getAs "c1")).result ∧
     (sessionsHandler dbChat noFault noStatFault (getAs "c1")).log =
      (sessionsHandler dbChatRenamed noFault noStatFault (getAs "c1")).log) :=
  ⟨⟨List.Forall₂.cons rfl List.Forall₂.nil, rfl, rfl⟩,
    sessionsHandler_ignores_names dbChat dbChatRenamed noFault noStatFault (getAs "c1")
      ⟨List.Forall₂.cons rfl List.Forall₂.nil, rfl, rfl⟩⟩

/-! ## The client: initial load -/

theorem stopPolling_session (c : Client) :
    (stopPolling c).state.currentSessionId = c.state.currentSessionId := by
  unfold stopPolling
  cases c.state.pollingInterval <;> rfl

theorem loadMessages_session (c : Client) (response : Except String MessageList) :
    (loadMessages c response).state.currentSessionId = c.state.currentSessionId := by
  unfold loadMessages handleClosedRoom
  cases presentId c.state.currentSessionId with
  | none => rfl
  | some sid =>
    cases response with
    | error msg =>
      by_cases hm : mentionsClosed msg = true
      · simp [hm, stopPolling_session]
      · simp [hm]
    | ok data =>
      by_cases hcl : data.sessionStatus = some "closed"
      · simp only [hcl, if_true, stopPolling_session]
        cases c.state.lastMessageTime with
        | none => rfl
        | some T =>
          by_cases hlen : data.messages.length > 0
          · simp only [hlen, if_true]
            cases (newMessages c.state.messages data.messages).getLast? <;> rfl
          · simp [hlen]
      · simp only [hcl, if_false]
        cases c.state.lastMessageTime with
        | none => rfl
        | some T =>
          by_cases hlen : data.messages.length > 0
          · simp only [hlen, if_true]
            cases (newMessages c.state.messages data.messages).getLast? <;> rfl
          · simp [hlen]

/-- C25: an initial load (a session is selected and there is no cursor) replaces
`state.messages` by the messages of the response and sets the cursor to the
`createdAt` of the last of them, or to the response's `serverTime` when there
is none; so after an initial load of an empty session whose response carries a
server time `T` the cursor is `T` and the next request carries `after = T`. -/
theorem loadMessages_initial (c : Client) (R : MessageList) (sid : String)
    (hs : presentId c.state.currentSessionId = some sid)
    (hT : c.state.lastMessageTime = none) :
    (loadMessages c (.ok R)).state.messages = R.messages ∧
    (loadMessages c (.ok R)).state.lastMessageTime =
      (match R.messages.getLast? with
        | some last => some last.createdAt
        | none => R.serverTime) ∧
    (∀ T, R.messages = [] → R.serverTime = some T →
      (loadMessages c (.ok R)).state.lastMessageTime = some T ∧
      messagesRequest (loadMessages c (.ok R)) = some (sid, some T)) := by
  have hmsg : (loadMessages c (.ok R)).state.messages = R.messages ∧
      (loadMessages c (.ok R)).state.lastMessageTime =
        (match R.messages.getLast? with
          | some last => some last.createdAt
          | none => R.serverTime) := by
    unfold loadMessages
    simp only [hs, hT]
    by_cases h : R.sessionStatus = some "closed"
    · simp only [h, if_true]
      exact ⟨(handleClosedRoom_state _).1, (handleClosedRoom_state _).2.1⟩
    · simp [h]
  refine ⟨hmsg.1, hmsg.2, ?_⟩
  intro T hnil hserver
  have hcur : (loadMessages c (.ok R)).state.lastMessageTime = some T := by
    rw [hmsg.2, hnil]
    simpa using hserver
  refine ⟨hcur, ?_⟩
  unfold messagesRequest
  rw [loadMessages_session, hs, hcur]

/-- C25 at a concrete page: an empty session whose response carries server
time 100. -/
theorem loadMessages_initial_witness :
    (presentId (selectStart clientIdle "s1").state.currentSessionId = some "s1" ∧
      (selectStart clientIdle "s1").state.lastMessageTime = none) ∧
    ((loadMessages (selectStart clientIdle "s1") (.ok ⟨[], some "active", some 100⟩)).state.messages
        = [] ∧
     (loadMessages (selectStart clientIdle "s1")
        (.ok ⟨[], some "active", some 100⟩)).state.lastMessageTime =
      (match ([] : List ClientMessage).getLast? with
        | some last => some last.createdAt
        | none => some 100) ∧
     (∀ T, ([] : List ClientMessage) = [] → (some 100 : Option Timestamp) = some T →
      (loadMessages (selectStart clientIdle "s1")
        (.ok ⟨[], some "active", some 100⟩)).state.lastMessageTime = some T ∧
      messagesRequest (loadMessages (selectStart clientIdle "s1")
        (.ok ⟨[], some "active", some 100⟩)) = some ("s1", some T))) :=
  ⟨⟨rfl, rfl⟩,
    loadMessages_initial (selectStart clientIdle "s1") ⟨[], some "active", some 100⟩ "s1" rfl rfl⟩

/-! ## The client: the polling timer -/

theorem stopPolling_clears (c : Client) (h : TimerInv c) :
    (stopPolling c).timers = [] ∧ (stopPolling c).state.pollingInterval = none := by
  unfold TimerInv at h
  unfold stopPolling
  cases hp : c.state.pollingInterval with
  | none =>
    rw [hp] at h
    exact ⟨h, hp⟩
  | some t =>
    rw [hp] at h
    simp [h]

theorem TimerInv_stopPolling (c : Client) (h : TimerInv c) : TimerInv (stopPolling c) := by
  obtain ⟨h1, h2⟩ := stopPolling_clears c h
  unfold TimerInv
  rw [h1, h2]
  rfl

theorem startPolling_creates (c : Client) (sid : String) (h : TimerInv c)
    (hs : presentId c.state.currentSessionId = some sid) :
    (startPolling c).timers = [c.nextHandle] ∧
    (startPolling c).state.pollingInterval = some c.nextHandle := by
  obtain ⟨h1, _⟩ := stopPolling_clears c h
  have hn : (stopPolling c).nextHandle = c.nextHandle := by
    unfold stopPolling
    cases c.state.pollingInterval <;> rfl
  unfold startPolling
  simp only [hs]
  simp [h1, hn]

theorem TimerInv_startPolling (c : Client) (h : TimerInv c) : TimerInv (startPolling c) := by
  cases hs : presentId c.state.currentSessionId with
  | none =>
    unfold startPolling
    simp only [hs]
    exact h
  | some sid =>
    obtain ⟨h1, h2⟩ := startPolling_creates c sid h hs
    unfold TimerInv
    rw [h1, h2]
    rfl

theorem TimerInv_handleClosedRoom (c : Client) (h : TimerInv c) :
    TimerInv (handleClosedRoom c) := by
  unfold handleClosedRoom
  exact TimerInv_stopPolling _ h

theorem TimerInv_loadMessages (c : Client) (response : Except String MessageList)
    (h : TimerInv c) : TimerInv (loadMessages c response) := by
  unfold loadMessages
  cases presentId c.state.currentSessionId with
  | none => exact h
  | some sid =>
    cases response with
    | error msg =>
      by_cases hm : mentionsClosed msg = true
      · simp only [hm, if_true]
        exact TimerInv_handleClosedRoom c h
      · simp only [hm, Bool.false_eq_true, if_false]
        exact h
    | ok data =>
      have key : ∀ c₁ : Client, TimerInv c₁ →
          TimerInv (if data.sessionStatus = some "closed" then handleClosedRoom c₁ else c₁) := by
        intro c₁ h₁
        by_cases hcl : data.sessionStatus = some "closed"
        · simp only [hcl, if_true]
          exact TimerInv_handleClosedRoom c₁ h₁
        · simp only [hcl, if_false]
          exact h₁
      apply key
      cases c.state.lastMessageTime with
      | none => exact h
      | some T =>
        by_cases hlen : data.messages.length > 0
        · simp only [hlen, if_true]
          cases (newMessages c.state.messages data.messages).getLast? with
          | none => exact h
          | some last => exact h
        · simp only [hlen, if_false]
          exact h

theorem TimerInv_sendFinish (c : Client) (text : String) (now : Timestamp)
    (post : Except String SendResponse) (load : Except String MessageList) (h : TimerInv c) :
    TimerInv (sendFinish c text now post load).1 := by
  unfold sendFinish
  cases post with
  | error msg => exact h
  | ok data =>
    dsimp only
    cases data.message with
    | none => exact TimerInv_loadMessages c load h
    | some message =>
      dsimp only
      cases c.state.user with
      | none => exact h
      | some user =>
        dsimp only
        split_ifs
        · exact h
        · exact h

theorem TimerInv_onVisibilityChange (c : Client) (hidden : Bool) (h : TimerInv c) :
    TimerInv (onVisibilityChange c hidden) := by
  unfold onVisibilityChange
  split_ifs
  · exact TimerInv_stopPolling c h
  · exact TimerInv_startPolling c h
  · exact h

/-- The timer invariant is kept by every event. -/
theorem TimerInv_apply (ev : ClientEvent) (c : Client) (h : TimerInv c) :
    TimerInv (ev.apply c) := by
  cases ev with
  | startPolling => exact TimerInv_startPolling c h
  | stopPolling => exact TimerInv_stopPolling c h
  | selectStart sessionId =>
    have h₁ := TimerInv_stopPolling c h
    exact h₁
  | loadMessages response => exact TimerInv_loadMessages c response h
  | pollTick response =>
    show TimerInv (pollTick c response)
    unfold pollTick
    cases presentId c.state.currentSessionId with
    | none => exact h
    | some sid => exact TimerInv_loadMessages c response h
  | sendStart text =>
    show TimerInv ((sendStart c text).getD c)
    unfold sendStart
    cases presentId c.state.currentSessionId with
    | none => exact h
    | some sid =>
      dsimp only
      split_ifs
      · exact h
      · exact h
      · exact h
  | sendFinish text now post load => exact TimerInv_sendFinish c text now post load h
  | switchTab tabId saveToStorage =>
    show TimerInv (switchTab c tabId saveToStorage)
    unfold switchTab
    by_cases hchat : tabId = "chat"
    · simp only [hchat, if_true]
      cases presentId c.state.currentSessionId with
      | none => exact TimerInv_stopPolling _ h
      | some sid => exact h
    · simp only [hchat, if_false]
      exact h
  | visibilityChange hidden =>
    exact TimerInv_onVisibilityChange _ hidden (TimerInv_onVisibilityChange c hidden h)
  | backToList =>
    have h₁ : TimerInv (stopPolling
        { c with state := { c.state with currentSessionId := none, currentSession := none } }) :=
      TimerInv_stopPolling _ h
    exact h₁
  | deleteSession sessionId =>
    show TimerInv (deleteSession c sessionId)
    unfold deleteSession
    by_cases hid : sessionId = ""
    · simp only [hid, if_true]
      exact h
    · simp only [hid, if_false]
      by_cases hcur : c.state.currentSessionId = some sessionId
      · simp only [hcur, if_true]
        have h₁ : TimerInv (stopPolling
            { c with state := { c.state with
                sessions := c.state.sessions.filter (fun s => s.sessionId ≠ sessionId),
                currentSessionId := none, currentSession := none, messages := [] } }) :=
          TimerInv_stopPolling _ h
        exact h₁
      · simp only [hcur, if_false]
        exact h
  | other f => exact h

theorem TimerInv_reachable (c : Client) (h : Reachable c) : TimerInv c := by
  induction h with
  | init c hstate htimers =>
    unfold TimerInv
    rw [htimers, hstate]
    rfl
  | step c ev _ ih => exact TimerInv_apply ev c ih

/-- C26: in every reachable page the live polling timers are exactly the one
whose handle is stored in `state.pollingInterval` (none when it is null);
`stopPolling` leaves no live timer; `startPolling` creates none when no session
is selected, and otherwise leaves exactly the timer it creates, having cleared
the one that existed. -/
theorem single_timer (c : Client) (h : Reachable c) :
    c.timers = c.state.pollingInterval.toList ∧ c.timers.length ≤ 1 ∧
    ((stopPolling c).timers = [] ∧ (stopPolling c).state.pollingInterval = none) ∧
    (presentId c.state.currentSessionId = none → startPolling c = c) ∧
    (∀ sid, presentId c.state.currentSessionId = some sid →
      (startPolling c).timers = [c.nextHandle] ∧
      (startPolling c).state.pollingInterval = some c.nextHandle) := by
  have hinv := TimerInv_reachable c h
  refine ⟨hinv, ?_, stopPolling_clears c hinv, ?_, ?_⟩
  · unfold TimerInv at hinv
    rw [hinv]
    cases c.state.pollingInterval <;> simp
  · intro hs
    unfold startPolling
    simp only [hs]
  · intro sid hs
    exact startPolling_creates c sid hinv hs

/-- C26 at a concrete page: a session selected and polling started. -/
theorem single_timer_witness :
    Reachable clientPolling ∧
    (clientPolling.timers = clientPolling.state.pollingInterval.toList ∧
     clientPolling.timers.length ≤ 1 ∧
     ((stopPolling clientPolling).timers = [] ∧
      (stopPolling clientPolling).state.pollingInterval = none) ∧
     (presentId clientPolling.state.currentSessionId = none →
      startPolling clientPolling = clientPolling) ∧
     (∀ sid, presentId clientPolling.state.currentSessionId = some sid →
      (startPolling clientPolling).timers = [clientPolling.nextHandle] ∧
      (startPolling clientPolling).state.pollingInterval = some clientPolling.nextHandle)) :=
  ⟨Reachable.step _ _ (Reachable.step _ _ (Reachable.init clientInit rfl rfl)),
    single_timer clientPolling
      (Reachable.step _ _ (Reachable.step _ _ (Reachable.init clientInit rfl rfl)))⟩

theorem selectSession_eq (c : Client) (sessionId : String)
    (response : Except String MessageList) :
    selectSession c sessionId response =
      startPolling (loadMessages (selectStart c sessionId) response) := rfl

/-- C27 as stated fails: with session `s1` selected and timer 0 live, switching
to the chat tab leaves the timer live and stored in `state.pollingInterval`
(the source stops polling there only `if (!state.currentSessionId)`). -/
theorem switchTab_keeps_timer :
    presentId clientOpen.state.currentSessionId = some "s1" ∧
    clientOpen.state.pollingInterval = some 0 ∧ clientOpen.timers = [0] ∧
    (switchTab clientOpen "chat" true).state.pollingInterval = some 0 ∧
    (switchTab clientOpen "chat" true).timers = [0] := by
  decide

/-- C27 (amended): for a page whose polling timer `h` is live, `selectSession`
clears it before it loads and before it starts the new timer; `switchTab` to
the chat tab clears it when no session is selected, and leaves it live and
stored in `state.pollingInterval` when a session is selected. -/
theorem switching_and_timer (c : Client) (h : Nat)
    (hlive : c.state.pollingInterval = some h) (htimers : c.timers = [h]) :
    (∀ sessionId response,
      (selectStart c sessionId).state.pollingInterval = none ∧
      (selectStart c sessionId).timers = [] ∧
      selectSession c sessionId response =
        startPolling (loadMessages (selectStart c sessionId) response)) ∧
    (∀ save, presentId c.state.currentSessionId = none →
      (switchTab c "chat" save).state.pollingInterval = none ∧
      (switchTab c "chat" save).timers = []) ∧
    (∀ save, (presentId c.state.currentSessionId).isSome →
      (switchTab c "chat" save).state.pollingInterval = some h ∧
      (switchTab c "chat" save).timers = [h]) := by
  refine ⟨?_, ?_, ?_⟩
  · intro sessionId response
    refine ⟨?_, ?_, rfl⟩
    · simp [selectStart, stopPolling, hlive]
    · simp [selectStart, stopPolling, hlive, htimers]
  · intro save hs
    unfold switchTab
    simp only [if_true, hs]
    simp [stopPolling, hlive, htimers]
  · intro save hsel
    unfold switchTab
    simp only [if_true]
    cases hp : presentId c.state.currentSessionId with
    | none => rw [hp] at hsel; simp at hsel
    | some sid => exact ⟨hlive, htimers⟩

/-- C27 (amended) at the concrete page `clientOpen`, whose timer 0 is live. -/
theorem switching_and_timer_witness :
    (clientOpen.state.pollingInterval = some 0 ∧ clientOpen.timers = [0]) ∧
    ((∀ sessionId response,
      (selectStart clientOpen sessionId).state.pollingInterval = none ∧
      (selectStart clientOpen sessionId).timers = [] ∧
      selectSession clientOpen sessionId response =
        startPolling (loadMessages (selectStart clientOpen sessionId) response)) ∧
     (∀ save, presentId clientOpen.state.currentSessionId = none →
      (switchTab clientOpen "chat" save).state.pollingInterval = none ∧
      (switchTab clientOpen "chat" save).timers = []) ∧
     (∀ save, (presentId clientOpen.state.currentSessionId).isSome →
      (switchTab clientOpen "chat" save).state.pollingInterval = some 0 ∧
      (switchTab clientOpen "chat" save).timers = [0])) :=
  ⟨⟨rfl, rfl⟩, switching_and_timer clientOpen 0 rfl rfl⟩

/-! ## The client: sending -/

/-- C28 at the failing input: session `s1` is open and `sendMessage(' halo ')`
runs.  While the POST is in flight `state.messages` is the list held before,
and when the POST is answered with an error the list is still that list and the
function returns `false`: nothing is appended before the round trip
completes. -/
theorem sendMessage_not_before_response :
    (sendStart clientOpen " halo ").map (fun c => c.state.messages) =
      some clientOpen.state.messages ∧
    (sendMessage clientOpen " halo " 31 (.error "gagal") (.error "")).1.state.messages =
      clientOpen.state.messages ∧
    (sendMessage clientOpen " halo " 31 (.error "gagal") (.error "")).2 = false := by
  decide

/-- What `sendMessage` does around the POST, for a selected session, a
non-blank text, no send in flight and a signed-in user: it appends nothing
before the POST is answered and nothing when it fails; when the POST is
answered with the stored message it appends one entry with the server-assigned
id, the sender's own identity, `isOwn = true` and the trimmed text, unless the
list already holds an entry with that id; so a list that held at most one entry
with that id holds exactly one afterwards. -/
theorem sendMessage_after_response (c : Client) (text : String) (now : Timestamp)
    (sid : String) (user : ClientUser) (m : SentMessage) (load : Except String MessageList)
    (hs : presentId c.state.currentSessionId = some sid) (htext : jsTrim text ≠ "")
    (hidle : c.state.isSendingMessage = false) (huser : c.state.user = some user) :
    (∃ c₁, sendStart c text = some c₁ ∧ c₁.state.messages = c.state.messages) ∧
    (∀ err, (sendMessage c text now (.error err) load).1.state.messages = c.state.messages ∧
      (sendMessage c text now (.error err) load).2 = false) ∧
    (sendMessage c text now (.ok ⟨some m⟩) load).2 = true ∧
    (sendMessage c text now (.ok ⟨some m⟩) load).1.state.messages =
      (if c.state.messages.any (fun x => x.messageId = m.messageId) then c.state.messages
       else c.state.messages ++
        [{ messageId := m.messageId, sessionId := c.state.currentSessionId.getD "",
           userId := some user.userId, displayName := user.displayName, text := jsTrim text,
           createdAt := m.createdAt.getD now, isOwn := true, isSystem := false }]) ∧
    (c.state.messages.countP (fun x => x.messageId = m.messageId) ≤ 1 →
      (sendMessage c text now (.ok ⟨some m⟩) load).1.state.messages.countP
        (fun x => x.messageId = m.messageId) = 1) := by
  have hstart : sendStart c text =
      some { c with state := { c.state with isSendingMessage := true } } := by
    unfold sendStart
    simp [hs, htext, hidle]
  have hmsgs : (sendMessage c text now (.ok ⟨some m⟩) load).1.state.messages =
      (if c.state.messages.any (fun x => x.messageId = m.messageId) then c.state.messages
       else c.state.messages ++
        [{ messageId := m.messageId, sessionId := c.state.currentSessionId.getD "",
           userId := some user.userId, displayName := user.displayName, text := jsTrim text,
           createdAt := m.createdAt.getD now, isOwn := true, isSystem := false }]) := by
    unfold sendMessage
    rw [hstart]
    unfold sendFinish
    simp only [huser]
    by_cases hany : c.state.messages.any (fun x => x.messageId = m.messageId) = true
    · simp only [hany, if_true]
    · simp only [hany, Bool.false_eq_true, if_false]
  refine ⟨⟨_, hstart, rfl⟩, ?_, ?_, hmsgs, ?_⟩
  · intro err
    unfold sendMessage
    rw [hstart]
    exact ⟨rfl, rfl⟩
  · unfold sendMessage
    rw [hstart]
    unfold sendFinish
    simp only [huser]
  · intro hle
    rw [hmsgs]
    by_cases hany : c.state.messages.any (fun x => x.messageId = m.messageId) = true
    · simp only [hany, if_true]
      have hpos : 0 < c.state.messages.countP (fun x => x.messageId = m.messageId) := by
        rw [List.countP_pos_iff]
        obtain ⟨x, hx, hp⟩ := List.any_eq_true.mp hany
        exact ⟨x, hx, hp⟩
      omega
    · simp only [hany, Bool.false_eq_true, if_false]
      have hzero : c.state.messages.countP (fun x => x.messageId = m.messageId) = 0 := by
        rw [List.countP_eq_zero]
        intro x hx hp
        exact hany (List.any_eq_true.mpr ⟨x, hx, hp⟩)
      rw [List.countP_append, hzero]
      simp

/-- The page `clientOpen` sending `halo`: the hypotheses of
`sendMessage_after_response` hold there. -/
theorem sendMessage_after_response_witness :
    (presentId clientOpen.state.currentSessionId = some "s1" ∧ jsTrim " halo " ≠ "" ∧
      clientOpen.state.isSendingMessage = false ∧
      clientOpen.state.user = some ⟨"u1", "Ann"⟩) ∧
    ((∃ c₁, sendStart clientOpen " halo " = some c₁ ∧
        c₁.state.messages = clientOpen.state.messages) ∧
     (∀ err, (sendMessage clientOpen " halo " 31 (.error err) (.error "")).1.state.messages =
        clientOpen.state.messages ∧
       (sendMessage clientOpen " halo " 31 (.error err) (.error "")).2 = false) ∧
     (sendMessage clientOpen " halo " 31 (.ok ⟨some ⟨"m4", some 30⟩⟩) (.error "")).2 = true ∧
     (sendMessage clientOpen " halo " 31 (.ok ⟨some ⟨"m4", some 30⟩⟩)
        (.error "")).1.state.messages =
       (if clientOpen.state.messages.any (fun x => x.messageId = "m4") then
          clientOpen.state.messages
        else clientOpen.state.messages ++
          [{ messageId := "m4", sessionId := clientOpen.state.currentSessionId.getD "",
             userId := some "u1", displayName := "Ann", text := jsTrim " halo ",
             createdAt := (some 30 : Option Timestamp).getD 31, isOwn := true,
             isSystem := false }]) ∧
     (clientOpen.state.messages.countP (fun x => x.messageId = "m4") ≤ 1 →
       (sendMessage clientOpen " halo " 31 (.ok ⟨some ⟨"m4", some 30⟩⟩)
          (.error "")).1.state.messages.countP (fun x => x.messageId = "m4") = 1)) :=
  ⟨⟨rfl, by decide, rfl, rfl⟩,
    sendMessage_after_response clientOpen " halo " 31 "s1" ⟨"u1", "Ann"⟩ ⟨"m4", some 30⟩
      (.error "") rfl (by decide) rfl rfl⟩

/-- C30 at the failing input: the page holds the server's messages up to its
cursor 20 while the server already has `mA`, created at 25 by another
participant.  The send is answered with the stored message, created at 30, and
moves the cursor to 30; the next incremental load asks for messages after 30
and gets none, so `mA` is never held. -/
theorem send_then_load_skips :
    clientOpen.state.messages = historyBefore.filter (fun m => m.createdAt ≤ 20) ∧
    clientOpen.state.lastMessageTime = some 20 ∧
    (sendMessage clientOpen " halo " 31 (.ok ⟨some ⟨"m4", some 30⟩⟩) (.error "")).2 = true ∧
    clientAfterSend.state.lastMessageTime = some 30 ∧
    (loadMessages clientAfterSend (.ok (listEndpoint (historyBefore ++ [ownMessage])
      clientAfterSend.state.lastMessageTime))).state.messages =
      [clientMessage "m1" 10, clientMessage "m2" 20, ownMessage] ∧
    clientMessage "mA" 25 ∈ historyBefore ++ [ownMessage] ∧
    clientMessage "mA" 25 ∉ (loadMessages clientAfterSend (.ok (listEndpoint
      (historyBefore ++ [ownMessage]) clientAfterSend.state.lastMessageTime))).state.messages := by
  decide

/-! ## Two concurrent calls of `ensureAnonNumber` -/

theorem procStep_distinct (db : Db) (fault : Option DbError) (random : Nat → Draw)
    (userId : String) (pc : Pc) (h : StoredDistinct db.users) :
    StoredDistinct (procStep true db fault random userId pc).1.users := by
  cases pc with
  | start =>
    unfold procStep
    by_cases hid : userId = ""
    · simp only [hid, if_true]
      exact h
    · simp only [hid, if_false]
      cases fetchUser db fault userId with
      | error e => exact h
      | ok user =>
        dsimp only
        split_ifs
        · exact h
        · exact h
  | check attempt =>
    unfold procStep
    dsimp only
    cases checkTaken db fault (candidateOf (random attempt)) with
    | error e => exact h
    | ok v =>
      cases v with
      | none => exact h
      | some w => exact h
  | update n =>
    unfold procStep updateAnonStore
    cases fault with
    | some e => exact h
    | none =>
      dsimp only
      by_cases hd : StoredDistinct (setAnon db.users userId n)
      · simp only [hd, not_true_eq_false, and_false, if_false]
      · simp only [hd, not_false_eq_true, and_self, if_true]
        exact h
  | reread =>
    unfold procStep
    cases fetchUser db fault userId with
    | error e => exact h
    | ok user => exact h
  | done r => exact h

theorem updateAnonStore_false (db : Db) (fault : Option DbError) (userId : String) (n : Int) :
    updateAnonStore false db fault userId n = updateAnon db fault userId n := by
  unfold updateAnonStore updateAnon
  cases fault with
  | some e => rfl
  | none => simp

theorem soloRun_store (db db' : Db) (fault : Nat → Option DbError) (random : Nat → Draw)
    (userId : String) (r : Option Int) :
    ∀ (fuel k : Nat), soloRun db fault random userId fuel k (db', .done r) = (db', .done r) := by
  intro fuel
  induction fuel with
  | zero => intro k; rfl
  | succ n ih =>
    intro k
    unfold soloRun
    exact ih (k + 1)

theorem soloRun_update (db : Db) (fault : Nat → Option DbError) (random : Nat → Draw)
    (userId : String) (base fuel : Nat) (c : Int) (hc : truthy (some c) = true) :
    soloRun db fault random userId (fuel + 2) (2 + base) (db, afterLoop (some c)) =
      finishCall db fault userId base (some c, 1) := by
  have h2 : 2 + base = 1 + base + 1 := by omega
  unfold finishCall afterLoop
  simp only [hc, if_true, Option.getD_some]
  unfold soloRun procStep
  simp only [updateAnonStore_false, h2]
  cases hu : updateAnon db (fault (1 + base + 1)) userId c with
  | ok db' =>
    simp only []
    exact soloRun_store db db' fault random userId (some c) (fuel + 1) _
  | error e =>
    simp only []
    unfold soloRun procStep
    have h4 : 1 + base + 1 + 1 = 2 + base + 1 := by omega
    simp only [h4]
    cases fetchUser db (fault (2 + base + 1)) userId with
    | ok u => exact soloRun_store db db fault random userId _ fuel _
    | error e => exact soloRun_store db db fault random userId _ fuel _

theorem finishCall_shift (db : Db) (fault : Nat → Option DbError) (userId : String)
    (base : Nat) (r : Option Int × Nat) :
    finishCall db fault userId base (r.1, r.2 + 1) = finishCall db fault userId (base + 1) r := by
  unfold finishCall
  have h1 : 1 + base + (r.2 + 1) = 1 + (base + 1) + r.2 := by omega
  have h2 : 2 + base + (r.2 + 1) = 2 + (base + 1) + r.2 := by omega
  simp only [h1, h2]

theorem soloRun_loop (db : Db) (fault : Nat → Option DbError) (random : Nat → Draw)
    (userId : String) :
    ∀ (remaining attempt : Nat), attempt + remaining = MAX_RETRIES →
      soloRun db fault random userId (remaining + 2) (1 + attempt) (db, nextCheck attempt) =
        finishCall db fault userId attempt (drawLoop db fault random remaining attempt) := by
  intro remaining
  induction remaining with
  | zero =>
    intro attempt h
    have hn : nextCheck attempt = .done none := by
      unfold nextCheck afterLoop
      have : ¬ attempt < MAX_RETRIES := by omega
      simp [this, truthy]
    rw [hn, soloRun_store]
    unfold drawLoop finishCall
    simp [truthy]
  | succ n ih =>
    intro attempt h
    have hlt : attempt < MAX_RETRIES := by omega
    have hn : nextCheck attempt = .check attempt := by
      unfold nextCheck
      simp [hlt]
    have hidx : 1 + attempt + 1 = 1 + (attempt + 1) := by omega
    rw [hn]
    unfold soloRun procStep drawLoop
    dsimp only
    cases hck : checkTaken db (fault (1 + attempt)) (candidateOf (random attempt)) with
    | error e =>
      dsimp only
      rw [finishCall_shift, hidx]
      exact ih (attempt + 1) (by omega)
    | ok v =>
      cases v with
      | some w =>
        dsimp only
        rw [finishCall_shift, hidx]
        exact ih (attempt + 1) (by omega)
      | none =>
        dsimp only
        have hc : truthy (some (candidateOf (random attempt))) = true := by
          have := candidateOf_pos (random attempt)
          simp only [truthy, bne_iff_ne, ne_eq]
          omega
        have h2 : 1 + attempt + 1 = 2 + attempt := by omega
        rw [h2]
        exact soloRun_update db fault random userId attempt n _ hc

/-- A call of `ensureAnonNumber` stepped alone through its store calls, over a
store without the constraint, ends with the store and the result of the
sequential definition. -/
theorem soloRun_eq_ensureAnonNumber (db : Db) (fault : Nat → Option DbError)
    (random : Nat → Draw) (userId : String) :
    soloRun db fault random userId (MAX_RETRIES + 3) 0 (db, .start) =
      ((ensureAnonNumber db fault random userId).db,
        .done (ensureAnonNumber db fault random userId).result) := by
  unfold soloRun procStep ensureAnonNumber
  by_cases hid : userId = ""
  · simp only [hid, if_true]
    exact soloRun_store db db fault random "" none _ _
  · simp only [hid, if_false]
    cases hf : fetchUser db (fault 0) userId with
    | error e => exact soloRun_store db db fault random userId none _ _
    | ok user =>
      dsimp only
      by_cases ht : truthy user.anon_number = true
      · simp only [ht, if_true]
        exact soloRun_store db db fault random userId _ _ _
      · have ht' : truthy user.anon_number = false := by simpa using ht
        simp only [ht', Bool.false_eq_true, if_false]
        have hl := soloRun_loop db fault random userId MAX_RETRIES 0 (by omega)
        simp only [Nat.add_zero, Nat.zero_add] at hl ⊢
        rw [hl]
        unfold finishCall
        by_cases hfound : truthy (drawLoop db fault random MAX_RETRIES 0).1 = true
        · simp only [hfound, if_true, Nat.add_zero]
          cases updateAnon db (fault (1 + (drawLoop db fault random MAX_RETRIES 0).2)) userId
              ((drawLoop db fault random MAX_RETRIES 0).1.getD 0) with
          | ok db' => rfl
          | error e =>
            dsimp only
            cases fetchUser db (fault (2 + (drawLoop db fault random MAX_RETRIES 0).2)) userId with
            | ok u => rfl
            | error e => rfl
        · have hfound' : truthy (drawLoop db fault random MAX_RETRIES 0).1 = false := by
            simpa using hfound
          simp only [hfound', Bool.false_eq_true, if_false]

/-! ## A failed update beside other requests -/

theorem soloRun_add (db : Db) (fault : Nat → Option DbError) (random : Nat → Draw)
    (userId : String) :
    ∀ (a b k : Nat) (s : Db × Pc),
      soloRun db fault random userId (a + b) k s =
        soloRun db fault random userId b (k + a) (soloRun db fault random userId a k s) := by
  intro a
  induction a with
  | zero => intro b k s; simp [soloRun]
  | succ n ih =>
    intro b k s
    have h1 : n + 1 + b = (n + b) + 1 := by omega
    have h2 : k + (n + 1) = k + 1 + n := by omega
    have e1 : soloRun db fault random userId (n + b + 1) k s =
        soloRun db fault random userId (n + b) (k + 1)
          (procStep false s.1 (fault k) random userId s.2) := rfl
    have e2 : soloRun db fault random userId (n + 1) k s =
        soloRun db fault random userId n (k + 1)
          (procStep false s.1 (fault k) random userId s.2) := rfl
    rw [h1, h2, e1, e2]
    exact ih b (k + 1) _

theorem runAmong_add (others : Nat → Db → Db) (fault : Nat → Option DbError)
    (random : Nat → Draw) (userId : String) :
    ∀ (a b k : Nat) (s : Db × Pc),
      runAmong others fault random userId (a + b) k s =
        runAmong others fault random userId b (k + a)
          (runAmong others fault random userId a k s) := by
  intro a
  induction a with
  | zero => intro b k s; simp [runAmong]
  | succ n ih =>
    intro b k s
    have h1 : n + 1 + b = (n + b) + 1 := by omega
    have h2 : k + (n + 1) = k + 1 + n := by omega
    have e1 : runAmong others fault random userId (n + b + 1) k s =
        runAmong others fault random userId (n + b) (k + 1)
          (procStep false (others k s.1) (fault k) random userId s.2) := rfl
    have e2 : runAmong others fault random userId (n + 1) k s =
        runAmong others fault random userId n (k + 1)
          (procStep false (others k s.1) (fault k) random userId s.2) := rfl
    rw [h1, h2, e1, e2]
    exact ih b (k + 1) _

/-- While the other requests write nothing, the call runs as it does alone. -/
theorem runAmong_quiet (db : Db) (others : Nat → Db → Db) (fault : Nat → Option DbError)
    (random : Nat → Draw) (userId : String) :
    ∀ (a k : Nat) (s : Db × Pc), (∀ j d, k ≤ j → j < k + a → others j d = d) →
      runAmong others fault random userId a k s = soloRun db fault random userId a k s := by
  intro a
  induction a with
  | zero => intro k s _; rfl
  | succ n ih =>
    intro k s h
    unfold runAmong soloRun
    rw [h k s.1 (le_refl k) (by omega)]
    exact ih (k + 1) _ (fun j d h1 h2 => h j d (by omega) (by omega))

theorem runAmong_done (others : Nat → Db → Db) (fault : Nat → Option DbError)
    (random : Nat → Draw) (userId : String) (r : Option Int) :
    ∀ (a k : Nat) (d : Db), (∀ j x, k ≤ j → others j x = x) →
      runAmong others fault random userId a k (d, .done r) = (d, .done r) := by
  intro a
  induction a with
  | zero => intro k d _; rfl
  | succ n ih =>
    intro k d h
    unfold runAmong
    rw [h k _ (le_refl k)]
    exact ih (k + 1) d (fun j x h1 => h j x (by omega))

/-- A call alone stands before the check of attempt `j` after `1 + j` store
calls, when no earlier attempt found a free candidate. -/
theorem soloRun_reaches_check (db : Db) (fault : Nat → Option DbError) (random : Nat → Draw)
    (userId : String) (user : UserRow) (hid : userId ≠ "")
    (hread : fetchUser db (fault 0) userId = .ok user)
    (hnone : truthy user.anon_number = false) :
    ∀ j, j < 20 → (∀ i, i < j → ¬ freeAt db fault random i) →
      soloRun db fault random userId (1 + j) 0 (db, .start) = (db, .check j) := by
  intro j
  induction j with
  | zero =>
    intro _ _
    unfold soloRun procStep
    simp only [hid, if_false, hread, hnone, Bool.false_eq_true]
    unfold soloRun nextCheck
    simp [MAX_RETRIES]
  | succ n ih =>
    intro hj hfirst
    have hprev := ih (by omega) (fun i hi => hfirst i (by omega))
    have h1 : 1 + (n + 1) = (1 + n) + 1 := by omega
    rw [h1, soloRun_add, hprev]
    have hnf := hfirst n (by omega)
    unfold freeAt at hnf
    have h2 : 0 + (1 + n) = 1 + n := by omega
    rw [h2]
    unfold soloRun procStep
    dsimp only
    have hnext : nextCheck (n + 1) = .check (n + 1) := by
      unfold nextCheck
      simp [MAX_RETRIES, hj]
    cases hc : checkTaken db (fault (1 + n)) (candidateOf (random n)) with
    | error e => simp only [hnext]; rfl
    | ok v =>
      cases v with
      | none => exact absurd hc hnf
      | some w => simp only [hnext]; rfl

/-- A call alone stands before the re-read, over the unchanged store, after
`3 + k` store calls when attempt `k` is the first to find a free candidate and
the update fails. -/
theorem soloRun_reaches_reread (db : Db) (fault : Nat → Option DbError) (random : Nat → Draw)
    (userId : String) (user : UserRow) (k : Nat) (e : DbError) (hid : userId ≠ "")
    (hread : fetchUser db (fault 0) userId = .ok user)
    (hnone : truthy user.anon_number = false)
    (hk : k < 20) (hfree : freeAt db fault random k)
    (hfirst : ∀ j, j < k → ¬ freeAt db fault random j)
    (hupdate : fault (2 + k) = some e) :
    soloRun db fault random userId (3 + k) 0 (db, .start) = (db, .reread) := by
  have hcheck := soloRun_reaches_check db fault random userId user hid hread hnone k hk hfirst
  have h1 : 3 + k = (1 + k) + 2 := by omega
  have h2 : 0 + (1 + k) = 1 + k := by omega
  have h3 : 1 + k + 1 = 2 + k := by omega
  rw [h1, soloRun_add, hcheck, h2]
  unfold freeAt at hfree
  unfold soloRun procStep
  dsimp only
  rw [hfree]
  dsimp only
  unfold afterLoop
  simp only [truthy_candidateOf, if_true, Option.getD_some]
  unfold soloRun procStep
  simp only [h3, hupdate, updateAnonStore]
  rfl

/-- C15: for a user without an alias, when attempt `k` is the first to find a
free candidate and the update that persists it fails, `ensureAnonNumber` writes
nothing, reads the user's row again as its last store call, and returns the
alias stored in that row at that moment (`null` if there is none or the read
fails): run alone the row still has no alias and the result is `null`; when
other requests have changed the store to `other db` in between, the result is
the alias the row has in `other db`, and it is the candidate only if that is
what the row holds. -/
theorem ensureAnonNumber_update_fails (db : Db) (fault : Nat → Option DbError)
    (random : Nat → Draw) (userId : String) (user : UserRow) (k : Nat) (e : DbError)
    (other : Db → Db)
    (hid : userId ≠ "") (hread : fetchUser db (fault 0) userId = .ok user)
    (hnone : truthy user.anon_number = false)
    (hk : k < 20) (hfree : freeAt db fault random k)
    (hfirst : ∀ j, j < k → ¬ freeAt db fault random j)
    (hupdate : fault (2 + k) = some e) :
    ((ensureAnonNumber db fault random userId).result = none ∧
      (ensureAnonNumber db fault random userId).db = db ∧
      (ensureAnonNumber db fault random userId).log =
        Op.selectUserAnon userId :: checkOps random (k + 1) ++
          [Op.updateUserAnon userId (candidateOf (random k)), Op.selectUserAnon userId]) ∧
    runAmong (onlyBefore (3 + k) other) fault random userId (MAX_RETRIES + 3) 0 (db, .start) =
      (other db, .done (match fetchUser (other db) (fault (3 + k)) userId with
        | .ok row => orNull row.anon_number
        | .error _ => none)) ∧
    (∀ row a, fetchUser (other db) (fault (3 + k)) userId = .ok row →
      row.anon_number = some a → a ≠ 0 →
      (runAmong (onlyBefore (3 + k) other) fault random userId (MAX_RETRIES + 3) 0
        (db, .start)).2 = .done (some a)) ∧
    (∀ row, fetchUser (other db) (fault (3 + k)) userId = .ok row →
      row.anon_number ≠ some (candidateOf (random k)) →
      (runAmong (onlyBefore (3 + k) other) fault random userId (MAX_RETRIES + 3) 0
        (db, .start)).2 ≠ .done (some (candidateOf (random k)))) := by
  have halone := ensureAnonNumber_update_fails_alone db fault random userId user k e hid hread
    hnone hk hfree hfirst hupdate
  have hrun : runAmong (onlyBefore (3 + k) other) fault random userId (MAX_RETRIES + 3) 0
      (db, .start) =
      (other db, .done (match fetchUser (other db) (fault (3 + k)) userId with
        | .ok row => orNull row.anon_number
        | .error _ => none)) := by
    have h1 : MAX_RETRIES + 3 = (3 + k) + (1 + (19 - k)) := by
      unfold MAX_RETRIES
      omega
    have h2 : 0 + (3 + k) = 3 + k := by omega
    rw [h1, runAmong_add, h2,
      runAmong_quiet db (onlyBefore (3 + k) other) fault random userId (3 + k) 0 (db, .start)
        (fun j d _ hj => by unfold onlyBefore; rw [if_neg (by omega)]),
      soloRun_reaches_reread db fault random userId user k e hid hread hnone hk hfree hfirst
        hupdate,
      runAmong_add]
    have hstep : runAmong (onlyBefore (3 + k) other) fault random userId 1 (3 + k)
        (db, .reread) =
        (other db, .done (match fetchUser (other db) (fault (3 + k)) userId with
          | .ok row => orNull row.anon_number
          | .error _ => none)) := by
      unfold runAmong procStep
      simp only [onlyBefore, if_true]
      unfold runAmong
      cases fetchUser (other db) (fault (3 + k)) userId with
      | ok row => rfl
      | error e2 => rfl
    rw [hstep]
    exact runAmong_done (onlyBefore (3 + k) other) fault random userId _ (19 - k) (3 + k + 1)
      (other db) (fun j x hj => by unfold onlyBefore; rw [if_neg (by omega)])
  refine ⟨?_, hrun, ?_, ?_⟩
  · refine ⟨?_, halone.2.2.1, halone.2.2.2⟩
    rw [halone.1]
    cases hr : fetchUser db (fault (3 + k)) userId with
    | error e2 => rfl
    | ok row =>
      have h1 := fetchUser_eq_ok hread
      have h2 := fetchUser_eq_ok hr
      rw [h1] at h2
      have : user = row := by simpa using h2
      subst this
      simp [orNull, hnone]
  · intro row a hrow ha ha0
    rw [hrun, hrow]
    simp [orNull, truthy, ha, ha0]
  · intro row hrow hne
    rw [hrun, hrow]
    simp only [orNull]
    split_ifs with ht
    · intro heq
      injection heq with heq
      exact hne heq
    · intro heq
      injection heq with heq
      exact absurd heq (by simp)

/-- C15 at a concrete store: 500 is free for `u1`, the update fails, and another
request has stored 250 for `u1` before the re-read: the call returns 250.  The
last part shows the other request as a second call of `ensureAnonNumber` for
`u1`. -/
theorem ensureAnonNumber_update_fails_witness :
    ("u1" ≠ "" ∧
      fetchUser dbTwoUsers (updateFault 0) "u1" = .ok ⟨"u1", "Ann", none, "KODE", none⟩ ∧
      truthy (none : Option Int) = false ∧ 0 < 20 ∧ freeAt dbTwoUsers updateFault drawsHalf 0 ∧
      (∀ j, j < 0 → ¬ freeAt dbTwoUsers updateFault drawsHalf j) ∧
      updateFault (2 + 0) = some ⟨"23505"⟩) ∧
    (runAmong (onlyBefore (3 + 0) otherStores) updateFault drawsHalf "u1" (MAX_RETRIES + 3) 0
      (dbTwoUsers, .start)).2 = .done (some 250) ∧
    (runSchedule false "u1" "u1" drawsHalf drawsQuarter lostUpdateSchedule
      ⟨dbTwoUsers, .start, .start⟩).pc₁ = .done (some 250) :=
  ⟨⟨by decide, rfl, rfl, by decide, rfl, fun j hj => absurd hj (Nat.not_lt_zero j), rfl⟩,
    (ensureAnonNumber_update_fails dbTwoUsers updateFault drawsHalf "u1"
      ⟨"u1", "Ann", none, "KODE", none⟩ 0 ⟨"23505"⟩ otherStores (by decide) rfl rfl (by decide)
      rfl (fun j hj => absurd hj (Nat.not_lt_zero j)) rfl).2.2.1
      ⟨"u1", "Ann", some 250, "KODE", none⟩ 250 rfl rfl (by decide),
    by decide⟩

theorem setAnon_filter_ne (users : List UserRow) (u v : String) (n : Int) (h : v ≠ u) :
    (setAnon users v n).filter (fun x => x.user_id = u) =
      users.filter (fun x => x.user_id = u) := by
  induction users with
  | nil => rfl
  | cons a l ih =>
    unfold setAnon at ih ⊢
    by_cases hv : a.user_id = v
    · have hu : ¬ a.user_id = u := by rw [hv]; exact h
      have hu2 : ¬ v = u := h
      simp [List.filter_cons, hv, hu, hu2, ih]
    · by_cases hu : a.user_id = u
      · have huv : ¬ u = v := fun e => h e.symm
        simp [List.filter_cons, hu, huv, ih]
      · simp [List.filter_cons, hv, hu, ih]

theorem procStep_users (unique : Bool) (db : Db) (fault : Option DbError) (random : Nat → Draw)
    (v : String) (pc : Pc) :
    (procStep unique db fault random v pc).1.users = db.users ∨
      ∃ n, (procStep unique db fault random v pc).1.users = setAnon db.users v n := by
  cases pc with
  | start =>
    left
    unfold procStep
    by_cases hid : v = ""
    · simp only [hid, if_true]
    · simp only [hid, if_false]
      cases fetchUser db fault v with
      | error e => rfl
      | ok user =>
        dsimp only
        split_ifs <;> rfl
  | check attempt =>
    left
    unfold procStep
    dsimp only
    cases checkTaken db fault (candidateOf (random attempt)) with
    | error e => rfl
    | ok w =>
      cases w with
      | none => rfl
      | some x => rfl
  | update n =>
    unfold procStep updateAnonStore
    cases fault with
    | some e => left; rfl
    | none =>
      dsimp only
      split_ifs
      · left; rfl
      · right; exact ⟨n, rfl⟩
  | reread =>
    left
    unfold procStep
    cases fetchUser db fault v with
    | error e => rfl
    | ok user => rfl
  | done r => left; rfl

theorem CallInv_of_filter (db db' : Db) (u : String) (pc : Pc)
    (h : db'.users.filter (fun x => x.user_id = u) = db.users.filter (fun x => x.user_id = u))
    (hinv : CallInv db u pc) : CallInv db' u pc := by
  cases pc <;> simp only [CallInv, storedAnon, h] at hinv ⊢ <;> exact hinv

/-- A step of a call for another user leaves what this call relies on. -/
theorem CallInv_other (unique : Bool) (db : Db) (fault : Option DbError) (random : Nat → Draw)
    (u v : String) (pc pc' : Pc) (hne : v ≠ u) (hinv : CallInv db u pc) :
    CallInv (procStep unique db fault random v pc').1 u pc := by
  apply CallInv_of_filter db _ u pc _ hinv
  rcases procStep_users unique db fault random v pc' with h | ⟨n, h⟩
  · rw [h]
  · rw [h, setAnon_filter_ne _ _ _ _ hne]

theorem CallInv_afterLoop (db : Db) (u : String) (x : Option Int)
    (h : (db.users.filter (fun r => r.user_id = u)).length = 1) :
    CallInv db u (afterLoop x) := by
  unfold afterLoop
  split_ifs
  · exact h
  · intro hs; simp at hs

theorem CallInv_nextCheck (db : Db) (u : String) (k : Nat)
    (h : (db.users.filter (fun r => r.user_id = u)).length = 1) :
    CallInv db u (nextCheck k) := by
  unfold nextCheck
  split_ifs
  · exact h
  · exact CallInv_afterLoop db u none h

/-- A step of the call itself keeps what it relies on. -/
theorem CallInv_step (unique : Bool) (db : Db) (fault : Option DbError) (random : Nat → Draw)
    (u : String) (pc : Pc) (hinv : CallInv db u pc) :
    CallInv (procStep unique db fault random u pc).1 u
      (procStep unique db fault random u pc).2 := by
  cases pc with
  | start =>
    unfold procStep
    by_cases hid : u = ""
    · simp only [hid, if_true]
      intro hs; simp at hs
    · simp only [hid, if_false]
      cases hf : fetchUser db fault u with
      | error e => intro hs; simp at hs
      | ok user =>
        have hrow := fetchUser_eq_ok hf
        dsimp only
        split_ifs
        · intro _
          simp [storedAnon, hrow]
        · exact CallInv_nextCheck db u 0 (by rw [hrow]; rfl)
  | check attempt =>
    have hlen : (db.users.filter (fun r => r.user_id = u)).length = 1 := hinv
    unfold procStep
    dsimp only
    cases checkTaken db fault (candidateOf (random attempt)) with
    | error e => exact CallInv_nextCheck db u (attempt + 1) hlen
    | ok w =>
      cases w with
      | none => exact CallInv_afterLoop db u (some (candidateOf (random attempt))) hlen
      | some x => exact CallInv_nextCheck db u (attempt + 1) hlen
  | update n =>
    have hlen : (db.users.filter (fun r => r.user_id = u)).length = 1 := hinv
    unfold procStep updateAnonStore
    cases fault with
    | some e => exact hlen
    | none =>
      dsimp only
      split_ifs
      · exact hlen
      · intro _
        obtain ⟨x, hx⟩ := List.length_eq_one.1 hlen
        simp [storedAnon, setAnon_filter, hx]
  | reread =>
    unfold procStep
    cases hf : fetchUser db fault u with
    | error e => intro hs; simp at hs
    | ok row =>
      have hrow := fetchUser_eq_ok hf
      intro hs
      have ht : orNull row.anon_number = row.anon_number := by
        unfold orNull at hs ⊢
        split_ifs with h
        · rfl
        · rw [if_neg h] at hs; simp at hs
      simp [storedAnon, hrow, ht]
  | done r => exact hinv

/-- Over a store that enforces the constraint, every interleaving keeps the
stored numbers distinct and what each of the two calls relies on. -/
theorem runSchedule_inv (u₁ u₂ : String) (r₁ r₂ : Nat → Draw) (hne : u₁ ≠ u₂) :
    ∀ (schedule : List (Bool × Option DbError)) (c : Config),
      StoredDistinct c.db.users → CallInv c.db u₁ c.pc₁ → CallInv c.db u₂ c.pc₂ →
      StoredDistinct (runSchedule true u₁ u₂ r₁ r₂ schedule c).db.users ∧
      CallInv (runSchedule true u₁ u₂ r₁ r₂ schedule c).db u₁
        (runSchedule true u₁ u₂ r₁ r₂ schedule c).pc₁ ∧
      CallInv (runSchedule true u₁ u₂ r₁ r₂ schedule c).db u₂
        (runSchedule true u₁ u₂ r₁ r₂ schedule c).pc₂ := by
  intro schedule
  induction schedule with
  | nil => intro c h h1 h2; exact ⟨h, h1, h2⟩
  | cons x rest ih =>
    intro c h h1 h2
    obtain ⟨first, fault⟩ := x
    unfold runSchedule
    apply ih
    · unfold stepConfig
      cases first with
      | true => exact procStep_distinct c.db fault r₁ u₁ c.pc₁ h
      | false => exact procStep_distinct c.db fault r₂ u₂ c.pc₂ h
    · unfold stepConfig
      cases first with
      | true => exact CallInv_step true c.db fault r₁ u₁ c.pc₁ h1
      | false => exact CallInv_other true c.db fault r₂ u₁ u₂ c.pc₁ c.pc₂ (Ne.symm hne) h1
    · unfold stepConfig
      cases first with
      | true => exact CallInv_other true c.db fault r₁ u₂ u₁ c.pc₂ c.pc₁ hne h2
      | false => exact CallInv_step true c.db fault r₂ u₂ c.pc₂ h2

/-- C29 as stated fails: `u1` and `u3` have no alias and both calls draw 500.
Both calls check 500 before either writes, both checks find no owner, and both
updates are carried out: the two users end up with the stored alias 500, and
both calls return 500. -/
theorem concurrent_calls_collide :
    storedAnon dbThreeUsers "u1" = [none] ∧ storedAnon dbThreeUsers "u3" = [none] ∧
    storedAnon (runSchedule false "u1" "u3" drawsHalf drawsHalf raceSchedule
      ⟨dbThreeUsers, .start, .start⟩).db "u1" = [some 500] ∧
    storedAnon (runSchedule false "u1" "u3" drawsHalf drawsHalf raceSchedule
      ⟨dbThreeUsers, .start, .start⟩).db "u3" = [some 500] ∧
    (runSchedule false "u1" "u3" drawsHalf drawsHalf raceSchedule
      ⟨dbThreeUsers, .start, .start⟩).pc₁ = .done (some 500) ∧
    (runSchedule false "u1" "u3" drawsHalf drawsHalf raceSchedule
      ⟨dbThreeUsers, .start, .start⟩).pc₂ = .done (some 500) := by
  decide

/-- C29 (amended): over a store that enforces the unique constraint on
`anon_number`, for two distinct users and every interleaving of two calls of
`ensureAnonNumber`, one per user, with any store faults, at every point of the
run: no row of the one user carries the same stored number as a row of the
other; a number a call has returned is the one stored in its user's row; and
the two calls have not returned the same number. -/
theorem concurrent_aliases_distinct (db : Db) (u₁ u₂ : String) (r₁ r₂ : Nat → Draw)
    (schedule : List (Bool × Option DbError)) (hstore : StoredDistinct db.users)
    (hne : u₁ ≠ u₂) :
    (∀ x ∈ (runSchedule true u₁ u₂ r₁ r₂ schedule ⟨db, .start, .start⟩).db.users,
     ∀ y ∈ (runSchedule true u₁ u₂ r₁ r₂ schedule ⟨db, .start, .start⟩).db.users,
      x.user_id = u₁ → y.user_id = u₂ → ∀ a, x.anon_number = some a →
        y.anon_number ≠ some a) ∧
    (∀ a, (runSchedule true u₁ u₂ r₁ r₂ schedule ⟨db, .start, .start⟩).pc₁ = .done (some a) →
      storedAnon (runSchedule true u₁ u₂ r₁ r₂ schedule ⟨db, .start, .start⟩).db u₁ =
        [some a]) ∧
    (∀ b, (runSchedule true u₁ u₂ r₁ r₂ schedule ⟨db, .start, .start⟩).pc₂ = .done (some b) →
      storedAnon (runSchedule true u₁ u₂ r₁ r₂ schedule ⟨db, .start, .start⟩).db u₂ =
        [some b]) ∧
    (∀ a b,
      (runSchedule true u₁ u₂ r₁ r₂ schedule ⟨db, .start, .start⟩).pc₁ = .done (some a) →
      (runSchedule true u₁ u₂ r₁ r₂ schedule ⟨db, .start, .start⟩).pc₂ = .done (some b) →
      a ≠ b) := by
  obtain ⟨hfinal, hc1, hc2⟩ := runSchedule_inv u₁ u₂ r₁ r₂ hne schedule ⟨db, .start, .start⟩
    hstore trivial trivial
  generalize runSchedule true u₁ u₂ r₁ r₂ schedule ⟨db, .start, .start⟩ = c at hfinal hc1 hc2
  have hrows : ∀ x ∈ c.db.users, ∀ y ∈ c.db.users, x.user_id = u₁ → y.user_id = u₂ →
      ∀ a, x.anon_number = some a → y.anon_number ≠ some a := by
    intro x hx y hy hxu hyu a hxa hya
    have hxy : x ≠ y := by
      intro heq
      rw [heq, hyu] at hxu
      exact hne hxu.symm
    have hsymm : Symmetric (fun u v : UserRow =>
        u.anon_number.isSome → u.anon_number ≠ v.anon_number) := by
      intro u v huv hv heq
      exact huv (by rw [← heq]; exact hv) heq.symm
    have hR := List.Pairwise.forall hsymm hfinal hx hy hxy
    exact hR (by rw [hxa]; rfl) (by rw [hxa, hya])
  have h1 : ∀ a, c.pc₁ = .done (some a) → storedAnon c.db u₁ = [some a] := by
    intro a ha
    rw [ha] at hc1
    exact hc1 rfl
  have h2 : ∀ b, c.pc₂ = .done (some b) → storedAnon c.db u₂ = [some b] := by
    intro b hb
    rw [hb] at hc2
    exact hc2 rfl
  refine ⟨hrows, h1, h2, ?_⟩
  intro a b ha hb hab
  have hs1 := h1 a ha
  have hs2 := h2 b hb
  unfold storedAnon at hs1 hs2
  obtain ⟨x, hx, hxa⟩ : ∃ x ∈ c.db.users.filter (fun u => u.user_id = u₁),
      x.anon_number = some a := by
    have : some a ∈ (c.db.users.filter (fun u => u.user_id = u₁)).map
        (fun u => u.anon_number) := by rw [hs1]; simp
    obtain ⟨x, hx, hxa⟩ := List.mem_map.1 this
    exact ⟨x, hx, hxa⟩
  obtain ⟨y, hy, hyb⟩ : ∃ y ∈ c.db.users.filter (fun u => u.user_id = u₂),
      y.anon_number = some b := by
    have : some b ∈ (c.db.users.filter (fun u => u.user_id = u₂)).map
        (fun u => u.anon_number) := by rw [hs2]; simp
    obtain ⟨y, hy, hyb⟩ := List.mem_map.1 this
    exact ⟨y, hy, hyb⟩
  rw [List.mem_filter] at hx hy
  exact hrows x hx.1 y hy.1 (by simpa using hx.2) (by simpa using hy.2) a hxa
    (by rw [hyb, hab])

/-- C29 (amended) at the interleaving in which both calls find 500 free before
either writes: the first update is accepted and the second is refused by the
store, so `u1` carries 500, which its call returns, and `u3` carries no number
and its call returns `null`. -/
theorem concurrent_aliases_distinct_witness :
    (StoredDistinct dbThreeUsers.users ∧ "u1" ≠ "u3") ∧
    ((∀ x ∈ (runSchedule true "u1" "u3" drawsHalf drawsHalf raceSchedule
        ⟨dbThreeUsers, .start, .start⟩).db.users,
      ∀ y ∈ (runSchedule true "u1" "u3" drawsHalf drawsHalf raceSchedule
        ⟨dbThreeUsers, .start, .start⟩).db.users,
      x.user_id = "u1" → y.user_id = "u3" → ∀ a, x.anon_number = some a →
        y.anon_number ≠ some a) ∧
     (∀ a, (runSchedule true "u1" "u3" drawsHalf drawsHalf raceSchedule
        ⟨dbThreeUsers, .start, .start⟩).pc₁ = .done (some a) →
      storedAnon (runSchedule true "u1" "u3" drawsHalf drawsHalf raceSchedule
        ⟨dbThreeUsers, .start, .start⟩).db "u1" = [some a]) ∧
     (∀ b, (runSchedule true "u1" "u3" drawsHalf drawsHalf raceSchedule
        ⟨dbThreeUsers, .start, .start⟩).pc₂ = .done (some b) →
      storedAnon (runSchedule true "u1" "u3" drawsHalf drawsHalf raceSchedule
        ⟨dbThreeUsers, .start, .start⟩).db "u3" = [some b]) ∧
     (∀ a b,
      (runSchedule true "u1" "u3" drawsHalf drawsHalf raceSchedule
        ⟨dbThreeUsers, .start, .start⟩).pc₁ = .done (some a) →
      (runSchedule true "u1" "u3" drawsHalf drawsHalf raceSchedule
        ⟨dbThreeUsers, .start, .start⟩).pc₂ = .done (some b) →
      a ≠ b)) ∧
    (runSchedule true "u1" "u3" drawsHalf drawsHalf raceSchedule
      ⟨dbThreeUsers, .start, .start⟩).pc₁ = .done (some 500) ∧
    storedAnon (runSchedule true "u1" "u3" drawsHalf drawsHalf raceSchedule
      ⟨dbThreeUsers, .start, .start⟩).db "u1" = [some 500] ∧
    storedAnon (runSchedule true "u1" "u3" drawsHalf drawsHalf raceSchedule
      ⟨dbThreeUsers, .start, .start⟩).db "u3" = [none] ∧
    (runSchedule true "u1" "u3" drawsHalf drawsHalf raceSchedule
      ⟨dbThreeUsers, .start, .start⟩).pc₂ = .done none :=
  ⟨⟨by decide, by decide⟩,
    concurrent_aliases_distinct dbThreeUsers "u1" "u3" drawsHalf drawsHalf raceSchedule
      (by decide) (by decide),
    by decide, by decide, by decide, by decide⟩

/-- The no-break space is white space for `trim`: a text made of it is blank. -/
theorem jsTrim_nbsp : jsTrim (String.mk [Char.ofNat 0xA0]) = "" := by
  decide

end SafeSpace
